import Mathlib

/-!
# The complex-filter scanner of `pkg/v2/crud/expr/filtercomplex.go`

A shallow embedding of the byte-at-a-time scanner for filter expressions.
Bytes are natural numbers (the transition functions only compare a byte with
constants, so no arithmetic on bytes is involved).

The nesting counter `parenLevel` is a Go `int`, 64 bits wide on the usual
targets, whose `++` and `--` wrap around.  The transition functions are
embedded with the counter in the integers: `step` computes what the source
computes as long as the new depth stays within the 64-bit range.  `step64` is
the same step with the stored counter reduced to 64 bits (`int64`), which is
what the source computes at every depth, the two ends of the range included.
Where a statement depends on what happens at the ends of the range, it is made
about `step64`.

Every transition function of the source is a method with receiver `fs` and an
argument `scan`; the scanner is always stepped as `fs.step(fs, c)`, so both
name the same record and the embedding passes a single record.
-/

namespace FilterComplex

/-- Return codes of one scanner step: the `scanFilter*` constants the source
returns.  They are declared in another file of the package as distinct
integers; only their identity matters here. -/
inductive Action
  | scanFilterContinue
  | scanFilterSkipSpace
  | scanFilterBeginAny
  | scanFilterParenthesis
  | scanFilterEndPath
  | scanFilterEndLiteral
  | scanFilterInsertSpace
  | scanFilterEnd
  | scanFilterError
  deriving DecidableEq, Repr

/-- Tags for the transition functions a scanner can have as its `step`.  The
first 42 are the functions defined in `filtercomplex.go`; the last five
(`stateN`, `stateNo`, `stateNot`, `stateEOF`, `stateError`) are referred to by
that file but defined elsewhere in the package. -/
inductive State
  | stateBeginComplexPredicate
  | stateEndComplexPredicate
  | stateComplexN
  | stateComplexNo
  | stateComplexNot
  | stateInComplexPath
  | stateEndComplexPath
  | stateBeginComplexOp
  | stateComplexOpA
  | stateComplexOpAn
  | stateComplexOpAnd
  | stateComplexOpC
  | stateComplexOpCo
  | stateComplexOpE
  | stateComplexOpEq
  | stateComplexOpEw
  | stateComplexOpG
  | stateComplexOpGt
  | stateComplexOpGe
  | stateComplexOpL
  | stateComplexOpLt
  | stateComplexOpLe
  | stateComplexOpN
  | stateComplexOpNe
  | stateComplexOpNo
  | stateComplexOpNot
  | stateComplexOpO
  | stateComplexOpOr
  | stateComplexOpP
  | stateComplexOpPr
  | stateComplexOpS
  | stateComplexOpSw
  | stateBeginComplexLiteral
  | stateEndComplexLiteral
  | stateInComplexStringLiteral
  | stateEndComplexStringLiteral
  | stateInComplexNonStringLiteral
  | stateInComplexStringEsc
  | stateInComplexStringEscU
  | stateInComplexStringEscU1
  | stateInComplexStringEscU12
  | stateInComplexStringEscU123
  | stateN
  | stateNo
  | stateNot
  | stateEOF
  | stateError
  deriving DecidableEq, Repr

/-- True for the transition functions that `filtercomplex.go` defines. -/
def State.inFile : State → Bool
  | .stateN => false
  | .stateNo => false
  | .stateNot => false
  | .stateEOF => false
  | .stateError => false
  | _ => true

/-- The scanner record: the next transition function, the count of open
parentheses and the error slot (offending byte and diagnostic). -/
structure filterScanner where
  step : State
  parenLevel : Int
  err : Option (Nat × String)
  deriving DecidableEq, Repr

/-- What `filtercomplex.go` uses from the rest of the package without defining
it: the two character classifiers and the transition functions behind the five
tags that are not in the file. -/
structure Package where
  isFirstAlphabet : Nat → Bool
  isNonFirstAlphabet : Nat → Bool
  outside : State → filterScanner → Nat → Action × filterScanner

/-- Modelled from the spec: the helper `fs.error`, which is not in the file.
Every rejecting transition returns `Error` carrying the offending byte and a
state-specific diagnostic, and the scanner becomes terminal. -/
def error (fs : filterScanner) (c : Nat) (context : String) : Action × filterScanner :=
  (.scanFilterError, { fs with step := .stateError, err := some (c, context) })

/-- Modelled from the spec: the helper `fs.errInvalidOperator`, which is not in
the file.  A mismatch in an operator chain is an "invalid operator" error
naming the offending byte. -/
def errInvalidOperator (fs : filterScanner) (c : Nat) : Action × filterScanner :=
  error fs c "invalid operator"

/-- Hexadecimal digit test written out in the four `\u` escape states. -/
def isHex (c : Nat) : Bool :=
  (48 ≤ c && c ≤ 57) || (97 ≤ c && c ≤ 102) || (65 ≤ c && c ≤ 70)

/-- Predicate start: space, `n`/`N`, `(`, a first path character, or an error. -/
def stateBeginComplexPredicate (P : Package) (fs : filterScanner) (c : Nat) :
    Action × filterScanner :=
  if c = 32 then (.scanFilterSkipSpace, fs)
  else if c = 110 ∨ c = 78 then (.scanFilterBeginAny, { fs with step := .stateN })
  else if c = 40 then
    (.scanFilterParenthesis,
      { fs with parenLevel := fs.parenLevel + 1, step := .stateBeginComplexPredicate })
  else if P.isFirstAlphabet c then (.scanFilterContinue, { fs with step := .stateInComplexPath })
  else error fs c "invalid character at the start of the predicate"

/-- Predicate end: space, `)`, `a`/`A`, `o`/`O`, the terminating byte, or an error. -/
def stateEndComplexPredicate (fs : filterScanner) (c : Nat) : Action × filterScanner :=
  if c = 32 then (.scanFilterSkipSpace, fs)
  else if c = 41 then (.scanFilterParenthesis, { fs with parenLevel := fs.parenLevel - 1 })
  else if c = 97 ∨ c = 65 then (.scanFilterContinue, { fs with step := .stateComplexOpA })
  else if c = 111 ∨ c = 79 then (.scanFilterContinue, { fs with step := .stateComplexOpO })
  else if c = 0 then (.scanFilterEnd, { fs with step := .stateEOF })
  else error fs c "invalid character at the end of the predicate"

/-- After `n` at the start of a predicate. -/
def stateComplexN (P : Package) (fs : filterScanner) (c : Nat) : Action × filterScanner :=
  if c = 111 ∨ c = 79 then (.scanFilterContinue, { fs with step := .stateNo })
  else if c = 46 ∨ c = 58 ∨ P.isNonFirstAlphabet c then
    (.scanFilterContinue, { fs with step := .stateInComplexPath })
  else error fs c "invalid character in complex path"

/-- After `no` at the start of a predicate. -/
def stateComplexNo (P : Package) (fs : filterScanner) (c : Nat) : Action × filterScanner :=
  if c = 116 ∨ c = 84 then (.scanFilterContinue, { fs with step := .stateNot })
  else if c = 46 ∨ c = 58 ∨ P.isNonFirstAlphabet c then
    (.scanFilterContinue, { fs with step := .stateInComplexPath })
  else error fs c "invalid character in complex path"

/-- After `not` at the start of a predicate. -/
def stateComplexNot (P : Package) (fs : filterScanner) (c : Nat) : Action × filterScanner :=
  if c = 32 then (.scanFilterContinue, { fs with step := .stateBeginComplexPredicate })
  else if c = 40 then (.scanFilterInsertSpace, fs)
  else if c = 46 ∨ c = 58 ∨ P.isNonFirstAlphabet c then
    (.scanFilterContinue, { fs with step := .stateInComplexPath })
  else error fs c "invalid character in complex path"

/-- Inside an attribute path. -/
def stateInComplexPath (P : Package) (fs : filterScanner) (c : Nat) : Action × filterScanner :=
  if c = 32 then (.scanFilterContinue, { fs with step := .stateBeginComplexOp })
  else if c = 46 ∨ c = 58 ∨ P.isNonFirstAlphabet c then (.scanFilterContinue, fs)
  else error fs c "invalid character in complex path"

/-- At the end of an attribute path that was closed by `]`. -/
def stateEndComplexPath (fs : filterScanner) (c : Nat) : Action × filterScanner :=
  if c = 32 then (.scanFilterEndPath, { fs with step := .stateBeginComplexOp })
  else if c = 0 then (.scanFilterEnd, { fs with step := .stateEndComplexPredicate })
  else error fs c "invalid character in complex path"

/-- Start of an operator. -/
def stateBeginComplexOp (fs : filterScanner) (c : Nat) : Action × filterScanner :=
  if c = 32 then (.scanFilterSkipSpace, fs)
  else if c = 97 ∨ c = 65 then (.scanFilterContinue, { fs with step := .stateComplexOpA })
  else if c = 99 ∨ c = 67 then (.scanFilterContinue, { fs with step := .stateComplexOpC })
  else if c = 101 ∨ c = 69 then (.scanFilterContinue, { fs with step := .stateComplexOpE })
  else if c = 103 ∨ c = 71 then (.scanFilterContinue, { fs with step := .stateComplexOpG })
  else if c = 108 ∨ c = 76 then (.scanFilterContinue, { fs with step := .stateComplexOpL })
  else if c = 110 ∨ c = 78 then (.scanFilterContinue, { fs with step := .stateComplexOpN })
  else if c = 111 ∨ c = 79 then (.scanFilterContinue, { fs with step := .stateComplexOpO })
  else if c = 112 ∨ c = 80 then (.scanFilterContinue, { fs with step := .stateComplexOpP })
  else if c = 115 ∨ c = 83 then (.scanFilterContinue, { fs with step := .stateComplexOpS })
  else error fs c "invalid character in operator"

/-- Operator chain after `a`. -/
def stateComplexOpA (fs : filterScanner) (c : Nat) : Action × filterScanner :=
  if c = 110 ∨ c = 78 then (.scanFilterContinue, { fs with step := .stateComplexOpAn })
  else errInvalidOperator fs c

/-- Operator chain after `an`. -/
def stateComplexOpAn (fs : filterScanner) (c : Nat) : Action × filterScanner :=
  if c = 100 ∨ c = 68 then (.scanFilterContinue, { fs with step := .stateComplexOpAnd })
  else errInvalidOperator fs c

/-- Operator chain after `and`. -/
def stateComplexOpAnd (fs : filterScanner) (c : Nat) : Action × filterScanner :=
  if c = 32 then (.scanFilterContinue, { fs with step := .stateBeginComplexPredicate })
  else if c = 40 then (.scanFilterInsertSpace, fs)
  else errInvalidOperator fs c

/-- Operator chain after `c`. -/
def stateComplexOpC (fs : filterScanner) (c : Nat) : Action × filterScanner :=
  if c = 111 ∨ c = 79 then (.scanFilterContinue, { fs with step := .stateComplexOpCo })
  else errInvalidOperator fs c

/-- Operator chain after `co`. -/
def stateComplexOpCo (fs : filterScanner) (c : Nat) : Action × filterScanner :=
  if c = 32 then (.scanFilterContinue, { fs with step := .stateBeginComplexLiteral })
  else errInvalidOperator fs c

/-- Operator chain after `e`. -/
def stateComplexOpE (fs : filterScanner) (c : Nat) : Action × filterScanner :=
  if c = 113 ∨ c = 81 then (.scanFilterContinue, { fs with step := .stateComplexOpEq })
  else if c = 119 ∨ c = 87 then (.scanFilterContinue, { fs with step := .stateComplexOpEw })
  else errInvalidOperator fs c

/-- Operator chain after `eq`. -/
def stateComplexOpEq (fs : filterScanner) (c : Nat) : Action × filterScanner :=
  if c = 32 then (.scanFilterContinue, { fs with step := .stateBeginComplexLiteral })
  else errInvalidOperator fs c

/-- Operator chain after `ew`. -/
def stateComplexOpEw (fs : filterScanner) (c : Nat) : Action × filterScanner :=
  if c = 32 then (.scanFilterContinue, { fs with step := .stateBeginComplexLiteral })
  else errInvalidOperator fs c

/-- Operator chain after `g`. -/
def stateComplexOpG (fs : filterScanner) (c : Nat) : Action × filterScanner :=
  if c = 116 ∨ c = 84 then (.scanFilterContinue, { fs with step := .stateComplexOpGt })
  else if c = 101 ∨ c = 69 then (.scanFilterContinue, { fs with step := .stateComplexOpGe })
  else errInvalidOperator fs c

/-- Operator chain after `gt`. -/
def stateComplexOpGt (fs : filterScanner) (c : Nat) : Action × filterScanner :=
  if c = 32 then (.scanFilterContinue, { fs with step := .stateBeginComplexLiteral })
  else errInvalidOperator fs c

/-- Operator chain after `ge`. -/
def stateComplexOpGe (fs : filterScanner) (c : Nat) : Action × filterScanner :=
  if c = 32 then (.scanFilterContinue, { fs with step := .stateBeginComplexLiteral })
  else errInvalidOperator fs c

/-- Operator chain after `l`. -/
def stateComplexOpL (fs : filterScanner) (c : Nat) : Action × filterScanner :=
  if c = 116 ∨ c = 84 then (.scanFilterContinue, { fs with step := .stateComplexOpLt })
  else if c = 101 ∨ c = 69 then (.scanFilterContinue, { fs with step := .stateComplexOpLe })
  else errInvalidOperator fs c

/-- Operator chain after `lt`. -/
def stateComplexOpLt (fs : filterScanner) (c : Nat) : Action × filterScanner :=
  if c = 32 then (.scanFilterContinue, { fs with step := .stateBeginComplexLiteral })
  else errInvalidOperator fs c

/-- Operator chain after `le`. -/
def stateComplexOpLe (fs : filterScanner) (c : Nat) : Action × filterScanner :=
  if c = 32 then (.scanFilterContinue, { fs with step := .stateBeginComplexLiteral })
  else errInvalidOperator fs c

/-- Operator chain after `n`. -/
def stateComplexOpN (fs : filterScanner) (c : Nat) : Action × filterScanner :=
  if c = 111 ∨ c = 79 then (.scanFilterContinue, { fs with step := .stateComplexOpNo })
  else if c = 101 ∨ c = 69 then (.scanFilterContinue, { fs with step := .stateComplexOpNe })
  else errInvalidOperator fs c

/-- Operator chain after `ne`. -/
def stateComplexOpNe (fs : filterScanner) (c : Nat) : Action × filterScanner :=
  if c = 32 then (.scanFilterContinue, { fs with step := .stateBeginComplexLiteral })
  else errInvalidOperator fs c

/-- Operator chain after `no`. -/
def stateComplexOpNo (fs : filterScanner) (c : Nat) : Action × filterScanner :=
  if c = 116 ∨ c = 84 then (.scanFilterContinue, { fs with step := .stateComplexOpNot })
  else errInvalidOperator fs c

/-- Operator chain after `not`. -/
def stateComplexOpNot (fs : filterScanner) (c : Nat) : Action × filterScanner :=
  if c = 32 then (.scanFilterContinue, { fs with step := .stateBeginComplexPredicate })
  else if c = 40 then (.scanFilterInsertSpace, fs)
  else errInvalidOperator fs c

/-- Operator chain after `o`. -/
def stateComplexOpO (fs : filterScanner) (c : Nat) : Action × filterScanner :=
  if c = 114 ∨ c = 82 then (.scanFilterContinue, { fs with step := .stateComplexOpOr })
  else errInvalidOperator fs c

/-- Operator chain after `or`. -/
def stateComplexOpOr (fs : filterScanner) (c : Nat) : Action × filterScanner :=
  if c = 32 then (.scanFilterContinue, { fs with step := .stateBeginComplexPredicate })
  else if c = 40 then (.scanFilterInsertSpace, fs)
  else errInvalidOperator fs c

/-- Operator chain after `p`. -/
def stateComplexOpP (fs : filterScanner) (c : Nat) : Action × filterScanner :=
  if c = 114 ∨ c = 82 then (.scanFilterContinue, { fs with step := .stateComplexOpPr })
  else errInvalidOperator fs c

/-- Operator chain after `pr`. -/
def stateComplexOpPr (fs : filterScanner) (c : Nat) : Action × filterScanner :=
  if c = 32 ∨ c = 0 then (.scanFilterContinue, { fs with step := .stateEndComplexPredicate })
  else if c = 41 then (.scanFilterInsertSpace, fs)
  else errInvalidOperator fs c

/-- Operator chain after `s`. -/
def stateComplexOpS (fs : filterScanner) (c : Nat) : Action × filterScanner :=
  if c = 119 ∨ c = 87 then (.scanFilterContinue, { fs with step := .stateComplexOpSw })
  else errInvalidOperator fs c

/-- Operator chain after `sw`. -/
def stateComplexOpSw (fs : filterScanner) (c : Nat) : Action × filterScanner :=
  if c = 32 then (.scanFilterContinue, { fs with step := .stateBeginComplexLiteral })
  else errInvalidOperator fs c

/-- Start of a literal: a double quote, or one of `t T f F - +` and the digits. -/
def stateBeginComplexLiteral (fs : filterScanner) (c : Nat) : Action × filterScanner :=
  if c = 34 then (.scanFilterContinue, { fs with step := .stateInComplexStringLiteral })
  else if c = 116 ∨ c = 84 ∨ c = 102 ∨ c = 70 ∨ c = 45 ∨ c = 43 ∨ c = 48 ∨ c = 49 ∨ c = 50 ∨
      c = 51 ∨ c = 52 ∨ c = 53 ∨ c = 54 ∨ c = 55 ∨ c = 56 ∨ c = 57 then
    (.scanFilterContinue, { fs with step := .stateInComplexNonStringLiteral })
  else error fs c "invalid literal"

/-- End of a literal; any byte it does not handle itself is handed to
`stateEndComplexPredicate`. -/
def stateEndComplexLiteral (fs : filterScanner) (c : Nat) : Action × filterScanner :=
  if c = 32 then (.scanFilterSkipSpace, fs)
  else if c = 41 then
    (.scanFilterContinue,
      { fs with parenLevel := fs.parenLevel - 1, step := .stateEndComplexPredicate })
  else if c = 0 then (.scanFilterEnd, { fs with step := .stateEOF })
  else stateEndComplexPredicate fs c

/-- Inside a string literal: two independent tests, then always `Continue`. -/
def stateInComplexStringLiteral (fs : filterScanner) (c : Nat) : Action × filterScanner :=
  let fs1 := if c = 92 then { fs with step := .stateInComplexStringEsc } else fs
  let fs2 := if c = 34 then { fs1 with step := .stateEndComplexStringLiteral } else fs1
  (.scanFilterContinue, fs2)

/-- Right after the closing double quote of a string literal. -/
def stateEndComplexStringLiteral (fs : filterScanner) (c : Nat) : Action × filterScanner :=
  if c = 32 then (.scanFilterContinue, { fs with step := .stateEndComplexLiteral })
  else if c = 41 then (.scanFilterInsertSpace, fs)
  else if c = 93 then (.scanFilterContinue, { fs with step := .stateEndComplexPath })
  else if c = 0 then (.scanFilterEndLiteral, { fs with step := .stateEOF })
  else error fs c "invalid character trailing string literal"

/-- Inside a non-string literal: only its termination is looked at. -/
def stateInComplexNonStringLiteral (fs : filterScanner) (c : Nat) : Action × filterScanner :=
  if c = 32 then (.scanFilterEndLiteral, { fs with step := .stateEndComplexLiteral })
  else if c = 41 then (.scanFilterInsertSpace, fs)
  else if c = 0 then (.scanFilterEndLiteral, { fs with step := .stateEOF })
  else (.scanFilterContinue, fs)

/-- After a backslash inside a string literal. -/
def stateInComplexStringEsc (fs : filterScanner) (c : Nat) : Action × filterScanner :=
  if c = 98 ∨ c = 102 ∨ c = 110 ∨ c = 114 ∨ c = 116 ∨ c = 92 ∨ c = 47 ∨ c = 34 then
    (.scanFilterContinue, { fs with step := .stateInComplexStringLiteral })
  else if c = 117 then (.scanFilterContinue, { fs with step := .stateInComplexStringEscU })
  else error fs c "invalid character in string literal"

/-- First hexadecimal digit of a `\u` escape. -/
def stateInComplexStringEscU (fs : filterScanner) (c : Nat) : Action × filterScanner :=
  if isHex c then (.scanFilterContinue, { fs with step := .stateInComplexStringEscU1 })
  else error fs c "in \\u hexadecimal character escape"

/-- Second hexadecimal digit of a `\u` escape. -/
def stateInComplexStringEscU1 (fs : filterScanner) (c : Nat) : Action × filterScanner :=
  if isHex c then (.scanFilterContinue, { fs with step := .stateInComplexStringEscU12 })
  else error fs c "in \\u hexadecimal character escape"

/-- Third hexadecimal digit of a `\u` escape. -/
def stateInComplexStringEscU12 (fs : filterScanner) (c : Nat) : Action × filterScanner :=
  if isHex c then (.scanFilterContinue, { fs with step := .stateInComplexStringEscU123 })
  else error fs c "in \\u hexadecimal character escape"

/-- Fourth hexadecimal digit of a `\u` escape. -/
def stateInComplexStringEscU123 (fs : filterScanner) (c : Nat) : Action × filterScanner :=
  if isHex c then (.scanFilterContinue, { fs with step := .stateInComplexStringLiteral })
  else error fs c "in \\u hexadecimal character escape"

/-- One step of the scanner, `fs.step(fs, c)`: dispatch on the current tag. -/
def step (P : Package) (fs : filterScanner) (c : Nat) : Action × filterScanner :=
  match fs.step with
  | .stateBeginComplexPredicate => stateBeginComplexPredicate P fs c
  | .stateEndComplexPredicate => stateEndComplexPredicate fs c
  | .stateComplexN => stateComplexN P fs c
  | .stateComplexNo => stateComplexNo P fs c
  | .stateComplexNot => stateComplexNot P fs c
  | .stateInComplexPath => stateInComplexPath P fs c
  | .stateEndComplexPath => stateEndComplexPath fs c
  | .stateBeginComplexOp => stateBeginComplexOp fs c
  | .stateComplexOpA => stateComplexOpA fs c
  | .stateComplexOpAn => stateComplexOpAn fs c
  | .stateComplexOpAnd => stateComplexOpAnd fs c
  | .stateComplexOpC => stateComplexOpC fs c
  | .stateComplexOpCo => stateComplexOpCo fs c
  | .stateComplexOpE => stateComplexOpE fs c
  | .stateComplexOpEq => stateComplexOpEq fs c
  | .stateComplexOpEw => stateComplexOpEw fs c
  | .stateComplexOpG => stateComplexOpG fs c
  | .stateComplexOpGt => stateComplexOpGt fs c
  | .stateComplexOpGe => stateComplexOpGe fs c
  | .stateComplexOpL => stateComplexOpL fs c
  | .stateComplexOpLt => stateComplexOpLt fs c
  | .stateComplexOpLe => stateComplexOpLe fs c
  | .stateComplexOpN => stateComplexOpN fs c
  | .stateComplexOpNe => stateComplexOpNe fs c
  | .stateComplexOpNo => stateComplexOpNo fs c
  | .stateComplexOpNot => stateComplexOpNot fs c
  | .stateComplexOpO => stateComplexOpO fs c
  | .stateComplexOpOr => stateComplexOpOr fs c
  | .stateComplexOpP => stateComplexOpP fs c
  | .stateComplexOpPr => stateComplexOpPr fs c
  | .stateComplexOpS => stateComplexOpS fs c
  | .stateComplexOpSw => stateComplexOpSw fs c
  | .stateBeginComplexLiteral => stateBeginComplexLiteral fs c
  | .stateEndComplexLiteral => stateEndComplexLiteral fs c
  | .stateInComplexStringLiteral => stateInComplexStringLiteral fs c
  | .stateEndComplexStringLiteral => stateEndComplexStringLiteral fs c
  | .stateInComplexNonStringLiteral => stateInComplexNonStringLiteral fs c
  | .stateInComplexStringEsc => stateInComplexStringEsc fs c
  | .stateInComplexStringEscU => stateInComplexStringEscU fs c
  | .stateInComplexStringEscU1 => stateInComplexStringEscU1 fs c
  | .stateInComplexStringEscU12 => stateInComplexStringEscU12 fs c
  | .stateInComplexStringEscU123 => stateInComplexStringEscU123 fs c
  | .stateN => P.outside .stateN fs c
  | .stateNo => P.outside .stateNo fs c
  | .stateNot => P.outside .stateNot fs c
  | .stateEOF => P.outside .stateEOF fs c
  | .stateError => P.outside .stateError fs c

/-- The value a 64-bit Go `int` holds for the integer result `x`: two's
complement wrap-around into the range from `-2^63` to `2^63 - 1`. -/
def int64 (x : Int) : Int := (x + 2 ^ 63) % 2 ^ 64 - 2 ^ 63

/-- One step of the scanner with the counter stored as the source stores it, in
a 64-bit `int`.  Every transition function of the file applies at most one
`parenLevel++` or `parenLevel--` and reads the counter nowhere else, so
reducing the counter that `step` leaves is reducing the result of that one
operation. -/
def step64 (P : Package) (fs : filterScanner) (c : Nat) : Action × filterScanner :=
  ((step P fs c).1, { (step P fs c).2 with parenLevel := int64 (step P fs c).2.parenLevel })

/-- A fresh scanner: predicate-start state, depth 0, empty error slot. -/
def fresh : filterScanner :=
  { step := .stateBeginComplexPredicate, parenLevel := 0, err := none }

/-- One observed step of a driven scan: the byte fed, the tag that was active
when it was read, the action returned and the depth after the step. -/
structure Event where
  byte : Nat
  state : State
  action : Action
  depth : Int
  deriving DecidableEq, Repr

/-- The event of feeding `c` to `fs`. -/
def observe (P : Package) (fs : filterScanner) (c : Nat) : Event :=
  { byte := c, state := fs.step, action := (step P fs c).1, depth := (step P fs c).2.parenLevel }

/-- Modelled from the spec: the driving loop's handling of one input byte (the
loop itself belongs to the external parser).  The byte is fed; on
`InsertSpaceAndReplay` one space is fed and then the original byte is fed
again; once `Error` is produced no further byte is fed. -/
def feed (P : Package) (fs : filterScanner) (c : Nat) : List Event × filterScanner :=
  let r := step P fs c
  if r.1 = .scanFilterInsertSpace then
    let r1 := step P r.2 32
    if r1.1 = .scanFilterError then ([observe P fs c, observe P r.2 32], r1.2)
    else ([observe P fs c, observe P r.2 32, observe P r1.2 c], (step P r1.2 c).2)
  else ([observe P fs c], r.2)

/-- True when some event of the list carries the given action. -/
def hasAction (a : Action) (evs : List Event) : Bool :=
  evs.any (fun e => decide (e.action = a))

/-- Modelled from the spec: the driving loop over a whole input (filter bytes
followed by the sentinel), stopping as soon as `Error` has been returned. -/
def drive (P : Package) (fs : filterScanner) : List Nat → List Event × filterScanner
  | [] => ([], fs)
  | c :: cs =>
    let r := feed P fs c
    if hasAction .scanFilterError r.1 then r
    else ((r.1 ++ (drive P r.2 cs).1), (drive P r.2 cs).2)

/-- The actions of a list of events, in order. -/
def actions (evs : List Event) : List Action := evs.map (fun e => e.action)

/-- The depths after each event, in order. -/
def depths (evs : List Event) : List Int := evs.map (fun e => e.depth)

/-- A concrete instance of the package parameters used to evaluate the scanner:
letters are first characters, letters and digits are continuation characters,
and the tags outside the file reject every byte. -/
def letters : Package :=
  { isFirstAlphabet := fun c => (97 ≤ c && c ≤ 122) || (65 ≤ c && c ≤ 90)
    isNonFirstAlphabet := fun c =>
      (97 ≤ c && c ≤ 122) || (65 ≤ c && c ≤ 90) || (48 ≤ c && c ≤ 57)
    outside := fun _ fs _ => (.scanFilterError, fs) }

/-- The bytes of a string (all examples are ASCII). -/
def bytes (s : String) : List Nat := s.toList.map Char.toNat

/-- ASCII letter test, used to say that letters are path characters. -/
def isLetter (c : Nat) : Bool := (97 ≤ c && c ≤ 122) || (65 ≤ c && c ≤ 90)

/-- The classifiers of the package accept every ASCII letter, both as the first
and as a continuation character of a path segment. -/
def Package.lettersArePath (P : Package) : Prop :=
  ∀ c, isLetter c = true → P.isFirstAlphabet c = true ∧ P.isNonFirstAlphabet c = true

/-- ASCII lower-casing of a byte (the spec's case-insensitive comparison). -/
def lower (c : Nat) : Nat := if 65 ≤ c ∧ c ≤ 90 then c + 32 else c

/-- The nine relational operators of the spec, as pairs of lower-case bytes:
`eq ne co sw ew gt ge lt le`. -/
def relationalOps : List (Nat × Nat) :=
  [(101, 113), (110, 101), (99, 111), (115, 119), (101, 119), (103, 116), (103, 101),
    (108, 116), (108, 101)]

/-- The states inside an operator chain (one or more letters of an operator
have been read). -/
def State.inOperatorChain : State → Bool
  | .stateComplexOpA => true
  | .stateComplexOpAn => true
  | .stateComplexOpAnd => true
  | .stateComplexOpC => true
  | .stateComplexOpCo => true
  | .stateComplexOpE => true
  | .stateComplexOpEq => true
  | .stateComplexOpEw => true
  | .stateComplexOpG => true
  | .stateComplexOpGt => true
  | .stateComplexOpGe => true
  | .stateComplexOpL => true
  | .stateComplexOpLt => true
  | .stateComplexOpLe => true
  | .stateComplexOpN => true
  | .stateComplexOpNe => true
  | .stateComplexOpNo => true
  | .stateComplexOpNot => true
  | .stateComplexOpO => true
  | .stateComplexOpOr => true
  | .stateComplexOpP => true
  | .stateComplexOpPr => true
  | .stateComplexOpS => true
  | .stateComplexOpSw => true
  | _ => false

/-- What an operator chain expects next, following the spec: the lower-case
form of the next letter of an operator that the letters read so far can still
become, or, once an operator is complete, its delimiter (a space for the
value-taking operators; a space or `(` for `and`, `or`, `not`; a space, `)` or
the end sentinel for `pr`). -/
def expectedNext : State → Nat → Bool
  | .stateComplexOpA, c => lower c = 110
  | .stateComplexOpAn, c => lower c = 100
  | .stateComplexOpAnd, c => c = 32 ∨ c = 40
  | .stateComplexOpC, c => lower c = 111
  | .stateComplexOpCo, c => c = 32
  | .stateComplexOpE, c => lower c = 113 ∨ lower c = 119
  | .stateComplexOpEq, c => c = 32
  | .stateComplexOpEw, c => c = 32
  | .stateComplexOpG, c => lower c = 116 ∨ lower c = 101
  | .stateComplexOpGt, c => c = 32
  | .stateComplexOpGe, c => c = 32
  | .stateComplexOpL, c => lower c = 116 ∨ lower c = 101
  | .stateComplexOpLt, c => c = 32
  | .stateComplexOpLe, c => c = 32
  | .stateComplexOpN, c => lower c = 111 ∨ lower c = 101
  | .stateComplexOpNe, c => c = 32
  | .stateComplexOpNo, c => lower c = 116
  | .stateComplexOpNot, c => c = 32 ∨ c = 40
  | .stateComplexOpO, c => lower c = 114
  | .stateComplexOpOr, c => c = 32 ∨ c = 40
  | .stateComplexOpP, c => lower c = 114
  | .stateComplexOpPr, c => c = 32 ∨ c = 41 ∨ c = 0
  | .stateComplexOpS, c => lower c = 119
  | .stateComplexOpSw, c => c = 32
  | _, _ => false

/-- The states in which both letters of a relational operator have been read. -/
def State.isTwoLetter : State → Bool
  | .stateComplexOpCo => true
  | .stateComplexOpEq => true
  | .stateComplexOpEw => true
  | .stateComplexOpGt => true
  | .stateComplexOpGe => true
  | .stateComplexOpLt => true
  | .stateComplexOpLe => true
  | .stateComplexOpNe => true
  | .stateComplexOpSw => true
  | _ => false

/-- The operator-begin state and the states reached from it by one letter. -/
def State.isOpStart : State → Bool
  | .stateBeginComplexOp => true
  | .stateComplexOpA => true
  | .stateComplexOpC => true
  | .stateComplexOpE => true
  | .stateComplexOpG => true
  | .stateComplexOpL => true
  | .stateComplexOpN => true
  | .stateComplexOpO => true
  | .stateComplexOpP => true
  | .stateComplexOpS => true
  | _ => false

/-- The bytes that complete a relational operator after its first letter. -/
def secondLetter : State → Nat → Bool
  | .stateComplexOpC, c => lower c = 111
  | .stateComplexOpE, c => lower c = 113 ∨ lower c = 119
  | .stateComplexOpG, c => lower c = 116 ∨ lower c = 101
  | .stateComplexOpL, c => lower c = 116 ∨ lower c = 101
  | .stateComplexOpN, c => lower c = 101
  | .stateComplexOpS, c => lower c = 119
  | _, _ => false

/-! ## The grammar of filters (spec section 6)

```
filter     := predicate ( (" and " | " or ") predicate )*
predicate  := "not"? "(" filter ")" | path op literal | path "pr" | path
path       := first-char continuation-char* ( ("." | ":") first-char continuation-char* )*
literal    := '"' ( unescaped-char | '\' escape )* '"' | boolean | number
escape     := 'b'|'f'|'n'|'r'|'t'|'\\'|'/'|'"' | 'u' hex hex hex hex
```

A filter is represented by its derivation tree; `render` gives its bytes and
`wf` checks the side conditions of the grammar.  Keywords and operators are
case-insensitive, the tokens of a comparison are separated by single spaces,
and a non-string literal (boolean or number) is taken liberally as any run of
bytes that starts with one of `t T f F - +` or a digit and contains no space,
no `)` and no sentinel. -/

/-- One element of the body of a string literal. -/
inductive StrItem
  | plain (c : Nat)
  | esc (c : Nat)
  | uni (a b c d : Nat)
  deriving DecidableEq, Repr

/-- Bytes of a string element. -/
def StrItem.render : StrItem → List Nat
  | .plain c => [c]
  | .esc c => [92, c]
  | .uni a b c d => [92, 117, a, b, c, d]

/-- Side conditions of a string element: an unescaped character is not a double
quote, a backslash or the sentinel; a single-byte escape is one of
`b f n r t \ / "`; a `\u` escape has four hexadecimal digits. -/
def StrItem.wf : StrItem → Bool
  | .plain c => c ≠ 34 && c ≠ 92 && c ≠ 0
  | .esc c => c = 98 || c = 102 || c = 110 || c = 114 || c = 116 || c = 92 || c = 47 || c = 34
  | .uni a b c d => isHex a && isHex b && isHex c && isHex d

/-- Bytes of the body of a string literal. -/
def renderItems : List StrItem → List Nat
  | [] => []
  | i :: is => i.render ++ renderItems is

/-- The first byte of a non-string literal: `t T f F - +` or a digit. -/
def isLiteralStart (c : Nat) : Bool :=
  c = 116 || c = 84 || c = 102 || c = 70 || c = 45 || c = 43 || (48 ≤ c && c ≤ 57)

/-- A literal: a quoted string or a non-string literal. -/
inductive Literal
  | str (items : List StrItem)
  | raw (first : Nat) (rest : List Nat)
  deriving DecidableEq, Repr

/-- Bytes of a literal. -/
def Literal.render : Literal → List Nat
  | .str items => 34 :: (renderItems items ++ [34])
  | .raw first rest => first :: rest

/-- Side conditions of a literal. -/
def Literal.wf : Literal → Bool
  | .str items => items.all StrItem.wf
  | .raw first rest =>
    isLiteralStart first && rest.all (fun c => c ≠ 32 && c ≠ 41 && c ≠ 0)

/-- One segment of a path: a first character and continuation characters. -/
structure Segment where
  first : Nat
  rest : List Nat
  deriving DecidableEq, Repr

/-- Bytes of a segment. -/
def Segment.render (s : Segment) : List Nat := s.first :: s.rest

/-- Side conditions of a segment, by the classifiers of the package. -/
def Segment.wf (P : Package) (s : Segment) : Bool :=
  P.isFirstAlphabet s.first && s.rest.all P.isNonFirstAlphabet

/-- Bytes of the further segments of a path, each with its separator. -/
def renderTail : List (Nat × Segment) → List Nat
  | [] => []
  | t :: ts => t.1 :: (t.2.render ++ renderTail ts)

/-- A path: a segment, then further segments each introduced by `.` or `:`. -/
structure Path where
  head : Segment
  tail : List (Nat × Segment)
  deriving DecidableEq, Repr

/-- Bytes of a path. -/
def Path.render (p : Path) : List Nat := p.head.render ++ renderTail p.tail

/-- Side conditions of a path. -/
def Path.wf (P : Package) (p : Path) : Bool :=
  p.head.wf P && p.tail.all (fun t => (t.1 = 46 || t.1 = 58) && t.2.wf P)

/-- Derivation trees of the grammar.  `conj f kw g` is `f`, a space, the keyword
`kw` (`and` or `or`), a space, `g`; `negated` is `not` followed, with or
without one space, by a group. -/
inductive Filter
  | compare (p : Path) (o1 o2 : Nat) (l : Literal)
  | present (p : Path) (k1 k2 : Nat)
  | bare (p : Path)
  | group (f : Filter)
  | negated (k1 k2 k3 : Nat) (space : Bool) (f : Filter)
  | conj (f : Filter) (kw : List Nat) (g : Filter)
  deriving Repr

/-- Bytes of a filter. -/
def Filter.render : Filter → List Nat
  | .compare p o1 o2 l => p.render ++ (32 :: o1 :: o2 :: 32 :: l.render)
  | .present p k1 k2 => p.render ++ [32, k1, k2]
  | .bare p => p.render
  | .group f => 40 :: (f.render ++ [41])
  | .negated k1 k2 k3 space f =>
    k1 :: k2 :: k3 :: ((if space then [32] else []) ++ (40 :: (f.render ++ [41])))
  | .conj f kw g => f.render ++ (32 :: (kw ++ (32 :: g.render)))

/-- A single predicate, as opposed to a sequence joined by `and` / `or`. -/
def Filter.isPredicate : Filter → Bool
  | .conj _ _ _ => false
  | _ => true

/-- Side conditions of a filter: well-formed paths and literals, one of the nine
relational operators, the keywords `pr`, `not`, `and`, `or` in any case, and
only single predicates to the right of `and` / `or`. -/
def Filter.wf (P : Package) : Filter → Bool
  | .compare p o1 o2 l => p.wf P && decide ((lower o1, lower o2) ∈ relationalOps) && l.wf
  | .present p k1 k2 => p.wf P && lower k1 = 112 && lower k2 = 114
  | .bare p => p.wf P
  | .group f => f.wf P
  | .negated k1 k2 k3 _ f => lower k1 = 110 && lower k2 = 111 && lower k3 = 116 && f.wf P
  | .conj f kw g =>
    f.wf P && (kw.map lower = [97, 110, 100] || kw.map lower = [111, 114]) && g.wf P &&
      g.isPredicate

/-- What a filter ends with. -/
inductive Ending
  | literal
  | string
  | present
  | group
  | path
  deriving DecidableEq, Repr

/-- What a literal ends with. -/
def Literal.ending : Literal → Ending
  | .str _ => .string
  | .raw _ _ => .literal

/-- The last token of a filter. -/
def Filter.ending : Filter → Ending
  | .compare _ _ _ l => l.ending
  | .present _ _ _ => .present
  | .bare _ => .path
  | .group _ => .group
  | .negated _ _ _ _ _ => .group
  | .conj _ _ g => g.ending

/-- The state in which the scanner is left by the last token of a filter. -/
def Ending.state : Ending → State
  | .literal => .stateInComplexNonStringLiteral
  | .string => .stateEndComplexStringLiteral
  | .present => .stateComplexOpPr
  | .group => .stateEndComplexPredicate
  | .path => .stateInComplexPath

/-- The action the sentinel is answered with after each kind of last token
(for a path, when the sentinel is not a path character). -/
def Ending.sentinelAction : Ending → Action
  | .literal => .scanFilterEndLiteral
  | .string => .scanFilterEndLiteral
  | .present => .scanFilterContinue
  | .group => .scanFilterEnd
  | .path => .scanFilterError

/-- The state after the sentinel, for each kind of last token other than a path. -/
def Ending.sentinelState : Ending → State
  | .literal => .stateEOF
  | .string => .stateEOF
  | .present => .stateEndComplexPredicate
  | .group => .stateEOF
  | .path => .stateError

/-- True when a path starts with a byte other than `n` / `N`. -/
def Path.plainStart (p : Path) : Bool := p.head.first ≠ 110 && p.head.first ≠ 78

/-- The filters whose scan stays inside this file and is not cut short: no
predicate starts with `n` / `N` (such a byte hands the scanner to `stateN`,
outside the file; this excludes `not`), and no bare path stands directly
before a `)`. -/
def Filter.scannable : Filter → Bool
  | .compare p _ _ _ => p.plainStart
  | .present p _ _ => p.plainStart
  | .bare p => p.plainStart
  | .group f => f.scannable && decide (f.ending ≠ .path)
  | .negated _ _ _ _ _ => false
  | .conj f _ g => f.scannable && g.scannable

/-- Assumptions on the classifiers under which the bytes of a path are
unambiguous: a first character is also a continuation character, a space is
not a continuation character, and `(` is not a first character. -/
def Package.pathsDelimited (P : Package) : Prop :=
  (∀ c, P.isFirstAlphabet c = true → P.isNonFirstAlphabet c = true) ∧
    P.isNonFirstAlphabet 32 = false ∧ P.isFirstAlphabet 40 = false

/-- Number of events that carry the given action. -/
def countAction (a : Action) (evs : List Event) : Nat :=
  evs.countP (fun e => decide (e.action = a))

/-- `Scans P fs xs fs2`: driving the bytes `xs` from `fs` ends in `fs2` and
returns neither the error nor the end-of-filter action. -/
def Scans (P : Package) (fs : filterScanner) (xs : List Nat) (fs2 : filterScanner) : Prop :=
  (drive P fs xs).2 = fs2 ∧ hasAction .scanFilterError (drive P fs xs).1 = false ∧
    hasAction .scanFilterEnd (drive P fs xs).1 = false

/-- Length of the leading run of hexadecimal digits of a list of bytes. -/
def hexRun (xs : List Nat) : Nat := (xs.takeWhile isHex).length

/-- The not-lookahead chain taken over the three states of this file: the tags
`stateN`, `stateNo`, `stateNot`, whose functions are defined outside the file,
are assumed to run `stateComplexN`, `stateComplexNo`, `stateComplexNot`. -/
def Package.chainInFile (P : Package) : Prop :=
  ∀ (fs : filterScanner) (c : Nat),
    P.outside .stateN fs c = stateComplexN P fs c ∧
      P.outside .stateNo fs c = stateComplexNo P fs c ∧
      P.outside .stateNot fs c = stateComplexNot P fs c

/-- The instance `letters` with the not-lookahead chain taken over the three
states of this file. -/
def lettersChained : Package :=
  { isFirstAlphabet := letters.isFirstAlphabet
    isNonFirstAlphabet := letters.isNonFirstAlphabet
    outside := fun st fs c =>
      match st with
      | .stateN => stateComplexN letters fs c
      | .stateNo => stateComplexNo letters fs c
      | .stateNot => stateComplexNot letters fs c
      | _ => (.scanFilterError, fs) }

/-! # Theorems -/

/-! ## Helper lemmas on single steps -/

theorem letters_lettersArePath : letters.lettersArePath := by
  intro c hc
  simp only [isLetter] at hc
  simp only [letters, hc, Bool.true_or, and_self]

theorem lettersChained_lettersArePath : lettersChained.lettersArePath :=
  letters_lettersArePath

theorem lettersChained_chainInFile : lettersChained.chainInFile := by
  intro fs c
  exact ⟨rfl, rfl, rfl⟩

theorem lettersArePath_first (P : Package) (h : P.lettersArePath) (c : Nat)
    (hc : isLetter c = true) : P.isFirstAlphabet c = true := (h c hc).1

theorem lettersArePath_nonFirst (P : Package) (h : P.lettersArePath) (c : Nat)
    (hc : isLetter c = true) : P.isNonFirstAlphabet c = true := (h c hc).2

/-- Depth bookkeeping of one step taken in a state of this file. -/
theorem step_depth (P : Package) (st : State) (d : Int) (e : Option (Nat × String)) (c : Nat)
    (h : st.inFile = true) :
    (step P ⟨st, d, e⟩ c).2.parenLevel =
      if st = .stateBeginComplexPredicate ∧ c = 40 then d + 1
      else if (st = .stateEndComplexPredicate ∨ st = .stateEndComplexLiteral) ∧ c = 41
        then d - 1
      else d := by
  cases st <;> first | (exact absurd h (by decide)) | skip
  case stateBeginComplexPredicate =>
    by_cases hc : c = 40
    · subst hc; simp [step, stateBeginComplexPredicate]
    · simp only [step, stateBeginComplexPredicate, error, apply_ite Prod.snd,
        apply_ite filterScanner.parenLevel, hc, if_false, ite_self, and_false, reduceCtorEq,
        false_or, false_and]
  case stateEndComplexPredicate =>
    by_cases hc : c = 41
    · subst hc; simp [step, stateEndComplexPredicate]
    · simp only [step, stateEndComplexPredicate, error, apply_ite Prod.snd,
        apply_ite filterScanner.parenLevel, hc, if_false, ite_self, and_false, reduceCtorEq,
        false_or, false_and]
  case stateEndComplexLiteral =>
    by_cases hc : c = 41
    · subst hc; simp [step, stateEndComplexLiteral]
    · simp only [step, stateEndComplexLiteral, stateEndComplexPredicate, error,
        apply_ite Prod.snd, apply_ite filterScanner.parenLevel, hc, if_false, ite_self,
        and_false, reduceCtorEq, false_or, false_and]
  all_goals
    simp only [step, stateComplexN,
      stateComplexNo, stateComplexNot, stateInComplexPath, stateEndComplexPath,
      stateBeginComplexOp, stateComplexOpA, stateComplexOpAn, stateComplexOpAnd, stateComplexOpC,
      stateComplexOpCo, stateComplexOpE, stateComplexOpEq, stateComplexOpEw, stateComplexOpG,
      stateComplexOpGt, stateComplexOpGe, stateComplexOpL, stateComplexOpLt, stateComplexOpLe,
      stateComplexOpN, stateComplexOpNe, stateComplexOpNo, stateComplexOpNot, stateComplexOpO,
      stateComplexOpOr, stateComplexOpP, stateComplexOpPr, stateComplexOpS, stateComplexOpSw,
      stateBeginComplexLiteral, stateInComplexStringLiteral,
      stateEndComplexStringLiteral, stateInComplexNonStringLiteral, stateInComplexStringEsc,
      stateInComplexStringEscU, stateInComplexStringEscU1, stateInComplexStringEscU12,
      stateInComplexStringEscU123, error, errInvalidOperator, apply_ite Prod.snd,
      apply_ite filterScanner.parenLevel, ite_self, reduceCtorEq, false_and, false_or,
      or_self, if_false]

/-- The action of a step taken in a state of this file does not depend on the depth. -/
theorem step_action_depth_free (P : Package) (st : State) (d d2 : Int)
    (e : Option (Nat × String)) (c : Nat) (h : st.inFile = true) :
    (step P ⟨st, d2, e⟩ c).1 = (step P ⟨st, d, e⟩ c).1 := by
  cases st <;> first | (exact absurd h (by decide)) | skip
  all_goals
    simp only [step, stateBeginComplexPredicate, stateEndComplexPredicate, stateComplexN,
      stateComplexNo, stateComplexNot, stateInComplexPath, stateEndComplexPath,
      stateBeginComplexOp, stateComplexOpA, stateComplexOpAn, stateComplexOpAnd, stateComplexOpC,
      stateComplexOpCo, stateComplexOpE, stateComplexOpEq, stateComplexOpEw, stateComplexOpG,
      stateComplexOpGt, stateComplexOpGe, stateComplexOpL, stateComplexOpLt, stateComplexOpLe,
      stateComplexOpN, stateComplexOpNe, stateComplexOpNo, stateComplexOpNot, stateComplexOpO,
      stateComplexOpOr, stateComplexOpP, stateComplexOpPr, stateComplexOpS, stateComplexOpSw,
      stateBeginComplexLiteral, stateEndComplexLiteral, stateInComplexStringLiteral,
      stateEndComplexStringLiteral, stateInComplexNonStringLiteral, stateInComplexStringEsc,
      stateInComplexStringEscU, stateInComplexStringEscU1, stateInComplexStringEscU12,
      stateInComplexStringEscU123, error, errInvalidOperator, apply_ite Prod.fst]

/-- The steps of this file that return `scanFilterEnd`. -/
theorem step_end_iff (P : Package) (st : State) (d : Int) (e : Option (Nat × String)) (c : Nat)
    (h : st.inFile = true) :
    (step P ⟨st, d, e⟩ c).1 = .scanFilterEnd ↔
      c = 0 ∧ (st = .stateEndComplexPredicate ∨ st = .stateEndComplexLiteral ∨
        st = .stateEndComplexPath) := by
  cases st <;> first | (exact absurd h (by decide)) | skip
  all_goals
    simp only [step, stateBeginComplexPredicate, stateEndComplexPredicate, stateComplexN,
      stateComplexNo, stateComplexNot, stateInComplexPath, stateEndComplexPath,
      stateBeginComplexOp, stateComplexOpA, stateComplexOpAn, stateComplexOpAnd, stateComplexOpC,
      stateComplexOpCo, stateComplexOpE, stateComplexOpEq, stateComplexOpEw, stateComplexOpG,
      stateComplexOpGt, stateComplexOpGe, stateComplexOpL, stateComplexOpLt, stateComplexOpLe,
      stateComplexOpN, stateComplexOpNe, stateComplexOpNo, stateComplexOpNot, stateComplexOpO,
      stateComplexOpOr, stateComplexOpP, stateComplexOpPr, stateComplexOpS, stateComplexOpSw,
      stateBeginComplexLiteral, stateEndComplexLiteral, stateInComplexStringLiteral,
      stateEndComplexStringLiteral, stateInComplexNonStringLiteral, stateInComplexStringEsc,
      stateInComplexStringEscU, stateInComplexStringEscU1, stateInComplexStringEscU12,
      stateInComplexStringEscU123, error, errInvalidOperator, apply_ite Prod.fst, ite_eq_iff]
  all_goals simp
  all_goals omega

/-- The steps of this file that return `scanFilterInsertSpace`. -/
theorem step_insert_iff (P : Package) (st : State) (d : Int) (e : Option (Nat × String))
    (c : Nat) (h : st.inFile = true) :
    (step P ⟨st, d, e⟩ c).1 = .scanFilterInsertSpace ↔
      (c = 40 ∧ (st = .stateComplexNot ∨ st = .stateComplexOpAnd ∨ st = .stateComplexOpNot ∨
        st = .stateComplexOpOr)) ∨
      (c = 41 ∧ (st = .stateComplexOpPr ∨ st = .stateEndComplexStringLiteral ∨
        st = .stateInComplexNonStringLiteral)) := by
  cases st <;> first | (exact absurd h (by decide)) | skip
  all_goals
    simp only [step, stateBeginComplexPredicate, stateEndComplexPredicate, stateComplexN,
      stateComplexNo, stateComplexNot, stateInComplexPath, stateEndComplexPath,
      stateBeginComplexOp, stateComplexOpA, stateComplexOpAn, stateComplexOpAnd, stateComplexOpC,
      stateComplexOpCo, stateComplexOpE, stateComplexOpEq, stateComplexOpEw, stateComplexOpG,
      stateComplexOpGt, stateComplexOpGe, stateComplexOpL, stateComplexOpLt, stateComplexOpLe,
      stateComplexOpN, stateComplexOpNe, stateComplexOpNo, stateComplexOpNot, stateComplexOpO,
      stateComplexOpOr, stateComplexOpP, stateComplexOpPr, stateComplexOpS, stateComplexOpSw,
      stateBeginComplexLiteral, stateEndComplexLiteral, stateInComplexStringLiteral,
      stateEndComplexStringLiteral, stateInComplexNonStringLiteral, stateInComplexStringEsc,
      stateInComplexStringEscU, stateInComplexStringEscU1, stateInComplexStringEscU12,
      stateInComplexStringEscU123, error, errInvalidOperator, apply_ite Prod.fst, ite_eq_iff]
  all_goals simp
  all_goals omega

/-- Reducing a value of the 64-bit range changes nothing. -/
theorem int64_of_range (x : Int) (hlo : -(2 ^ 63) ≤ x) (hhi : x < 2 ^ 63) : int64 x = x := by
  unfold int64
  omega

/-- The depth of a 64-bit step is the reduced depth of the step. -/
theorem step64_depth (P : Package) (fs : filterScanner) (c : Nat) :
    (step64 P fs c).2.parenLevel = int64 (step P fs c).2.parenLevel := rfl

/-- The action of a 64-bit step is the action of the step. -/
theorem step64_action (P : Package) (fs : filterScanner) (c : Nat) :
    (step64 P fs c).1 = (step P fs c).1 := rfl

/-! ## C2: the depth counter is not guarded -/

/-- C2 (as stated, refuted): at depth 0 a `)` read in the predicate-end state
returns the parenthesis action, not an error, and leaves depth -1; read in the
literal-end state it returns `Continue` and also leaves depth -1. -/
theorem C2_counterexample :
    step letters ⟨.stateEndComplexPredicate, 0, none⟩ 41 =
        (.scanFilterParenthesis, ⟨.stateEndComplexPredicate, -1, none⟩) ∧
      step letters ⟨.stateEndComplexLiteral, 0, none⟩ 41 =
        (.scanFilterContinue, ⟨.stateEndComplexPredicate, -1, none⟩) := by
  constructor <;> rfl

/-- C2 (amended): the depth counter is not guarded.  For a scanner in a state
of this file whose depth `d` is a value of the 64-bit counter, stepping with
the counter stored in 64 bits: a `)` read in the predicate-end or literal-end
state never returns an error and leaves the depth `d - 1` reduced to 64 bits,
which is `d - 1` unless `d` is the least value `-2^63`, where it is
`2^63 - 1`; a `(` read in the predicate-start state leaves `d + 1` reduced to
64 bits, which is `d + 1` unless `d` is the greatest value `2^63 - 1`, where
it is `-2^63`; every other step leaves the depth unchanged; so the depth after
a step is non-negative whenever `1 ≤ d < 2^63 - 1`. -/
theorem C2_depth_unguarded (P : Package) (fs : filterScanner) (c : Nat)
    (h : fs.step.inFile = true)
    (hlo : -(2 ^ 63) ≤ fs.parenLevel) (hhi : fs.parenLevel < 2 ^ 63) :
    ((fs.step = .stateEndComplexPredicate ∨ fs.step = .stateEndComplexLiteral) ∧ c = 41 →
        (step64 P fs c).1 ≠ .scanFilterError ∧
        (step64 P fs c).2.parenLevel = int64 (fs.parenLevel - 1) ∧
        (-(2 ^ 63) < fs.parenLevel → (step64 P fs c).2.parenLevel = fs.parenLevel - 1) ∧
        (fs.parenLevel = -(2 ^ 63) → (step64 P fs c).2.parenLevel = 2 ^ 63 - 1)) ∧
      (fs.step = .stateBeginComplexPredicate ∧ c = 40 →
        (step64 P fs c).2.parenLevel = int64 (fs.parenLevel + 1) ∧
        (fs.parenLevel < 2 ^ 63 - 1 → (step64 P fs c).2.parenLevel = fs.parenLevel + 1) ∧
        (fs.parenLevel = 2 ^ 63 - 1 → (step64 P fs c).2.parenLevel = -(2 ^ 63))) ∧
      (¬ ((fs.step = .stateEndComplexPredicate ∨ fs.step = .stateEndComplexLiteral) ∧ c = 41) →
        ¬ (fs.step = .stateBeginComplexPredicate ∧ c = 40) →
        (step64 P fs c).2.parenLevel = fs.parenLevel) ∧
      (1 ≤ fs.parenLevel → fs.parenLevel < 2 ^ 63 - 1 →
        0 ≤ (step64 P fs c).2.parenLevel) := by
  obtain ⟨st, d, e⟩ := fs
  have hd := step_depth P st d e c h
  simp only at h hlo hhi ⊢
  simp only [step64_depth, step64_action, hd]
  refine ⟨?_, ?_, ?_, ?_⟩
  · rintro ⟨hst, hc⟩
    have hne : ¬ (st = .stateBeginComplexPredicate ∧ c = 40) := by
      rintro ⟨h1, -⟩
      rcases hst with h2 | h2 <;> rw [h1] at h2 <;> exact absurd h2 (by decide)
    rw [if_neg hne, if_pos ⟨hst, hc⟩]
    refine ⟨?_, rfl, ?_, ?_⟩
    · subst hc
      rcases hst with hst | hst <;> subst hst <;>
        simp [step, stateEndComplexPredicate, stateEndComplexLiteral]
    · intro h1
      exact int64_of_range _ (by omega) (by omega)
    · intro h1
      subst h1
      decide
  · intro hb
    rw [if_pos hb]
    refine ⟨rfl, ?_, ?_⟩
    · intro h1
      exact int64_of_range _ (by omega) (by omega)
    · intro h1
      subst h1
      decide
  · intro h1 h2
    rw [if_neg h2, if_neg h1]
    exact int64_of_range _ hlo hhi
  · intro h1 h2
    split_ifs
    · rw [int64_of_range _ (by omega) (by omega)]; omega
    · rw [int64_of_range _ (by omega) (by omega)]; omega
    · rw [int64_of_range _ (by omega) (by omega)]; omega

theorem C2_depth_unguarded_witness :
    (step64 letters ⟨.stateEndComplexPredicate, 0, none⟩ 41).1 ≠ .scanFilterError ∧
      (step64 letters ⟨.stateEndComplexPredicate, 0, none⟩ 41).2.parenLevel = 0 - 1 :=
  have h := (C2_depth_unguarded letters ⟨.stateEndComplexPredicate, 0, none⟩ 41 (by decide)
    (by decide) (by decide)).1 ⟨Or.inl rfl, rfl⟩
  ⟨h.1, h.2.2.1 (by decide)⟩

/-! ## C3: the sentinel is not checked against the depth -/

/-- C3 (as stated, refuted): the driven scan of `(a eq 1` followed by the
sentinel returns no error (the sentinel returns the end-of-literal action at
depth 1), and the sentinel read in the predicate-end state at depth 1 returns
the end-of-filter action. -/
theorem C3_counterexample :
    drive letters fresh (bytes "(a eq 1" ++ [0]) =
        ([⟨40, .stateBeginComplexPredicate, .scanFilterParenthesis, 1⟩,
          ⟨97, .stateBeginComplexPredicate, .scanFilterContinue, 1⟩,
          ⟨32, .stateInComplexPath, .scanFilterContinue, 1⟩,
          ⟨101, .stateBeginComplexOp, .scanFilterContinue, 1⟩,
          ⟨113, .stateComplexOpE, .scanFilterContinue, 1⟩,
          ⟨32, .stateComplexOpEq, .scanFilterContinue, 1⟩,
          ⟨49, .stateBeginComplexLiteral, .scanFilterContinue, 1⟩,
          ⟨0, .stateInComplexNonStringLiteral, .scanFilterEndLiteral, 1⟩],
         ⟨.stateEOF, 1, none⟩) ∧
      step letters ⟨.stateEndComplexPredicate, 1, none⟩ 0 =
        (.scanFilterEnd, ⟨.stateEOF, 1, none⟩) := by
  constructor <;> rfl

/-- C3 (amended): in a state of this file a step returns the end-of-filter
action exactly when the byte is the sentinel and the state is the
predicate-end state, the literal-end state or `stateEndComplexPath`; the depth
is neither consulted (the returned action is the same at every depth) nor
changed by such a step.  The driven scan of `(a eq 1` followed by the sentinel
returns no error and no end-of-filter: the sentinel ends the literal at
depth 1. -/
theorem C3_sentinel_ignores_depth (P : Package) (fs : filterScanner) (c : Nat)
    (h : fs.step.inFile = true) :
    ((step P fs c).1 = .scanFilterEnd ↔
        c = 0 ∧ (fs.step = .stateEndComplexPredicate ∨ fs.step = .stateEndComplexLiteral ∨
          fs.step = .stateEndComplexPath)) ∧
      (∀ d : Int, (step P { fs with parenLevel := d } c).1 = (step P fs c).1) ∧
      ((step P fs c).1 = .scanFilterEnd → (step P fs c).2.parenLevel = fs.parenLevel) ∧
      (P.isFirstAlphabet 97 = true →
        drive P fresh (bytes "(a eq 1" ++ [0]) =
          ([⟨40, .stateBeginComplexPredicate, .scanFilterParenthesis, 1⟩,
            ⟨97, .stateBeginComplexPredicate, .scanFilterContinue, 1⟩,
            ⟨32, .stateInComplexPath, .scanFilterContinue, 1⟩,
            ⟨101, .stateBeginComplexOp, .scanFilterContinue, 1⟩,
            ⟨113, .stateComplexOpE, .scanFilterContinue, 1⟩,
            ⟨32, .stateComplexOpEq, .scanFilterContinue, 1⟩,
            ⟨49, .stateBeginComplexLiteral, .scanFilterContinue, 1⟩,
            ⟨0, .stateInComplexNonStringLiteral, .scanFilterEndLiteral, 1⟩],
           ⟨.stateEOF, 1, none⟩)) := by
  obtain ⟨st, d, e⟩ := fs
  simp only at h ⊢
  refine ⟨step_end_iff P st d e c h, fun d2 => step_action_depth_free P st d d2 e c h, ?_, ?_⟩
  · intro hend
    have hc := (step_end_iff P st d e c h).1 hend
    rw [step_depth P st d e c h]
    obtain ⟨hc0, hst⟩ := hc
    subst hc0
    simp
  · intro h97
    rw [show bytes "(a eq 1" ++ [0] = [40, 97, 32, 101, 113, 32, 49, 0] from by decide]
    simp [drive, feed, observe, hasAction, step, fresh, stateBeginComplexPredicate,
      stateInComplexPath, stateBeginComplexOp, stateComplexOpE, stateComplexOpEq,
      stateBeginComplexLiteral, stateInComplexNonStringLiteral, h97]

theorem C3_sentinel_ignores_depth_witness :
    (step letters ⟨.stateEndComplexPredicate, 3, none⟩ 0).1 = .scanFilterEnd ↔
      (0 : Nat) = 0 ∧ (State.stateEndComplexPredicate = .stateEndComplexPredicate ∨
        State.stateEndComplexPredicate = .stateEndComplexLiteral ∨
          State.stateEndComplexPredicate = .stateEndComplexPath) :=
  (C3_sentinel_ignores_depth letters ⟨.stateEndComplexPredicate, 3, none⟩ 0 (by decide)).1

/-! ## C4: the insert-space replay -/

/-- C4: whenever a step taken in a state of this file returns the insert-space
action, the scanner record is unchanged, and feeding one space and then the
original byte again returns, both times, an action that is neither the error
nor the insert-space action. -/
theorem C4_replay_progress (P : Package) (fs : filterScanner) (c : Nat)
    (h : fs.step.inFile = true) (hi : (step P fs c).1 = .scanFilterInsertSpace) :
    (step P fs c).2 = fs ∧
      (step P (step P fs c).2 32).1 ≠ .scanFilterError ∧
      (step P (step P fs c).2 32).1 ≠ .scanFilterInsertSpace ∧
      (step P (step P (step P fs c).2 32).2 c).1 ≠ .scanFilterError ∧
      (step P (step P (step P fs c).2 32).2 c).1 ≠ .scanFilterInsertSpace := by
  obtain ⟨st, d, e⟩ := fs
  simp only at h
  rcases (step_insert_iff P st d e c h).1 hi with ⟨hc, hst⟩ | ⟨hc, hst⟩
  · subst hc
    rcases hst with hst | hst | hst | hst <;> subst hst <;>
      simp [step, stateComplexNot, stateComplexOpAnd, stateComplexOpNot, stateComplexOpOr,
        stateBeginComplexPredicate]
  · subst hc
    rcases hst with hst | hst | hst <;> subst hst <;>
      simp [step, stateComplexOpPr, stateEndComplexStringLiteral,
        stateInComplexNonStringLiteral, stateEndComplexPredicate, stateEndComplexLiteral]

theorem C4_replay_progress_witness :
    (step letters ⟨.stateEndComplexStringLiteral, 1, none⟩ 41).2 =
        ⟨.stateEndComplexStringLiteral, 1, none⟩ ∧
      (step letters (step letters ⟨.stateEndComplexStringLiteral, 1, none⟩ 41).2 32).1 ≠
        .scanFilterError ∧
      (step letters (step letters ⟨.stateEndComplexStringLiteral, 1, none⟩ 41).2 32).1 ≠
        .scanFilterInsertSpace ∧
      (step letters (step letters (step letters
        ⟨.stateEndComplexStringLiteral, 1, none⟩ 41).2 32).2 41).1 ≠ .scanFilterError ∧
      (step letters (step letters (step letters
        ⟨.stateEndComplexStringLiteral, 1, none⟩ 41).2 32).2 41).1 ≠ .scanFilterInsertSpace :=
  C4_replay_progress letters ⟨.stateEndComplexStringLiteral, 1, none⟩ 41 (by decide) (by decide)

/-! ## C5: `(` directly after a completed keyword -/

/-- C5 (as stated, refuted): at the greatest depth `2^63 - 1` of the 64-bit
counter, `(` after `and` returns the insert-space action, the replayed space
moves to the predicate-start state, and the replayed `(` leaves depth `-2^63`,
which is not `d + 1`. -/
theorem C5_counterexample :
    step64 letters ⟨.stateComplexOpAnd, 2 ^ 63 - 1, none⟩ 40 =
        (.scanFilterInsertSpace, ⟨.stateComplexOpAnd, 2 ^ 63 - 1, none⟩) ∧
      step64 letters ⟨.stateComplexOpAnd, 2 ^ 63 - 1, none⟩ 32 =
        (.scanFilterContinue, ⟨.stateBeginComplexPredicate, 2 ^ 63 - 1, none⟩) ∧
      step64 letters ⟨.stateBeginComplexPredicate, 2 ^ 63 - 1, none⟩ 40 =
        (.scanFilterParenthesis, ⟨.stateBeginComplexPredicate, -(2 ^ 63), none⟩) ∧
      (-(2 ^ 63) : Int) ≠ (2 ^ 63 - 1) + 1 := by
  refine ⟨?_, ?_, ?_, ?_⟩ <;> decide

/-- C5 (amended): in each keyword-complete state (`stateComplexNot`,
`stateComplexOpNot`, `stateComplexOpAnd`, `stateComplexOpOr`) and at every
depth `d` of the 64-bit counter below its greatest value, `(` returns the
insert-space action with the scanner unchanged, and the replay (space, then
`(`) ends in the predicate-start state at depth `d + 1`, exactly as feeding a
space and then `(` directly does.  With letters as path characters, the driven
scans of `a pr and(b pr)` and `a pr and (b pr)` from a fresh scanner give the
same events but for the insert-space event, pass through depth 1 and end with
the end-of-filter action at depth 0.  With the chain `n`, `no`, `not` taken
over the three lookahead states of this file, the same holds of the driven
scans of `not(active eq true)` and `not (active eq true)` from a fresh
scanner. -/
theorem C5_paren_after_keyword (P : Package) (d : Int) (e : Option (Nat × String))
    (st : State)
    (hst : st = .stateComplexNot ∨ st = .stateComplexOpNot ∨ st = .stateComplexOpAnd ∨
      st = .stateComplexOpOr)
    (hlo : -(2 ^ 63) ≤ d) (hhi : d < 2 ^ 63 - 1) (hP : P.lettersArePath) :
    step64 P ⟨st, d, e⟩ 40 = (.scanFilterInsertSpace, ⟨st, d, e⟩) ∧
      step64 P (step64 P ⟨st, d, e⟩ 40).2 32 =
        (.scanFilterContinue, ⟨.stateBeginComplexPredicate, d, e⟩) ∧
      step64 P (step64 P (step64 P ⟨st, d, e⟩ 40).2 32).2 40 =
        (.scanFilterParenthesis, ⟨.stateBeginComplexPredicate, d + 1, e⟩) ∧
      step64 P (step64 P ⟨st, d, e⟩ 32).2 40 =
        (.scanFilterParenthesis, ⟨.stateBeginComplexPredicate, d + 1, e⟩) ∧
      feed P ⟨st, d, e⟩ 40 =
        ([⟨40, st, .scanFilterInsertSpace, d⟩, ⟨32, st, .scanFilterContinue, d⟩,
          ⟨40, .stateBeginComplexPredicate, .scanFilterParenthesis, d + 1⟩],
         ⟨.stateBeginComplexPredicate, d + 1, e⟩) ∧
      drive P fresh (bytes "a pr and(b pr)" ++ [0]) =
        ([⟨97, .stateBeginComplexPredicate, .scanFilterContinue, 0⟩,
         ⟨32, .stateInComplexPath, .scanFilterContinue, 0⟩,
         ⟨112, .stateBeginComplexOp, .scanFilterContinue, 0⟩,
         ⟨114, .stateComplexOpP, .scanFilterContinue, 0⟩,
         ⟨32, .stateComplexOpPr, .scanFilterContinue, 0⟩,
         ⟨97, .stateEndComplexPredicate, .scanFilterContinue, 0⟩,
         ⟨110, .stateComplexOpA, .scanFilterContinue, 0⟩,
         ⟨100, .stateComplexOpAn, .scanFilterContinue, 0⟩,
         ⟨40, .stateComplexOpAnd, .scanFilterInsertSpace, 0⟩,
         ⟨32, .stateComplexOpAnd, .scanFilterContinue, 0⟩,
         ⟨40, .stateBeginComplexPredicate, .scanFilterParenthesis, 1⟩,
         ⟨98, .stateBeginComplexPredicate, .scanFilterContinue, 1⟩,
         ⟨32, .stateInComplexPath, .scanFilterContinue, 1⟩,
         ⟨112, .stateBeginComplexOp, .scanFilterContinue, 1⟩,
         ⟨114, .stateComplexOpP, .scanFilterContinue, 1⟩,
         ⟨41, .stateComplexOpPr, .scanFilterInsertSpace, 1⟩,
         ⟨32, .stateComplexOpPr, .scanFilterContinue, 1⟩,
         ⟨41, .stateEndComplexPredicate, .scanFilterParenthesis, 0⟩,
         ⟨0, .stateEndComplexPredicate, .scanFilterEnd, 0⟩],
         ⟨.stateEOF, 0, none⟩) ∧
      drive P fresh (bytes "a pr and (b pr)" ++ [0]) =
        ([⟨97, .stateBeginComplexPredicate, .scanFilterContinue, 0⟩,
         ⟨32, .stateInComplexPath, .scanFilterContinue, 0⟩,
         ⟨112, .stateBeginComplexOp, .scanFilterContinue, 0⟩,
         ⟨114, .stateComplexOpP, .scanFilterContinue, 0⟩,
         ⟨32, .stateComplexOpPr, .scanFilterContinue, 0⟩,
         ⟨97, .stateEndComplexPredicate, .scanFilterContinue, 0⟩,
         ⟨110, .stateComplexOpA, .scanFilterContinue, 0⟩,
         ⟨100, .stateComplexOpAn, .scanFilterContinue, 0⟩,
         ⟨32, .stateComplexOpAnd, .scanFilterContinue, 0⟩,
         ⟨40, .stateBeginComplexPredicate, .scanFilterParenthesis, 1⟩,
         ⟨98, .stateBeginComplexPredicate, .scanFilterContinue, 1⟩,
         ⟨32, .stateInComplexPath, .scanFilterContinue, 1⟩,
         ⟨112, .stateBeginComplexOp, .scanFilterContinue, 1⟩,
         ⟨114, .stateComplexOpP, .scanFilterContinue, 1⟩,
         ⟨41, .stateComplexOpPr, .scanFilterInsertSpace, 1⟩,
         ⟨32, .stateComplexOpPr, .scanFilterContinue, 1⟩,
         ⟨41, .stateEndComplexPredicate, .scanFilterParenthesis, 0⟩,
         ⟨0, .stateEndComplexPredicate, .scanFilterEnd, 0⟩],
         ⟨.stateEOF, 0, none⟩) ∧
      (P.chainInFile →
        drive P fresh (bytes "not(active eq true)" ++ [0]) =
          ([⟨110, .stateBeginComplexPredicate, .scanFilterBeginAny, 0⟩,
           ⟨111, .stateN, .scanFilterContinue, 0⟩,
           ⟨116, .stateNo, .scanFilterContinue, 0⟩,
           ⟨40, .stateNot, .scanFilterInsertSpace, 0⟩,
           ⟨32, .stateNot, .scanFilterContinue, 0⟩,
           ⟨40, .stateBeginComplexPredicate, .scanFilterParenthesis, 1⟩,
           ⟨97, .stateBeginComplexPredicate, .scanFilterContinue, 1⟩,
           ⟨99, .stateInComplexPath, .scanFilterContinue, 1⟩,
           ⟨116, .stateInComplexPath, .scanFilterContinue, 1⟩,
           ⟨105, .stateInComplexPath, .scanFilterContinue, 1⟩,
           ⟨118, .stateInComplexPath, .scanFilterContinue, 1⟩,
           ⟨101, .stateInComplexPath, .scanFilterContinue, 1⟩,
           ⟨32, .stateInComplexPath, .scanFilterContinue, 1⟩,
           ⟨101, .stateBeginComplexOp, .scanFilterContinue, 1⟩,
           ⟨113, .stateComplexOpE, .scanFilterContinue, 1⟩,
           ⟨32, .stateComplexOpEq, .scanFilterContinue, 1⟩,
           ⟨116, .stateBeginComplexLiteral, .scanFilterContinue, 1⟩,
           ⟨114, .stateInComplexNonStringLiteral, .scanFilterContinue, 1⟩,
           ⟨117, .stateInComplexNonStringLiteral, .scanFilterContinue, 1⟩,
           ⟨101, .stateInComplexNonStringLiteral, .scanFilterContinue, 1⟩,
           ⟨41, .stateInComplexNonStringLiteral, .scanFilterInsertSpace, 1⟩,
           ⟨32, .stateInComplexNonStringLiteral, .scanFilterEndLiteral, 1⟩,
           ⟨41, .stateEndComplexLiteral, .scanFilterContinue, 0⟩,
           ⟨0, .stateEndComplexPredicate, .scanFilterEnd, 0⟩],
           ⟨.stateEOF, 0, none⟩) ∧
        drive P fresh (bytes "not (active eq true)" ++ [0]) =
          ([⟨110, .stateBeginComplexPredicate, .scanFilterBeginAny, 0⟩,
           ⟨111, .stateN, .scanFilterContinue, 0⟩,
           ⟨116, .stateNo, .scanFilterContinue, 0⟩,
           ⟨32, .stateNot, .scanFilterContinue, 0⟩,
           ⟨40, .stateBeginComplexPredicate, .scanFilterParenthesis, 1⟩,
           ⟨97, .stateBeginComplexPredicate, .scanFilterContinue, 1⟩,
           ⟨99, .stateInComplexPath, .scanFilterContinue, 1⟩,
           ⟨116, .stateInComplexPath, .scanFilterContinue, 1⟩,
           ⟨105, .stateInComplexPath, .scanFilterContinue, 1⟩,
           ⟨118, .stateInComplexPath, .scanFilterContinue, 1⟩,
           ⟨101, .stateInComplexPath, .scanFilterContinue, 1⟩,
           ⟨32, .stateInComplexPath, .scanFilterContinue, 1⟩,
           ⟨101, .stateBeginComplexOp, .scanFilterContinue, 1⟩,
           ⟨113, .stateComplexOpE, .scanFilterContinue, 1⟩,
           ⟨32, .stateComplexOpEq, .scanFilterContinue, 1⟩,
           ⟨116, .stateBeginComplexLiteral, .scanFilterContinue, 1⟩,
           ⟨114, .stateInComplexNonStringLiteral, .scanFilterContinue, 1⟩,
           ⟨117, .stateInComplexNonStringLiteral, .scanFilterContinue, 1⟩,
           ⟨101, .stateInComplexNonStringLiteral, .scanFilterContinue, 1⟩,
           ⟨41, .stateInComplexNonStringLiteral, .scanFilterInsertSpace, 1⟩,
           ⟨32, .stateInComplexNonStringLiteral, .scanFilterEndLiteral, 1⟩,
           ⟨41, .stateEndComplexLiteral, .scanFilterContinue, 0⟩,
           ⟨0, .stateEndComplexPredicate, .scanFilterEnd, 0⟩],
           ⟨.stateEOF, 0, none⟩)) := by
  have hF := lettersArePath_first P hP
  have hN := lettersArePath_nonFirst P hP
  have hd0 : int64 d = d := int64_of_range d hlo (by omega)
  have hd1 : int64 (d + 1) = d + 1 := int64_of_range _ (by omega) (by omega)
  refine ⟨?_, ?_, ?_, ?_, ?_, ?_, ?_, ?_⟩
  · rcases hst with h | h | h | h <;> subst h <;>
      simp [step64, step, stateComplexNot, stateComplexOpNot, stateComplexOpAnd,
        stateComplexOpOr, hd0]
  · rcases hst with h | h | h | h <;> subst h <;>
      simp [step64, step, stateComplexNot, stateComplexOpNot, stateComplexOpAnd,
        stateComplexOpOr, hd0]
  · rcases hst with h | h | h | h <;> subst h <;>
      simp [step64, step, stateComplexNot, stateComplexOpNot, stateComplexOpAnd,
        stateComplexOpOr, stateBeginComplexPredicate, hd0, hd1]
  · rcases hst with h | h | h | h <;> subst h <;>
      simp [step64, step, stateComplexNot, stateComplexOpNot, stateComplexOpAnd,
        stateComplexOpOr, stateBeginComplexPredicate, hd0, hd1]
  · rcases hst with h | h | h | h <;> subst h <;>
      simp [feed, observe, step, stateComplexNot, stateComplexOpNot, stateComplexOpAnd,
        stateComplexOpOr, stateBeginComplexPredicate]
  · rw [show bytes "a pr and(b pr)" ++ [0] = [97, 32, 112, 114, 32, 97, 110, 100, 40, 98, 32, 112, 114, 41, 0] from by decide]
    simp [drive, feed, observe, hasAction, step, fresh, stateBeginComplexPredicate,
      stateInComplexPath, stateBeginComplexOp, stateComplexOpA, stateComplexOpAn,
      stateComplexOpAnd, stateComplexOpP, stateComplexOpPr, stateEndComplexPredicate,
      hF, hN, isLetter]
  · rw [show bytes "a pr and (b pr)" ++ [0] = [97, 32, 112, 114, 32, 97, 110, 100, 32, 40, 98, 32, 112, 114, 41, 0] from by decide]
    simp [drive, feed, observe, hasAction, step, fresh, stateBeginComplexPredicate,
      stateInComplexPath, stateBeginComplexOp, stateComplexOpA, stateComplexOpAn,
      stateComplexOpAnd, stateComplexOpP, stateComplexOpPr, stateEndComplexPredicate,
      hF, hN, isLetter]
  · intro hchain
    have h1 : ∀ fs c, P.outside .stateN fs c = stateComplexN P fs c :=
      fun fs c => (hchain fs c).1
    have h2 : ∀ fs c, P.outside .stateNo fs c = stateComplexNo P fs c :=
      fun fs c => (hchain fs c).2.1
    have h3 : ∀ fs c, P.outside .stateNot fs c = stateComplexNot P fs c :=
      fun fs c => (hchain fs c).2.2
    constructor
    · rw [show bytes "not(active eq true)" ++ [0] = [110, 111, 116, 40, 97, 99, 116, 105, 118, 101, 32, 101, 113, 32, 116, 114, 117, 101, 41, 0] from by decide]
      simp [drive, feed, observe, hasAction, step, fresh, stateBeginComplexPredicate,
        stateComplexN, stateComplexNo, stateComplexNot, stateInComplexPath,
        stateBeginComplexOp, stateComplexOpE, stateComplexOpEq, stateBeginComplexLiteral,
        stateInComplexNonStringLiteral, stateEndComplexLiteral, stateEndComplexPredicate,
        h1, h2, h3, hF, hN, isLetter]
    · rw [show bytes "not (active eq true)" ++ [0] = [110, 111, 116, 32, 40, 97, 99, 116, 105, 118, 101, 32, 101, 113, 32, 116, 114, 117, 101, 41, 0] from by decide]
      simp [drive, feed, observe, hasAction, step, fresh, stateBeginComplexPredicate,
        stateComplexN, stateComplexNo, stateComplexNot, stateInComplexPath,
        stateBeginComplexOp, stateComplexOpE, stateComplexOpEq, stateBeginComplexLiteral,
        stateInComplexNonStringLiteral, stateEndComplexLiteral, stateEndComplexPredicate,
        h1, h2, h3, hF, hN, isLetter]

theorem C5_paren_after_keyword_witness :
    (drive lettersChained fresh (bytes "not(active eq true)" ++ [0])).2 =
      ⟨.stateEOF, 0, none⟩ :=
  congrArg Prod.snd
    ((C5_paren_after_keyword lettersChained 0 none .stateComplexOpAnd
      (Or.inr (Or.inr (Or.inl rfl))) (by decide) (by decide)
      lettersChained_lettersArePath).2.2.2.2.2.2.2 lettersChained_chainInFile).1

/-! ## C6: `)` directly after a string literal -/

/-- C6: right after the closing quote of a string literal, at every depth `d`
(in particular `d ≥ 1`), `)` returns the insert-space action, and the replay
(space, then `)`) leaves the scanner in the predicate-end state at depth
`d - 1`.  With letters as path characters, the driven scan of
`(userType eq "Employee")` followed by the sentinel from a fresh scanner
returns no error and ends with the end-of-filter action at depth 0. -/
theorem C6_paren_after_string (P : Package) (d : Int) (e : Option (Nat × String))
    (hd : 1 ≤ d) (hP : P.lettersArePath) :
    step P ⟨.stateEndComplexStringLiteral, d, e⟩ 41 =
        (.scanFilterInsertSpace, ⟨.stateEndComplexStringLiteral, d, e⟩) ∧
      feed P ⟨.stateEndComplexStringLiteral, d, e⟩ 41 =
        ([⟨41, .stateEndComplexStringLiteral, .scanFilterInsertSpace, d⟩,
          ⟨32, .stateEndComplexStringLiteral, .scanFilterContinue, d⟩,
          ⟨41, .stateEndComplexLiteral, .scanFilterContinue, d - 1⟩],
         ⟨.stateEndComplexPredicate, d - 1, e⟩) ∧
      0 ≤ (feed P ⟨.stateEndComplexStringLiteral, d, e⟩ 41).2.parenLevel ∧
      drive P fresh (bytes "(userType eq \"Employee\")" ++ [0]) =
        ([⟨40, .stateBeginComplexPredicate, .scanFilterParenthesis, 1⟩,
          ⟨117, .stateBeginComplexPredicate, .scanFilterContinue, 1⟩,
          ⟨115, .stateInComplexPath, .scanFilterContinue, 1⟩,
          ⟨101, .stateInComplexPath, .scanFilterContinue, 1⟩,
          ⟨114, .stateInComplexPath, .scanFilterContinue, 1⟩,
          ⟨84, .stateInComplexPath, .scanFilterContinue, 1⟩,
          ⟨121, .stateInComplexPath, .scanFilterContinue, 1⟩,
          ⟨112, .stateInComplexPath, .scanFilterContinue, 1⟩,
          ⟨101, .stateInComplexPath, .scanFilterContinue, 1⟩,
          ⟨32, .stateInComplexPath, .scanFilterContinue, 1⟩,
          ⟨101, .stateBeginComplexOp, .scanFilterContinue, 1⟩,
          ⟨113, .stateComplexOpE, .scanFilterContinue, 1⟩,
          ⟨32, .stateComplexOpEq, .scanFilterContinue, 1⟩,
          ⟨34, .stateBeginComplexLiteral, .scanFilterContinue, 1⟩,
          ⟨69, .stateInComplexStringLiteral, .scanFilterContinue, 1⟩,
          ⟨109, .stateInComplexStringLiteral, .scanFilterContinue, 1⟩,
          ⟨112, .stateInComplexStringLiteral, .scanFilterContinue, 1⟩,
          ⟨108, .stateInComplexStringLiteral, .scanFilterContinue, 1⟩,
          ⟨111, .stateInComplexStringLiteral, .scanFilterContinue, 1⟩,
          ⟨121, .stateInComplexStringLiteral, .scanFilterContinue, 1⟩,
          ⟨101, .stateInComplexStringLiteral, .scanFilterContinue, 1⟩,
          ⟨101, .stateInComplexStringLiteral, .scanFilterContinue, 1⟩,
          ⟨34, .stateInComplexStringLiteral, .scanFilterContinue, 1⟩,
          ⟨41, .stateEndComplexStringLiteral, .scanFilterInsertSpace, 1⟩,
          ⟨32, .stateEndComplexStringLiteral, .scanFilterContinue, 1⟩,
          ⟨41, .stateEndComplexLiteral, .scanFilterContinue, 0⟩,
          ⟨0, .stateEndComplexPredicate, .scanFilterEnd, 0⟩],
         ⟨.stateEOF, 0, none⟩) := by
  have hF := lettersArePath_first P hP
  have hN := lettersArePath_nonFirst P hP
  have hfeed : feed P ⟨.stateEndComplexStringLiteral, d, e⟩ 41 =
      ([⟨41, .stateEndComplexStringLiteral, .scanFilterInsertSpace, d⟩,
        ⟨32, .stateEndComplexStringLiteral, .scanFilterContinue, d⟩,
        ⟨41, .stateEndComplexLiteral, .scanFilterContinue, d - 1⟩],
       ⟨.stateEndComplexPredicate, d - 1, e⟩) := by
    simp [feed, observe, step, stateEndComplexStringLiteral, stateEndComplexLiteral]
  refine ⟨?_, hfeed, ?_, ?_⟩
  · simp [step, stateEndComplexStringLiteral]
  · rw [hfeed]
    show 0 ≤ d - 1
    omega
  · rw [show bytes "(userType eq \"Employee\")" ++ [0] =
        [40, 117, 115, 101, 114, 84, 121, 112, 101, 32, 101, 113, 32, 34, 69, 109, 112, 108,
          111, 121, 101, 101, 34, 41, 0] from by decide]
    simp [drive, feed, observe, hasAction, step, fresh, stateBeginComplexPredicate,
      stateInComplexPath, stateBeginComplexOp, stateComplexOpE, stateComplexOpEq,
      stateBeginComplexLiteral, stateInComplexStringLiteral, stateEndComplexStringLiteral,
      stateEndComplexLiteral, stateEndComplexPredicate, hF, hN, isLetter]

theorem C6_paren_after_string_witness :
    step letters ⟨.stateEndComplexStringLiteral, 1, none⟩ 41 =
      (.scanFilterInsertSpace, ⟨.stateEndComplexStringLiteral, 1, none⟩) :=
  (C6_paren_after_string letters 1 none (by decide) letters_lettersArePath).1

/-! ## C7: the sentinel inside a string literal -/

/-- C7 (as stated, refuted): inside a string literal the sentinel returns
`Continue` and the scanner stays inside the string; the driven scan of
`a eq "unterminated` followed by the sentinel returns no error at all. -/
theorem C7_counterexample :
    step letters ⟨.stateInComplexStringLiteral, 0, none⟩ 0 =
        (.scanFilterContinue, ⟨.stateInComplexStringLiteral, 0, none⟩) ∧
      hasAction .scanFilterError
        (drive letters fresh (bytes "a eq \"unterminated" ++ [0])).1 = false ∧
      (drive letters fresh (bytes "a eq \"unterminated" ++ [0])).1.getLast? =
        some ⟨0, .stateInComplexStringLiteral, .scanFilterContinue, 0⟩ := by
  refine ⟨?_, ?_, ?_⟩ <;> rfl

/-- C7 (amended): inside a string literal the sentinel is an ordinary byte: it
returns `Continue` and leaves the scanner record unchanged, at every depth.
The driven scan of `a eq "unterminated` followed by the sentinel returns
neither an error nor the end-of-filter action; every byte from the opening
quote on returns `Continue`, and the scan ends inside the string literal. -/
theorem C7_sentinel_in_string (P : Package) (d : Int) (e : Option (Nat × String))
    (ha : P.isFirstAlphabet 97 = true) :
    step P ⟨.stateInComplexStringLiteral, d, e⟩ 0 =
        (.scanFilterContinue, ⟨.stateInComplexStringLiteral, d, e⟩) ∧
      hasAction .scanFilterError (drive P fresh (bytes "a eq \"unterminated" ++ [0])).1 = false ∧
      hasAction .scanFilterEnd (drive P fresh (bytes "a eq \"unterminated" ++ [0])).1 = false ∧
      (drive P fresh (bytes "a eq \"unterminated" ++ [0])).1.getLast? =
        some ⟨0, .stateInComplexStringLiteral, .scanFilterContinue, 0⟩ ∧
      (drive P fresh (bytes "a eq \"unterminated" ++ [0])).2 =
        ⟨.stateInComplexStringLiteral, 0, none⟩ := by
  have hb : bytes "a eq \"unterminated" ++ [0] =
      [97, 32, 101, 113, 32, 34, 117, 110, 116, 101, 114, 109, 105, 110, 97, 116, 101, 100, 0] := by
    decide
  rw [hb]
  refine ⟨?_, ?_, ?_, ?_, ?_⟩ <;>
    simp [drive, feed, observe, hasAction, step, fresh, stateBeginComplexPredicate,
      stateInComplexPath, stateBeginComplexOp, stateComplexOpE, stateComplexOpEq,
      stateBeginComplexLiteral, stateInComplexStringLiteral, ha]

theorem C7_sentinel_in_string_witness :
    step letters ⟨.stateInComplexStringLiteral, 2, none⟩ 0 =
      (.scanFilterContinue, ⟨.stateInComplexStringLiteral, 2, none⟩) :=
  (C7_sentinel_in_string letters 2 none (by decide)).1

/-! ## C8: an operator with no literal after it -/

/-- C8 (as stated, refuted): in the driven scan of `invalid eq` followed by the
sentinel, the only error is returned for the sentinel by `stateComplexOpEq`,
the state that waits for the space after `eq`; the literal-start state is
never entered. -/
theorem C8_counterexample :
    (drive letters fresh (bytes "invalid eq" ++ [0])).1 =
      [⟨105, .stateBeginComplexPredicate, .scanFilterContinue, 0⟩,
        ⟨110, .stateInComplexPath, .scanFilterContinue, 0⟩,
        ⟨118, .stateInComplexPath, .scanFilterContinue, 0⟩,
        ⟨97, .stateInComplexPath, .scanFilterContinue, 0⟩,
        ⟨108, .stateInComplexPath, .scanFilterContinue, 0⟩,
        ⟨105, .stateInComplexPath, .scanFilterContinue, 0⟩,
        ⟨100, .stateInComplexPath, .scanFilterContinue, 0⟩,
        ⟨32, .stateInComplexPath, .scanFilterContinue, 0⟩,
        ⟨101, .stateBeginComplexOp, .scanFilterContinue, 0⟩,
        ⟨113, .stateComplexOpE, .scanFilterContinue, 0⟩,
        ⟨0, .stateComplexOpEq, .scanFilterError, 0⟩] := by
  rfl

/-- C8 (amended): with letters as path characters, the driven scan of
`invalid eq` followed directly by the sentinel fails in `stateComplexOpEq`
(the sentinel is not the space the operator must end with), with no earlier
error; when the operator is followed by its space, as in `invalid eq `, the
first error is returned by the literal-start state for the sentinel. -/
theorem C8_missing_literal (P : Package) (hP : P.lettersArePath) :
    (drive P fresh (bytes "invalid eq" ++ [0])).1 =
        [⟨105, .stateBeginComplexPredicate, .scanFilterContinue, 0⟩,
          ⟨110, .stateInComplexPath, .scanFilterContinue, 0⟩,
          ⟨118, .stateInComplexPath, .scanFilterContinue, 0⟩,
          ⟨97, .stateInComplexPath, .scanFilterContinue, 0⟩,
          ⟨108, .stateInComplexPath, .scanFilterContinue, 0⟩,
          ⟨105, .stateInComplexPath, .scanFilterContinue, 0⟩,
          ⟨100, .stateInComplexPath, .scanFilterContinue, 0⟩,
          ⟨32, .stateInComplexPath, .scanFilterContinue, 0⟩,
          ⟨101, .stateBeginComplexOp, .scanFilterContinue, 0⟩,
          ⟨113, .stateComplexOpE, .scanFilterContinue, 0⟩,
          ⟨0, .stateComplexOpEq, .scanFilterError, 0⟩] ∧
      (drive P fresh (bytes "invalid eq " ++ [0])).1 =
        [⟨105, .stateBeginComplexPredicate, .scanFilterContinue, 0⟩,
          ⟨110, .stateInComplexPath, .scanFilterContinue, 0⟩,
          ⟨118, .stateInComplexPath, .scanFilterContinue, 0⟩,
          ⟨97, .stateInComplexPath, .scanFilterContinue, 0⟩,
          ⟨108, .stateInComplexPath, .scanFilterContinue, 0⟩,
          ⟨105, .stateInComplexPath, .scanFilterContinue, 0⟩,
          ⟨100, .stateInComplexPath, .scanFilterContinue, 0⟩,
          ⟨32, .stateInComplexPath, .scanFilterContinue, 0⟩,
          ⟨101, .stateBeginComplexOp, .scanFilterContinue, 0⟩,
          ⟨113, .stateComplexOpE, .scanFilterContinue, 0⟩,
          ⟨32, .stateComplexOpEq, .scanFilterContinue, 0⟩,
          ⟨0, .stateBeginComplexLiteral, .scanFilterError, 0⟩] := by
  have hF := lettersArePath_first P hP
  have hN := lettersArePath_nonFirst P hP
  rw [show bytes "invalid eq" ++ [0] = [105, 110, 118, 97, 108, 105, 100, 32, 101, 113, 0] from by
      decide,
    show bytes "invalid eq " ++ [0] = [105, 110, 118, 97, 108, 105, 100, 32, 101, 113, 32, 0] from by
      decide]
  constructor <;>
    simp [drive, feed, observe, hasAction, step, fresh, stateBeginComplexPredicate,
      stateInComplexPath, stateBeginComplexOp, stateComplexOpE, stateComplexOpEq,
      stateBeginComplexLiteral, errInvalidOperator, error, hF, hN, isLetter]

theorem C8_missing_literal_witness :
    (drive letters fresh (bytes "invalid eq " ++ [0])).1 =
      [⟨105, .stateBeginComplexPredicate, .scanFilterContinue, 0⟩,
        ⟨110, .stateInComplexPath, .scanFilterContinue, 0⟩,
        ⟨118, .stateInComplexPath, .scanFilterContinue, 0⟩,
        ⟨97, .stateInComplexPath, .scanFilterContinue, 0⟩,
        ⟨108, .stateInComplexPath, .scanFilterContinue, 0⟩,
        ⟨105, .stateInComplexPath, .scanFilterContinue, 0⟩,
        ⟨100, .stateInComplexPath, .scanFilterContinue, 0⟩,
        ⟨32, .stateInComplexPath, .scanFilterContinue, 0⟩,
        ⟨101, .stateBeginComplexOp, .scanFilterContinue, 0⟩,
        ⟨113, .stateComplexOpE, .scanFilterContinue, 0⟩,
        ⟨32, .stateComplexOpEq, .scanFilterContinue, 0⟩,
        ⟨0, .stateBeginComplexLiteral, .scanFilterError, 0⟩] :=
  (C8_missing_literal letters letters_lettersArePath).2

/-! ## C9: a bare path at the end of the input -/

/-- C9 (as stated, refuted): in the path state at depth 0 the sentinel returns
an error, so the driven scan of `active` followed by the sentinel ends with an
error and never returns the end-of-filter action. -/
theorem C9_counterexample :
    (step letters ⟨.stateInComplexPath, 0, none⟩ 0).1 = .scanFilterError ∧
      (drive letters fresh (bytes "active" ++ [0])).1 =
        [⟨97, .stateBeginComplexPredicate, .scanFilterContinue, 0⟩,
          ⟨99, .stateInComplexPath, .scanFilterContinue, 0⟩,
          ⟨116, .stateInComplexPath, .scanFilterContinue, 0⟩,
          ⟨105, .stateInComplexPath, .scanFilterContinue, 0⟩,
          ⟨118, .stateInComplexPath, .scanFilterContinue, 0⟩,
          ⟨101, .stateInComplexPath, .scanFilterContinue, 0⟩,
          ⟨0, .stateInComplexPath, .scanFilterError, 0⟩] := by
  constructor <;> rfl

/-- C9 (amended): when the sentinel is outside the path alphabet, the path
state rejects it at every depth with "invalid character in complex path"; so,
with letters as path characters, the driven scan of `active` followed by the
sentinel returns an error for the sentinel and no end-of-filter action.  The
sentinel ends a scan after a path only in `stateEndComplexPath`, where it
returns the end-of-filter action and moves to the predicate-end state. -/
theorem C9_bare_path_rejected (P : Package) (d : Int) (e : Option (Nat × String))
    (h0 : P.isNonFirstAlphabet 0 = false) (hP : P.lettersArePath) :
    step P ⟨.stateInComplexPath, d, e⟩ 0 =
        (.scanFilterError,
          ⟨.stateError, d, some (0, "invalid character in complex path")⟩) ∧
      step P ⟨.stateEndComplexPath, d, e⟩ 0 =
        (.scanFilterEnd, ⟨.stateEndComplexPredicate, d, e⟩) ∧
      (drive P fresh (bytes "active" ++ [0])).1 =
        [⟨97, .stateBeginComplexPredicate, .scanFilterContinue, 0⟩,
          ⟨99, .stateInComplexPath, .scanFilterContinue, 0⟩,
          ⟨116, .stateInComplexPath, .scanFilterContinue, 0⟩,
          ⟨105, .stateInComplexPath, .scanFilterContinue, 0⟩,
          ⟨118, .stateInComplexPath, .scanFilterContinue, 0⟩,
          ⟨101, .stateInComplexPath, .scanFilterContinue, 0⟩,
          ⟨0, .stateInComplexPath, .scanFilterError, 0⟩] := by
  have hF := lettersArePath_first P hP
  have hN := lettersArePath_nonFirst P hP
  refine ⟨?_, ?_, ?_⟩
  · simp [step, stateInComplexPath, error, h0]
  · simp [step, stateEndComplexPath]
  · rw [show bytes "active" ++ [0] = [97, 99, 116, 105, 118, 101, 0] from by decide]
    simp [drive, feed, observe, hasAction, step, fresh, stateBeginComplexPredicate,
      stateInComplexPath, error, hF, hN, isLetter, h0]

theorem C9_bare_path_rejected_witness :
    step letters ⟨.stateEndComplexPath, 0, none⟩ 0 =
      (.scanFilterEnd, ⟨.stateEndComplexPredicate, 0, none⟩) :=
  (C9_bare_path_rejected letters 0 none (by decide) letters_lettersArePath).2.1

/-! ## C10: the relational operator chains -/

/-- Lower-casing hits a lower-case letter exactly from that letter or its
upper-case form. -/
theorem lower_eq_iff (c k : Nat) (hk : 97 ≤ k ∧ k ≤ 122) :
    lower c = k ↔ c = k ∨ c + 32 = k := by
  unfold lower
  split_ifs with h <;> omega

/-- The error action of a step in an operator-chain state, in terms of the
expected bytes. -/
theorem chain_error_iff (P : Package) (st : State) (d : Int) (e : Option (Nat × String))
    (c : Nat) (h : st.inOperatorChain = true) :
    (step P ⟨st, d, e⟩ c).1 = .scanFilterError ↔ expectedNext st c = false := by
  cases st <;> first | (exact absurd h (by decide)) | skip
  all_goals
    simp only [step, stateComplexOpA, stateComplexOpAn, stateComplexOpAnd, stateComplexOpC,
      stateComplexOpCo, stateComplexOpE, stateComplexOpEq, stateComplexOpEw, stateComplexOpG,
      stateComplexOpGt, stateComplexOpGe, stateComplexOpL, stateComplexOpLt, stateComplexOpLe,
      stateComplexOpN, stateComplexOpNe, stateComplexOpNo, stateComplexOpNot, stateComplexOpO,
      stateComplexOpOr, stateComplexOpP, stateComplexOpPr, stateComplexOpS, stateComplexOpSw,
      error, errInvalidOperator, apply_ite Prod.fst, ite_eq_iff, expectedNext,
      decide_eq_false_iff_not, lower_eq_iff _ _ (show 97 ≤ 110 ∧ 110 ≤ 122 by decide),
      lower_eq_iff _ _ (show 97 ≤ 100 ∧ 100 ≤ 122 by decide),
      lower_eq_iff _ _ (show 97 ≤ 111 ∧ 111 ≤ 122 by decide),
      lower_eq_iff _ _ (show 97 ≤ 113 ∧ 113 ≤ 122 by decide),
      lower_eq_iff _ _ (show 97 ≤ 119 ∧ 119 ≤ 122 by decide),
      lower_eq_iff _ _ (show 97 ≤ 116 ∧ 116 ≤ 122 by decide),
      lower_eq_iff _ _ (show 97 ≤ 101 ∧ 101 ≤ 122 by decide),
      lower_eq_iff _ _ (show 97 ≤ 114 ∧ 114 ≤ 122 by decide)]
  all_goals simp
  all_goals omega

/-- The literal-start state is entered, without error, exactly by a space read
after both letters of a relational operator. -/
theorem literal_start_iff (P : Package) (fs : filterScanner) (c : Nat)
    (h : fs.step.inFile = true) :
    ((step P fs c).1 ≠ .scanFilterError ∧ (step P fs c).2.step = .stateBeginComplexLiteral) ↔
      (fs.step.isTwoLetter = true ∧ c = 32) := by
  obtain ⟨st, d, e⟩ := fs
  simp only at h
  cases st <;> first | (exact absurd h (by decide)) | skip
  all_goals
    simp only [step, stateBeginComplexPredicate, stateEndComplexPredicate, stateComplexN,
      stateComplexNo, stateComplexNot, stateInComplexPath, stateEndComplexPath,
      stateBeginComplexOp, stateComplexOpA, stateComplexOpAn, stateComplexOpAnd, stateComplexOpC,
      stateComplexOpCo, stateComplexOpE, stateComplexOpEq, stateComplexOpEw, stateComplexOpG,
      stateComplexOpGt, stateComplexOpGe, stateComplexOpL, stateComplexOpLt, stateComplexOpLe,
      stateComplexOpN, stateComplexOpNe, stateComplexOpNo, stateComplexOpNot, stateComplexOpO,
      stateComplexOpOr, stateComplexOpP, stateComplexOpPr, stateComplexOpS, stateComplexOpSw,
      stateBeginComplexLiteral, stateEndComplexLiteral, stateInComplexStringLiteral,
      stateEndComplexStringLiteral, stateInComplexNonStringLiteral, stateInComplexStringEsc,
      stateInComplexStringEscU, stateInComplexStringEscU1, stateInComplexStringEscU12,
      stateInComplexStringEscU123, error, errInvalidOperator, apply_ite Prod.fst,
      apply_ite Prod.snd, apply_ite filterScanner.step, ite_eq_iff, ne_eq, State.isTwoLetter]
  all_goals simp

/-- One byte read in the operator-begin state or right after the first letter
of an operator: unless it is rejected, the next state is a state of this file,
and it is a completed relational operator exactly for the matching second
letter. -/
theorem second_letter_iff (P : Package) (st : State) (d : Int) (e : Option (Nat × String))
    (c : Nat) (h : st.isOpStart = true) :
    ((step P ⟨st, d, e⟩ c).1 ≠ .scanFilterError →
        (step P ⟨st, d, e⟩ c).2.step.inFile = true) ∧
      (((step P ⟨st, d, e⟩ c).1 ≠ .scanFilterError ∧
          (step P ⟨st, d, e⟩ c).2.step.isTwoLetter = true) ↔ secondLetter st c = true) := by
  cases st <;> first | (exact absurd h (by decide)) | skip
  all_goals
    simp only [step, stateBeginComplexOp, stateComplexOpA, stateComplexOpC, stateComplexOpE,
      stateComplexOpG, stateComplexOpL, stateComplexOpN, stateComplexOpO, stateComplexOpP,
      stateComplexOpS, error, errInvalidOperator, apply_ite Prod.fst, apply_ite Prod.snd,
      apply_ite filterScanner.step, apply_ite State.inFile, apply_ite State.isTwoLetter,
      secondLetter, decide_eq_true_eq,
      lower_eq_iff _ _ (show 97 ≤ 111 ∧ 111 ≤ 122 by decide),
      lower_eq_iff _ _ (show 97 ≤ 113 ∧ 113 ≤ 122 by decide),
      lower_eq_iff _ _ (show 97 ≤ 119 ∧ 119 ≤ 122 by decide),
      lower_eq_iff _ _ (show 97 ≤ 116 ∧ 116 ≤ 122 by decide),
      lower_eq_iff _ _ (show 97 ≤ 101 ∧ 101 ≤ 122 by decide)]
  all_goals simp only [State.inFile, State.isTwoLetter, ite_eq_iff, ne_eq]
  all_goals simp
  all_goals omega

/-- Two further bytes after the operator-begin state or after the first letter
of an operator reach the literal-start state without error exactly when the
first completes a relational operator and the second is a space. -/
theorem operator_tail (P : Package) (d : Int) (e : Option (Nat × String)) (b2 b3 : Nat)
    (st : State) (h : st.isOpStart = true) :
    ((step P ⟨st, d, e⟩ b2).1 ≠ .scanFilterError ∧
        (step P (step P ⟨st, d, e⟩ b2).2 b3).1 ≠ .scanFilterError ∧
        (step P (step P ⟨st, d, e⟩ b2).2 b3).2.step = .stateBeginComplexLiteral) ↔
      (secondLetter st b2 = true ∧ b3 = 32) := by
  obtain ⟨hin, hiff⟩ := second_letter_iff P st d e b2 h
  constructor
  · rintro ⟨h2, h3, hs⟩
    have hl := (literal_start_iff P _ b3 (hin h2)).1 ⟨h3, hs⟩
    exact ⟨hiff.1 ⟨h2, hl.1⟩, hl.2⟩
  · rintro ⟨hsl, hb3⟩
    obtain ⟨h2, htl⟩ := hiff.2 hsl
    have hl := (literal_start_iff P _ b3 (hin h2)).2 ⟨htl, hb3⟩
    exact ⟨h2, hl.1, hl.2⟩

/-- The first byte of an operator: either it is rejected and is not the first
letter of a relational operator, or it is accepted and the state reached
expects exactly the second letters that complete a relational operator. -/
theorem first_letter (P : Package) (d : Int) (e : Option (Nat × String)) (b1 : Nat) :
    ((step P ⟨.stateBeginComplexOp, d, e⟩ b1).1 = .scanFilterError ∧
        ∀ b2, (lower b1, lower b2) ∉ relationalOps) ∨
      ∃ st, (step P ⟨.stateBeginComplexOp, d, e⟩ b1).2 = ⟨st, d, e⟩ ∧
        st.isOpStart = true ∧
        (step P ⟨.stateBeginComplexOp, d, e⟩ b1).1 ≠ .scanFilterError ∧
        ∀ b2, (secondLetter st b2 = true ↔ (lower b1, lower b2) ∈ relationalOps) := by
  have hcases : b1 = 32 ∨ b1 = 97 ∨ b1 = 65 ∨ b1 = 99 ∨ b1 = 67 ∨ b1 = 101 ∨ b1 = 69 ∨ b1 = 103 ∨ b1 = 71 ∨ b1 = 108 ∨ b1 = 76 ∨ b1 = 110 ∨ b1 = 78 ∨ b1 = 111 ∨ b1 = 79 ∨ b1 = 112 ∨ b1 = 80 ∨ b1 = 115 ∨ b1 = 83 ∨
      (b1 ≠ 32 ∧ b1 ≠ 97 ∧ b1 ≠ 65 ∧ b1 ≠ 99 ∧ b1 ≠ 67 ∧ b1 ≠ 101 ∧ b1 ≠ 69 ∧ b1 ≠ 103 ∧ b1 ≠ 71 ∧ b1 ≠ 108 ∧ b1 ≠ 76 ∧ b1 ≠ 110 ∧ b1 ≠ 78 ∧ b1 ≠ 111 ∧ b1 ≠ 79 ∧ b1 ≠ 112 ∧ b1 ≠ 80 ∧ b1 ≠ 115 ∧ b1 ≠ 83) := by
    omega
  rcases hcases with rfl | rfl | rfl | rfl | rfl | rfl | rfl | rfl | rfl | rfl | rfl | rfl | rfl | rfl | rfl | rfl | rfl | rfl | rfl | hne
  case inr.inr.inr.inr.inr.inr.inr.inr.inr.inr.inr.inr.inr.inr.inr.inr.inr.inr.inr =>
    left
    constructor
    · simp [step, stateBeginComplexOp, error, hne]
    · intro b2
      have h1 := lower_eq_iff b1 101 (by decide)
      have h2 := lower_eq_iff b1 110 (by decide)
      have h3 := lower_eq_iff b1 99 (by decide)
      have h4 := lower_eq_iff b1 115 (by decide)
      have h5 := lower_eq_iff b1 103 (by decide)
      have h6 := lower_eq_iff b1 108 (by decide)
      simp only [relationalOps, List.mem_cons, Prod.mk.injEq, List.mem_singleton,
        List.not_mem_nil, or_false]
      omega
  all_goals
    right
    refine ⟨_, rfl, rfl, ?_, fun b2 => ?_⟩
    · simp [step, stateBeginComplexOp]
    · simp [secondLetter, relationalOps, lower]

/-- C10: fed to the operator-begin state, three bytes `b1 b2 b3` reach the
literal-start state without any error exactly when the lower-cased pair
`b1 b2` is one of the nine relational operators and `b3` is a space; and in
every state inside an operator chain a byte returns an error exactly when it
is not an expected next letter (in either case) or the required delimiter. -/
theorem C10_relational_operators (P : Package) (d : Int) (e : Option (Nat × String))
    (b1 b2 b3 : Nat) :
    (((step P ⟨.stateBeginComplexOp, d, e⟩ b1).1 ≠ .scanFilterError ∧
        (step P (step P ⟨.stateBeginComplexOp, d, e⟩ b1).2 b2).1 ≠ .scanFilterError ∧
        (step P (step P (step P ⟨.stateBeginComplexOp, d, e⟩ b1).2 b2).2 b3).1 ≠
          .scanFilterError ∧
        (step P (step P (step P ⟨.stateBeginComplexOp, d, e⟩ b1).2 b2).2 b3).2.step =
          .stateBeginComplexLiteral) ↔
      ((lower b1, lower b2) ∈ relationalOps ∧ b3 = 32)) ∧
    (∀ (st : State) (c : Nat), st.inOperatorChain = true →
      ((step P ⟨st, d, e⟩ c).1 = .scanFilterError ↔ expectedNext st c = false)) := by
  refine ⟨?_, fun st c h => chain_error_iff P st d e c h⟩
  rcases first_letter P d e b1 with ⟨herr, hno⟩ | ⟨st, hs, hop, hne, hiff⟩
  · constructor
    · rintro ⟨h1, _⟩
      exact absurd herr h1
    · rintro ⟨hm, _⟩
      exact absurd hm (hno b2)
  · rw [hs]
    have ht := operator_tail P d e b2 b3 st hop
    constructor
    · rintro ⟨_, h2, h3, h4⟩
      have hr := ht.1 ⟨h2, h3, h4⟩
      exact ⟨(hiff b2).1 hr.1, hr.2⟩
    · rintro ⟨hm, h3⟩
      have hr := ht.2 ⟨(hiff b2).2 hm, h3⟩
      exact ⟨hne, hr.1, hr.2.1, hr.2.2⟩

/-! ## C1: scanning the filters of the grammar -/

theorem hasAction_append (a : Action) (xs ys : List Event) :
    hasAction a (xs ++ ys) = (hasAction a xs || hasAction a ys) := by
  simp [hasAction, List.any_append]

theorem drive_cons (P : Package) (fs : filterScanner) (c : Nat) (cs : List Nat) :
    drive P fs (c :: cs) =
      if hasAction .scanFilterError (feed P fs c).1 then feed P fs c
      else ((feed P fs c).1 ++ (drive P (feed P fs c).2 cs).1, (drive P (feed P fs c).2 cs).2) :=
  rfl

/-- Driving a concatenation, when the first part returns no error. -/
theorem drive_append (P : Package) (xs ys : List Nat) (fs : filterScanner)
    (h : hasAction .scanFilterError (drive P fs xs).1 = false) :
    drive P fs (xs ++ ys) =
      ((drive P fs xs).1 ++ (drive P (drive P fs xs).2 ys).1,
        (drive P (drive P fs xs).2 ys).2) := by
  induction xs generalizing fs with
  | nil => simp [drive]
  | cons c cs ih =>
    rw [drive_cons] at h
    rw [List.cons_append, drive_cons, drive_cons]
    by_cases hf : hasAction .scanFilterError (feed P fs c).1 = true
    · rw [if_pos hf] at h
      rw [hf] at h
      exact absurd h (by decide)
    · rw [if_neg hf] at h ⊢
      rw [if_neg hf]
      simp only [hasAction_append, Bool.or_eq_false_iff] at h
      rw [ih _ h.2]
      simp [List.append_assoc]

theorem Scans.nil (P : Package) (fs : filterScanner) : Scans P fs [] fs := by
  simp [Scans, drive, hasAction]

theorem Scans.append {P : Package} {fs fs2 fs3 : filterScanner} {xs ys : List Nat}
    (h1 : Scans P fs xs fs2) (h2 : Scans P fs2 ys fs3) : Scans P fs (xs ++ ys) fs3 := by
  obtain ⟨e1, n1, m1⟩ := h1
  obtain ⟨e2, n2, m2⟩ := h2
  rw [Scans, drive_append P xs ys fs n1]
  subst e1
  simp only [hasAction_append, n1, n2, m1, m2, e2, Bool.or_self, and_self]

/-- One byte whose step returns an ordinary action. -/
theorem Scans.single {P : Package} {fs : filterScanner} {c : Nat}
    (h1 : (step P fs c).1 ≠ .scanFilterInsertSpace) (h2 : (step P fs c).1 ≠ .scanFilterError)
    (h3 : (step P fs c).1 ≠ .scanFilterEnd) : Scans P fs [c] (step P fs c).2 := by
  simp [Scans, drive, feed, h1, hasAction, observe, h2, h3]

theorem Scans.cons {P : Package} {fs fs3 : filterScanner} {c : Nat} {cs : List Nat}
    (h1 : (step P fs c).1 ≠ .scanFilterInsertSpace) (h2 : (step P fs c).1 ≠ .scanFilterError)
    (h3 : (step P fs c).1 ≠ .scanFilterEnd) (h : Scans P (step P fs c).2 cs fs3) :
    Scans P fs (c :: cs) fs3 :=
  Scans.append (Scans.single h1 h2 h3) h

/-- One byte whose step is known and returns an ordinary action, followed by a
scan of the remaining bytes. -/
theorem Scans.step_then {P : Package} {fs fs2 fs3 : filterScanner} {c : Nat} {cs : List Nat}
    (a : Action) (hs : step P fs c = (a, fs2))
    (ha : a ≠ .scanFilterInsertSpace ∧ a ≠ .scanFilterError ∧ a ≠ .scanFilterEnd)
    (h : Scans P fs2 cs fs3) : Scans P fs (c :: cs) fs3 := by
  have h1 : (step P fs c).1 = a := by rw [hs]
  have h2 : (step P fs c).2 = fs2 := by rw [hs]
  refine Scans.cons ?_ ?_ ?_ ?_
  · rw [h1]; exact ha.1
  · rw [h1]; exact ha.2.1
  · rw [h1]; exact ha.2.2
  · rw [h2]; exact h

/-- Bytes that the path state consumes without leaving it. -/
theorem scan_pathBytes (P : Package) (d : Int) (e : Option (Nat × String)) (cs : List Nat)
    (h : ∀ c ∈ cs, c ≠ 32 ∧ (c = 46 ∨ c = 58 ∨ P.isNonFirstAlphabet c = true)) :
    Scans P ⟨.stateInComplexPath, d, e⟩ cs ⟨.stateInComplexPath, d, e⟩ := by
  induction cs with
  | nil => exact Scans.nil P _
  | cons c cs ih =>
    have hc := h c (List.mem_cons_self c cs)
    have hstep : step P ⟨.stateInComplexPath, d, e⟩ c =
        (.scanFilterContinue, ⟨.stateInComplexPath, d, e⟩) := by
      simp [step, stateInComplexPath, hc.1, hc.2]
    have ht := ih (fun x hx => h x (List.mem_cons_of_mem c hx))
    exact Scans.step_then _ hstep (by decide) ht

/-- The bytes of the further segments of a well-formed path are path bytes. -/
theorem renderTail_pathBytes (P : Package) (hP : P.pathsDelimited)
    (ts : List (Nat × Segment))
    (h : ts.all (fun t => (t.1 = 46 || t.1 = 58) && t.2.wf P) = true) :
    ∀ c ∈ renderTail ts, c ≠ 32 ∧ (c = 46 ∨ c = 58 ∨ P.isNonFirstAlphabet c = true) := by
  obtain ⟨hsub, hsp, _⟩ := hP
  induction ts with
  | nil => intro c hc; simp [renderTail] at hc
  | cons t ts ih =>
    simp only [List.all_cons, Bool.and_eq_true] at h
    obtain ⟨⟨hsep, hseg⟩, hts⟩ := h
    simp only [Bool.or_eq_true, decide_eq_true_eq] at hsep
    simp only [Segment.wf, Bool.and_eq_true, List.all_eq_true] at hseg
    obtain ⟨hfirst, hrest⟩ := hseg
    intro c hc
    simp only [renderTail, Segment.render, List.mem_cons, List.mem_append] at hc
    rcases hc with hc | (hc | hc) | hc
    · subst hc
      rcases hsep with hs | hs <;> simp [hs]
    · subst hc
      have hn := hsub _ hfirst
      refine ⟨?_, Or.inr (Or.inr hn)⟩
      intro h32
      rw [h32, hsp] at hn
      exact absurd hn (by decide)
    · have hn := hrest c hc
      refine ⟨?_, Or.inr (Or.inr hn)⟩
      intro h32
      rw [h32, hsp] at hn
      exact absurd hn (by decide)
    · exact ih hts c hc

/-- A well-formed path that does not start with `n` / `N` is consumed from the
predicate-start state and leaves the scanner in the path state. -/
theorem scan_path (P : Package) (hP : P.pathsDelimited) (p : Path) (hwf : p.wf P = true)
    (hstart : p.plainStart = true) (d : Int) (e : Option (Nat × String)) :
    Scans P ⟨.stateBeginComplexPredicate, d, e⟩ p.render ⟨.stateInComplexPath, d, e⟩ := by
  have hP2 := hP
  obtain ⟨hsub, hsp, hlp⟩ := hP
  simp only [Path.wf, Bool.and_eq_true] at hwf
  obtain ⟨hhead, htail⟩ := hwf
  simp only [Segment.wf, Bool.and_eq_true, List.all_eq_true] at hhead
  obtain ⟨hfirst, hrest⟩ := hhead
  simp only [Path.plainStart, Bool.and_eq_true, decide_eq_true_eq] at hstart
  have h32 : p.head.first ≠ 32 := by
    intro h
    have hn := hsub _ hfirst
    rw [h, hsp] at hn
    exact absurd hn (by decide)
  have h40 : p.head.first ≠ 40 := by
    intro h
    rw [h, hlp] at hfirst
    exact absurd hfirst (by decide)
  have hstep : step P ⟨.stateBeginComplexPredicate, d, e⟩ p.head.first =
      (.scanFilterContinue, ⟨.stateInComplexPath, d, e⟩) := by
    simp [step, stateBeginComplexPredicate, h32, h40, hstart.1, hstart.2, hfirst]
  have hbytes : ∀ c ∈ p.head.rest ++ renderTail p.tail,
      c ≠ 32 ∧ (c = 46 ∨ c = 58 ∨ P.isNonFirstAlphabet c = true) := by
    intro c hc
    rcases List.mem_append.1 hc with hc | hc
    · have hn := hrest c hc
      refine ⟨?_, Or.inr (Or.inr hn)⟩
      intro h
      rw [h, hsp] at hn
      exact absurd hn (by decide)
    · exact renderTail_pathBytes P hP2 p.tail htail c hc
  show Scans P _ (p.head.render ++ renderTail p.tail) _
  rw [Segment.render, List.cons_append]
  exact Scans.step_then _ hstep (by decide) (scan_pathBytes P d e _ hbytes)

/-- A lower-case letter is hit by lower-casing only from itself or from its
upper-case form. -/
theorem lower_cases (c k : Nat) (hk : 97 ≤ k ∧ k ≤ 122) (h : lower c = k) :
    c = k ∨ c = k - 32 := by
  unfold lower at h
  split_ifs at h <;> omega

/-- A space and a relational operator followed by a space, read after a path,
lead to the literal-start state. -/
theorem scan_relop (P : Package) (d : Int) (e : Option (Nat × String)) (o1 o2 : Nat)
    (h : (lower o1, lower o2) ∈ relationalOps) :
    Scans P ⟨.stateInComplexPath, d, e⟩ [32, o1, o2, 32] ⟨.stateBeginComplexLiteral, d, e⟩ := by
  simp only [relationalOps, List.mem_cons, Prod.mk.injEq, List.mem_singleton,
    List.not_mem_nil, or_false] at h
  rcases h with ⟨h1, h2⟩ | ⟨h1, h2⟩ | ⟨h1, h2⟩ | ⟨h1, h2⟩ | ⟨h1, h2⟩ | ⟨h1, h2⟩ | ⟨h1, h2⟩ |
    ⟨h1, h2⟩ | ⟨h1, h2⟩
  all_goals
    rcases lower_cases _ _ (by decide) h1 with rfl | rfl <;>
    rcases lower_cases _ _ (by decide) h2 with rfl | rfl <;>
    simp [Scans, drive, feed, observe, hasAction, step, stateInComplexPath, stateBeginComplexOp,
      stateComplexOpC, stateComplexOpCo, stateComplexOpE, stateComplexOpEq, stateComplexOpEw,
      stateComplexOpG, stateComplexOpGt, stateComplexOpGe, stateComplexOpL, stateComplexOpLt,
      stateComplexOpLe, stateComplexOpN, stateComplexOpNe, stateComplexOpS, stateComplexOpSw]

/-- A space and `pr`, read after a path, lead to the state after `pr`. -/
theorem scan_pr (P : Package) (d : Int) (e : Option (Nat × String)) (k1 k2 : Nat)
    (h1 : lower k1 = 112) (h2 : lower k2 = 114) :
    Scans P ⟨.stateInComplexPath, d, e⟩ [32, k1, k2] ⟨.stateComplexOpPr, d, e⟩ := by
  rcases lower_cases _ _ (by decide) h1 with rfl | rfl <;>
  rcases lower_cases _ _ (by decide) h2 with rfl | rfl <;>
  simp [Scans, drive, feed, observe, hasAction, step, stateInComplexPath, stateBeginComplexOp,
    stateComplexOpP, stateComplexOpPr]

/-- Bytes that the non-string-literal state consumes without leaving it. -/
theorem scan_rawBytes (P : Package) (d : Int) (e : Option (Nat × String)) (cs : List Nat)
    (h : cs.all (fun c => c ≠ 32 && c ≠ 41 && c ≠ 0) = true) :
    Scans P ⟨.stateInComplexNonStringLiteral, d, e⟩ cs
      ⟨.stateInComplexNonStringLiteral, d, e⟩ := by
  induction cs with
  | nil => exact Scans.nil P _
  | cons c cs ih =>
    simp only [List.all_cons, Bool.and_eq_true, decide_eq_true_eq] at h
    obtain ⟨⟨⟨h32, h41⟩, h0⟩, hcs⟩ := h
    have hstep : step P ⟨.stateInComplexNonStringLiteral, d, e⟩ c =
        (.scanFilterContinue, ⟨.stateInComplexNonStringLiteral, d, e⟩) := by
      simp [step, stateInComplexNonStringLiteral, h32, h41, h0]
    exact Scans.step_then _ hstep (by decide) (ih hcs)

/-- One well-formed element of a string body is consumed inside the string. -/
theorem scan_item (P : Package) (d : Int) (e : Option (Nat × String)) (i : StrItem)
    (h : i.wf = true) :
    Scans P ⟨.stateInComplexStringLiteral, d, e⟩ i.render
      ⟨.stateInComplexStringLiteral, d, e⟩ := by
  cases i with
  | plain c =>
    simp only [StrItem.wf, Bool.and_eq_true, decide_eq_true_eq] at h
    obtain ⟨⟨h34, h92⟩, _⟩ := h
    simp [StrItem.render, Scans, drive, feed, observe, hasAction, step,
      stateInComplexStringLiteral, h34, h92]
  | esc c =>
    simp only [StrItem.wf, Bool.or_eq_true, decide_eq_true_eq] at h
    have hstep : step P ⟨.stateInComplexStringEsc, d, e⟩ c =
        (.scanFilterContinue, ⟨.stateInComplexStringLiteral, d, e⟩) := by
      have h2 : c = 98 ∨ c = 102 ∨ c = 110 ∨ c = 114 ∨ c = 116 ∨ c = 92 ∨ c = 47 ∨ c = 34 := by
        omega
      simp [step, stateInComplexStringEsc, h2]
    have h0 : step P ⟨.stateInComplexStringLiteral, d, e⟩ 92 =
        (.scanFilterContinue, ⟨.stateInComplexStringEsc, d, e⟩) := by
      simp [step, stateInComplexStringLiteral]
    exact Scans.step_then _ h0 (by decide) (Scans.step_then _ hstep (by decide) (Scans.nil P _))
  | uni a b c d4 =>
    simp only [StrItem.wf, Bool.and_eq_true] at h
    obtain ⟨⟨⟨ha, hb⟩, hc⟩, hd⟩ := h
    have h0 : step P ⟨.stateInComplexStringLiteral, d, e⟩ 92 =
        (.scanFilterContinue, ⟨.stateInComplexStringEsc, d, e⟩) := by
      simp [step, stateInComplexStringLiteral]
    have h1 : step P ⟨.stateInComplexStringEsc, d, e⟩ 117 =
        (.scanFilterContinue, ⟨.stateInComplexStringEscU, d, e⟩) := by
      simp [step, stateInComplexStringEsc]
    have h2 : step P ⟨.stateInComplexStringEscU, d, e⟩ a =
        (.scanFilterContinue, ⟨.stateInComplexStringEscU1, d, e⟩) := by
      simp [step, stateInComplexStringEscU, ha]
    have h3 : step P ⟨.stateInComplexStringEscU1, d, e⟩ b =
        (.scanFilterContinue, ⟨.stateInComplexStringEscU12, d, e⟩) := by
      simp [step, stateInComplexStringEscU1, hb]
    have h4 : step P ⟨.stateInComplexStringEscU12, d, e⟩ c =
        (.scanFilterContinue, ⟨.stateInComplexStringEscU123, d, e⟩) := by
      simp [step, stateInComplexStringEscU12, hc]
    have h5 : step P ⟨.stateInComplexStringEscU123, d, e⟩ d4 =
        (.scanFilterContinue, ⟨.stateInComplexStringLiteral, d, e⟩) := by
      simp [step, stateInComplexStringEscU123, hd]
    exact Scans.step_then _ h0 (by decide) (Scans.step_then _ h1 (by decide)
      (Scans.step_then _ h2 (by decide) (Scans.step_then _ h3 (by decide)
        (Scans.step_then _ h4 (by decide) (Scans.step_then _ h5 (by decide) (Scans.nil P _))))))

/-- The body of a well-formed string literal is consumed inside the string. -/
theorem scan_items (P : Package) (d : Int) (e : Option (Nat × String)) (items : List StrItem)
    (h : items.all StrItem.wf = true) :
    Scans P ⟨.stateInComplexStringLiteral, d, e⟩ (renderItems items)
      ⟨.stateInComplexStringLiteral, d, e⟩ := by
  induction items with
  | nil => exact Scans.nil P _
  | cons i is ih =>
    simp only [List.all_cons, Bool.and_eq_true] at h
    exact Scans.append (scan_item P d e i h.1) (ih h.2)

/-- A well-formed literal is consumed from the literal-start state. -/
theorem scan_literal (P : Package) (d : Int) (e : Option (Nat × String)) (l : Literal)
    (h : l.wf = true) :
    Scans P ⟨.stateBeginComplexLiteral, d, e⟩ l.render ⟨l.ending.state, d, e⟩ := by
  cases l with
  | str items =>
    simp only [Literal.wf] at h
    have h0 : step P ⟨.stateBeginComplexLiteral, d, e⟩ 34 =
        (.scanFilterContinue, ⟨.stateInComplexStringLiteral, d, e⟩) := by
      simp [step, stateBeginComplexLiteral]
    have h1 : step P ⟨.stateInComplexStringLiteral, d, e⟩ 34 =
        (.scanFilterContinue, ⟨.stateEndComplexStringLiteral, d, e⟩) := by
      simp [step, stateInComplexStringLiteral]
    exact Scans.step_then _ h0 (by decide)
      (Scans.append (scan_items P d e items h) (Scans.step_then _ h1 (by decide) (Scans.nil P _)))
  | raw first rest =>
    simp only [Literal.wf, Bool.and_eq_true, isLiteralStart, Bool.or_eq_true,
      decide_eq_true_eq] at h
    obtain ⟨hf, hr⟩ := h
    have h0 : step P ⟨.stateBeginComplexLiteral, d, e⟩ first =
        (.scanFilterContinue, ⟨.stateInComplexNonStringLiteral, d, e⟩) := by
      have h34 : first ≠ 34 := by omega
      have h2 : first = 116 ∨ first = 84 ∨ first = 102 ∨ first = 70 ∨ first = 45 ∨ first = 43 ∨
          first = 48 ∨ first = 49 ∨ first = 50 ∨ first = 51 ∨ first = 52 ∨ first = 53 ∨
          first = 54 ∨ first = 55 ∨ first = 56 ∨ first = 57 := by
        omega
      simp [step, stateBeginComplexLiteral, h34, h2]
    exact Scans.step_then _ h0 (by decide) (scan_rawBytes P d e rest hr)

/-- The shapes of a keyword `and` or `or` written in any case. -/
theorem keyword_cases (kw : List Nat)
    (h : (kw.map lower = [97, 110, 100] || kw.map lower = [111, 114]) = true) :
    (∃ a b c, kw = [a, b, c] ∧ (a = 97 ∨ a = 65) ∧ (b = 110 ∨ b = 78) ∧ (c = 100 ∨ c = 68)) ∨
      (∃ a b, kw = [a, b] ∧ (a = 111 ∨ a = 79) ∧ (b = 114 ∨ b = 82)) := by
  simp only [Bool.or_eq_true, decide_eq_true_eq] at h
  rcases h with h | h
  · left
    rcases kw with _ | ⟨a, _ | ⟨b, _ | ⟨c, _ | ⟨x, xs⟩⟩⟩⟩ <;> simp at h
    obtain ⟨ha, hb, hc⟩ := h
    refine ⟨a, b, c, rfl, ?_, ?_, ?_⟩
    · exact lower_cases _ _ (by decide) ha
    · exact lower_cases _ _ (by decide) hb
    · exact lower_cases _ _ (by decide) hc
  · right
    rcases kw with _ | ⟨a, _ | ⟨b, _ | ⟨x, xs⟩⟩⟩ <;> simp at h
    obtain ⟨ha, hb⟩ := h
    refine ⟨a, b, rfl, ?_, ?_⟩
    · exact lower_cases _ _ (by decide) ha
    · exact lower_cases _ _ (by decide) hb

/-- After any last token, a space, `and` or `or` in any case and a space lead
back to the predicate-start state at the same depth. -/
theorem scan_keyword (P : Package) (d : Int) (e : Option (Nat × String)) (k : Ending)
    (kw : List Nat)
    (h : (kw.map lower = [97, 110, 100] || kw.map lower = [111, 114]) = true) :
    Scans P ⟨k.state, d, e⟩ (32 :: (kw ++ [32])) ⟨.stateBeginComplexPredicate, d, e⟩ := by
  rcases keyword_cases kw h with ⟨a, b, c, rfl, ha, hb, hc⟩ | ⟨a, b, rfl, ha, hb⟩
  · have htail : Scans P ⟨.stateComplexOpA, d, e⟩ [b, c, 32]
        ⟨.stateBeginComplexPredicate, d, e⟩ := by
      rcases hb with rfl | rfl <;> rcases hc with rfl | rfl <;>
        simp [Scans, drive, feed, observe, hasAction, step, stateComplexOpA, stateComplexOpAn,
          stateComplexOpAnd]
    have hhead : Scans P ⟨k.state, d, e⟩ [32, a] ⟨.stateComplexOpA, d, e⟩ := by
      cases k <;> rcases ha with rfl | rfl <;>
        simp [Scans, drive, feed, observe, hasAction, step, Ending.state,
          stateInComplexNonStringLiteral, stateEndComplexStringLiteral, stateComplexOpPr,
          stateEndComplexPredicate, stateInComplexPath, stateEndComplexLiteral,
          stateBeginComplexOp]
    exact Scans.append hhead htail
  · have htail : Scans P ⟨.stateComplexOpO, d, e⟩ [b, 32]
        ⟨.stateBeginComplexPredicate, d, e⟩ := by
      rcases hb with rfl | rfl <;>
        simp [Scans, drive, feed, observe, hasAction, step, stateComplexOpO, stateComplexOpOr]
    have hhead : Scans P ⟨k.state, d, e⟩ [32, a] ⟨.stateComplexOpO, d, e⟩ := by
      cases k <;> rcases ha with rfl | rfl <;>
        simp [Scans, drive, feed, observe, hasAction, step, Ending.state,
          stateInComplexNonStringLiteral, stateEndComplexStringLiteral, stateComplexOpPr,
          stateEndComplexPredicate, stateInComplexPath, stateEndComplexLiteral,
          stateBeginComplexOp]
    exact Scans.append hhead htail

/-- After a last token other than a bare path, `)` closes one group: the
scanner ends in the predicate-end state one level up. -/
theorem scan_close (P : Package) (d : Int) (e : Option (Nat × String)) (k : Ending)
    (h : k ≠ .path) :
    Scans P ⟨k.state, d, e⟩ [41] ⟨.stateEndComplexPredicate, d - 1, e⟩ := by
  cases k <;> first | exact absurd rfl h | skip
  all_goals
    simp [Scans, drive, feed, observe, hasAction, step, Ending.state,
      stateInComplexNonStringLiteral, stateEndComplexStringLiteral, stateComplexOpPr,
      stateEndComplexPredicate, stateEndComplexLiteral]

/-- `(` at the start of a predicate opens one group. -/
theorem scan_open (P : Package) (d : Int) (e : Option (Nat × String)) :
    Scans P ⟨.stateBeginComplexPredicate, d, e⟩ [40] ⟨.stateBeginComplexPredicate, d + 1, e⟩ := by
  simp [Scans, drive, feed, observe, hasAction, step, stateBeginComplexPredicate]

/-- Every well-formed scannable filter is consumed from the predicate-start
state without error and without the end-of-filter action, and leaves the
scanner at the same depth in the state that belongs to its last token. -/
theorem scan_filter (P : Package) (hP : P.pathsDelimited) (f : Filter) :
    f.wf P = true → f.scannable = true → ∀ (d : Int) (e : Option (Nat × String)),
      Scans P ⟨.stateBeginComplexPredicate, d, e⟩ f.render ⟨f.ending.state, d, e⟩ := by
  induction f with
  | compare p o1 o2 l =>
    intro hwf hsc d e
    simp only [Filter.wf, Bool.and_eq_true, decide_eq_true_eq] at hwf
    obtain ⟨⟨hp, hop⟩, hl⟩ := hwf
    simp only [Filter.scannable] at hsc
    have h1 := scan_path P hP p hp hsc d e
    have h2 := scan_relop P d e o1 o2 hop
    have h3 := scan_literal P d e l hl
    exact Scans.append h1 (Scans.append h2 h3)
  | present p k1 k2 =>
    intro hwf hsc d e
    simp only [Filter.wf, Bool.and_eq_true, decide_eq_true_eq] at hwf
    obtain ⟨⟨hp, hk1⟩, hk2⟩ := hwf
    simp only [Filter.scannable] at hsc
    exact Scans.append (scan_path P hP p hp hsc d e) (scan_pr P d e k1 k2 hk1 hk2)
  | bare p =>
    intro hwf hsc d e
    simp only [Filter.wf] at hwf
    simp only [Filter.scannable] at hsc
    exact scan_path P hP p hwf hsc d e
  | group f ih =>
    intro hwf hsc d e
    simp only [Filter.wf] at hwf
    simp only [Filter.scannable, Bool.and_eq_true, decide_eq_true_eq] at hsc
    obtain ⟨hf, hend⟩ := hsc
    have h1 := scan_open P d e
    have h2 := ih hwf hf (d + 1) e
    have h3 := scan_close P (d + 1) e f.ending hend
    have hd : d + 1 - 1 = d := by omega
    rw [hd] at h3
    show Scans P _ ([40] ++ (f.render ++ [41])) _
    exact Scans.append h1 (Scans.append h2 h3)
  | negated k1 k2 k3 space f _ =>
    intro _ hsc
    simp [Filter.scannable] at hsc
  | conj f kw g ihf ihg =>
    intro hwf hsc d e
    simp only [Filter.wf, Bool.and_eq_true] at hwf
    obtain ⟨⟨⟨hf, hkw⟩, hg⟩, _⟩ := hwf
    simp only [Filter.scannable, Bool.and_eq_true] at hsc
    have h1 := ihf hf hsc.1 d e
    have h2 := scan_keyword P d e f.ending kw hkw
    have h3 := ihg hg hsc.2 d e
    have hr : (Filter.conj f kw g).render = f.render ++ ((32 :: (kw ++ [32])) ++ g.render) := by
      simp [Filter.render]
    rw [hr]
    exact Scans.append h1 (Scans.append h2 h3)

/-- The sentinel after a filter: the event it produces and the scanner it
leaves, for each kind of last token other than a bare path. -/
theorem feed_sentinel (P : Package) (d : Int) (e : Option (Nat × String)) (k : Ending)
    (h : k ≠ .path) :
    feed P ⟨k.state, d, e⟩ 0 =
      ([⟨0, k.state, k.sentinelAction, d⟩], ⟨k.sentinelState, d, e⟩) := by
  cases k <;> first | exact absurd rfl h | skip
  all_goals
    simp [feed, observe, step, Ending.state, Ending.sentinelAction, Ending.sentinelState,
      stateInComplexNonStringLiteral, stateEndComplexStringLiteral, stateComplexOpPr,
      stateEndComplexPredicate]

theorem countAction_eq_zero (a : Action) (evs : List Event) (h : hasAction a evs = false) :
    countAction a evs = 0 := by
  simp only [hasAction, List.any_eq_false, decide_eq_true_eq] at h
  simp only [countAction, List.countP_eq_zero, decide_eq_true_eq]
  exact h

theorem mem_of_hasAction_false (a : Action) (evs : List Event) (h : hasAction a evs = false)
    (ev : Event) (hev : ev ∈ evs) : ev.action ≠ a := by
  simp only [hasAction, List.any_eq_false, decide_eq_true_eq] at h
  exact h ev hev

theorem letters_pathsDelimited : letters.pathsDelimited := by
  refine ⟨?_, by decide, by decide⟩
  intro c hc
  simp only [letters] at hc ⊢
  rw [hc]
  rfl

/-- C1 (as stated, refuted): `a eq 1` and `(a)` are filters of the grammar, yet
the driven scan of `a eq 1` followed by the sentinel never returns the
end-of-filter action (the sentinel is answered with the end-of-literal
action), and the driven scan of `(a)` returns an error for the `)`. -/
theorem C1_counterexample :
    (Filter.compare ⟨⟨97, []⟩, []⟩ 101 113 (.raw 49 [])).wf letters = true ∧
      (Filter.compare ⟨⟨97, []⟩, []⟩ 101 113 (.raw 49 [])).render = bytes "a eq 1" ∧
      drive letters fresh (bytes "a eq 1" ++ [0]) =
        ([⟨97, .stateBeginComplexPredicate, .scanFilterContinue, 0⟩,
          ⟨32, .stateInComplexPath, .scanFilterContinue, 0⟩,
          ⟨101, .stateBeginComplexOp, .scanFilterContinue, 0⟩,
          ⟨113, .stateComplexOpE, .scanFilterContinue, 0⟩,
          ⟨32, .stateComplexOpEq, .scanFilterContinue, 0⟩,
          ⟨49, .stateBeginComplexLiteral, .scanFilterContinue, 0⟩,
          ⟨0, .stateInComplexNonStringLiteral, .scanFilterEndLiteral, 0⟩],
         ⟨.stateEOF, 0, none⟩) ∧
      (Filter.group (.bare ⟨⟨97, []⟩, []⟩)).wf letters = true ∧
      (Filter.group (.bare ⟨⟨97, []⟩, []⟩)).render = bytes "(a)" ∧
      (drive letters fresh (bytes "(a)" ++ [0])).1 =
        [⟨40, .stateBeginComplexPredicate, .scanFilterParenthesis, 1⟩,
          ⟨97, .stateBeginComplexPredicate, .scanFilterContinue, 1⟩,
          ⟨41, .stateInComplexPath, .scanFilterError, 1⟩] := by
  refine ⟨?_, ?_, ?_, ?_, ?_, ?_⟩ <;> rfl

/-- C1 (amended): take a filter of the grammar in which no predicate starts
with `n` / `N` and no bare path stands directly before a `)` or at the very
end.  From a fresh scanner, the driven scan of its bytes followed by one
sentinel never returns an error and ends at depth 0; the end-of-filter action
is returned only for the sentinel, at depth 0, and it is returned (exactly
once) exactly when the filter ends with `)`: after a literal the sentinel is
answered with the end-of-literal action and after `pr` with `Continue`. -/
theorem C1_valid_filters (P : Package) (hP : P.pathsDelimited) (f : Filter)
    (hwf : f.wf P = true) (hsc : f.scannable = true) (hend : f.ending ≠ .path) :
    hasAction .scanFilterError (drive P fresh (f.render ++ [0])).1 = false ∧
      (drive P fresh (f.render ++ [0])).2 = ⟨f.ending.sentinelState, 0, none⟩ ∧
      (drive P fresh (f.render ++ [0])).1.getLast? =
        some ⟨0, f.ending.state, f.ending.sentinelAction, 0⟩ ∧
      countAction .scanFilterEnd (drive P fresh (f.render ++ [0])).1 =
        (if f.ending = .group then 1 else 0) ∧
      (∀ ev ∈ (drive P fresh (f.render ++ [0])).1,
        ev.action = .scanFilterEnd → ev.depth = 0 ∧ ev.byte = 0) := by
  obtain ⟨hfin, herr, hnoend⟩ := scan_filter P hP f hwf hsc 0 none
  have hfresh : fresh = ⟨.stateBeginComplexPredicate, 0, none⟩ := rfl
  rw [← hfresh] at hfin herr hnoend
  have hlast : drive P ⟨f.ending.state, 0, none⟩ [0] =
      ([⟨0, f.ending.state, f.ending.sentinelAction, 0⟩], ⟨f.ending.sentinelState, 0, none⟩) := by
    rw [drive_cons, feed_sentinel P 0 none f.ending hend]
    cases hk : f.ending <;> first | exact absurd hk hend | rfl
  rw [drive_append P f.render [0] fresh herr, hfin, hlast]
  refine ⟨?_, rfl, ?_, ?_, ?_⟩
  · rw [hasAction_append, herr]
    cases hk : f.ending <;> first | exact absurd hk hend | rfl
  · simp
  · simp only [countAction, List.countP_append]
    have h0 := countAction_eq_zero _ _ hnoend
    simp only [countAction] at h0
    rw [h0]
    cases hk : f.ending <;> first | exact absurd hk hend | rfl
  · intro ev hev hact
    rcases List.mem_append.1 hev with h | h
    · exact absurd hact (mem_of_hasAction_false _ _ hnoend ev h)
    · simp only [List.mem_singleton] at h
      subst h
      exact ⟨rfl, rfl⟩

theorem C1_valid_filters_witness :
    countAction .scanFilterEnd
        (drive letters fresh (bytes "(a eq 1) and b pr" ++ [0])).1 = 0 ∧
      countAction .scanFilterEnd (drive letters fresh (bytes "(a eq \"x\")" ++ [0])).1 = 1 :=
  ⟨(C1_valid_filters letters letters_pathsDelimited
      (.conj (.group (.compare ⟨⟨97, []⟩, []⟩ 101 113 (.raw 49 []))) [97, 110, 100]
        (.present ⟨⟨98, []⟩, []⟩ 112 114))
      (by decide) (by decide) (by decide)).2.2.2.1,
    (C1_valid_filters letters letters_pathsDelimited
      (.group (.compare ⟨⟨97, []⟩, []⟩ 101 113 (.str [.plain 120])))
      (by decide) (by decide) (by decide)).2.2.2.1⟩

/-! ## C11: `pr` followed by the end of the input -/

/-- The sentinel fed after a quiet scan that stopped after a last token other
than a bare path: no error, and the sentinel's event and scanner. -/
theorem sentinel_after (P : Package) (xs : List Nat) (k : Ending) (hk : k ≠ .path)
    (h : Scans P fresh xs ⟨k.state, 0, none⟩) :
    hasAction .scanFilterError (drive P fresh (xs ++ [0])).1 = false ∧
      (drive P fresh (xs ++ [0])).2 = ⟨k.sentinelState, 0, none⟩ ∧
      (drive P fresh (xs ++ [0])).1.getLast? = some ⟨0, k.state, k.sentinelAction, 0⟩ ∧
      countAction .scanFilterEnd (drive P fresh (xs ++ [0])).1 =
        (if k = .group then 1 else 0) := by
  obtain ⟨hfin, herr, hnoend⟩ := h
  have hlast : drive P ⟨k.state, 0, none⟩ [0] =
      ([⟨0, k.state, k.sentinelAction, 0⟩], ⟨k.sentinelState, 0, none⟩) := by
    rw [drive_cons, feed_sentinel P 0 none k hk]
    cases k <;> first | exact absurd rfl hk | rfl
  rw [drive_append P xs [0] fresh herr, hfin, hlast]
  refine ⟨?_, rfl, ?_, ?_⟩
  · rw [hasAction_append, herr]
    cases k <;> first | exact absurd rfl hk | rfl
  · simp
  · simp only [countAction, List.countP_append]
    have h0 := countAction_eq_zero _ _ hnoend
    simp only [countAction] at h0
    rw [h0]
    cases k <;> first | exact absurd rfl hk | rfl

/-- C11 (as stated, refuted): the driven scan of `a pr` followed by the
sentinel returns no error, but the sentinel is answered with `Continue`; the
end-of-filter action is never returned and the scanner is left in the
predicate-end state. -/
theorem C11_counterexample :
    drive letters fresh (bytes "a pr" ++ [0]) =
      ([⟨97, .stateBeginComplexPredicate, .scanFilterContinue, 0⟩,
        ⟨32, .stateInComplexPath, .scanFilterContinue, 0⟩,
        ⟨112, .stateBeginComplexOp, .scanFilterContinue, 0⟩,
        ⟨114, .stateComplexOpP, .scanFilterContinue, 0⟩,
        ⟨0, .stateComplexOpPr, .scanFilterContinue, 0⟩],
       ⟨.stateEndComplexPredicate, 0, none⟩) := by
  rfl

/-- C11 (amended): for every path `p` that does not start with `n` / `N`, the
driven scan of `p pr` (`pr` in any case) immediately followed by the sentinel,
from a fresh scanner, returns no error; the sentinel is accepted as the
delimiter of `pr`: it is answered with `Continue` at depth 0 and leaves the
scanner in the predicate-end state, so the end-of-filter action is not
returned for it; that state returns the end-of-filter action for a further
sentinel byte. -/
theorem C11_presence_at_end (P : Package) (hP : P.pathsDelimited) (p : Path)
    (hwf : p.wf P = true) (hstart : p.plainStart = true) (k1 k2 : Nat)
    (h1 : lower k1 = 112) (h2 : lower k2 = 114) :
    hasAction .scanFilterError (drive P fresh ((p.render ++ [32, k1, k2]) ++ [0])).1 = false ∧
      (drive P fresh ((p.render ++ [32, k1, k2]) ++ [0])).2 =
        ⟨.stateEndComplexPredicate, 0, none⟩ ∧
      (drive P fresh ((p.render ++ [32, k1, k2]) ++ [0])).1.getLast? =
        some ⟨0, .stateComplexOpPr, .scanFilterContinue, 0⟩ ∧
      countAction .scanFilterEnd (drive P fresh ((p.render ++ [32, k1, k2]) ++ [0])).1 = 0 ∧
      step P ⟨.stateEndComplexPredicate, 0, none⟩ 0 = (.scanFilterEnd, ⟨.stateEOF, 0, none⟩) := by
  have hs : Scans P fresh (p.render ++ [32, k1, k2]) ⟨Ending.present.state, 0, none⟩ :=
    Scans.append (scan_path P hP p hwf hstart 0 none) (scan_pr P 0 none k1 k2 h1 h2)
  obtain ⟨a1, a2, a3, a4⟩ := sentinel_after P _ .present (by decide) hs
  refine ⟨a1, a2, a3, a4, ?_⟩
  simp [step, stateEndComplexPredicate]

theorem C11_presence_at_end_witness :
    (drive letters fresh (bytes "active pr" ++ [0])).2 = ⟨.stateEndComplexPredicate, 0, none⟩ :=
  (C11_presence_at_end letters letters_pathsDelimited ⟨⟨97, [99, 116, 105, 118, 101]⟩, []⟩
    (by decide) (by decide) 112 114 (by decide) (by decide)).2.1

/-! ## C12: escapes inside a string literal -/

/-- C12: after a backslash inside a string literal, each of `b f n r t \ / "`
returns `Continue` and goes back to the in-string state, `u` returns
`Continue` and starts the hexadecimal chain, and every other byte returns an
error.  Four bytes fed to the chain return `Continue` up to the first byte
that is not a hexadecimal digit, which returns an error; the scanner is back
in the in-string state without error exactly when all four are hexadecimal
digits.  So `\u12` cut short by the sentinel fails on the sentinel in the
chain state that waits for the third digit. -/
theorem C12_string_escapes (P : Package) (d : Int) (e : Option (Nat × String)) :
    (∀ c, (c = 98 ∨ c = 102 ∨ c = 110 ∨ c = 114 ∨ c = 116 ∨ c = 92 ∨ c = 47 ∨ c = 34) →
        step P ⟨.stateInComplexStringEsc, d, e⟩ c =
          (.scanFilterContinue, ⟨.stateInComplexStringLiteral, d, e⟩)) ∧
      step P ⟨.stateInComplexStringEsc, d, e⟩ 117 =
        (.scanFilterContinue, ⟨.stateInComplexStringEscU, d, e⟩) ∧
      (∀ c, ¬ (c = 98 ∨ c = 102 ∨ c = 110 ∨ c = 114 ∨ c = 116 ∨ c = 92 ∨ c = 47 ∨ c = 34) →
        c ≠ 117 → (step P ⟨.stateInComplexStringEsc, d, e⟩ c).1 = .scanFilterError) ∧
      (∀ h1 h2 h3 h4 : Nat,
        actions (drive P ⟨.stateInComplexStringEscU, d, e⟩ [h1, h2, h3, h4]).1 =
            List.replicate (hexRun [h1, h2, h3, h4]) .scanFilterContinue ++
              (if hexRun [h1, h2, h3, h4] = 4 then [] else [.scanFilterError]) ∧
          ((hasAction .scanFilterError
                (drive P ⟨.stateInComplexStringEscU, d, e⟩ [h1, h2, h3, h4]).1 = false ∧
              (drive P ⟨.stateInComplexStringEscU, d, e⟩ [h1, h2, h3, h4]).2 =
                ⟨.stateInComplexStringLiteral, d, e⟩) ↔
            (isHex h1 = true ∧ isHex h2 = true ∧ isHex h3 = true ∧ isHex h4 = true))) ∧
      (drive P ⟨.stateInComplexStringLiteral, d, e⟩ (bytes "\\u12" ++ [0])).1 =
        [⟨92, .stateInComplexStringLiteral, .scanFilterContinue, d⟩,
          ⟨117, .stateInComplexStringEsc, .scanFilterContinue, d⟩,
          ⟨49, .stateInComplexStringEscU, .scanFilterContinue, d⟩,
          ⟨50, .stateInComplexStringEscU1, .scanFilterContinue, d⟩,
          ⟨0, .stateInComplexStringEscU12, .scanFilterError, d⟩] := by
  refine ⟨?_, ?_, ?_, ?_, ?_⟩
  · intro c hc
    simp [step, stateInComplexStringEsc, hc]
  · simp [step, stateInComplexStringEsc]
  · intro c hc hu
    simp [step, stateInComplexStringEsc, hc, hu, error]
  · intro h1 h2 h3 h4
    cases hh1 : isHex h1 <;> cases hh2 : isHex h2 <;> cases hh3 : isHex h3 <;>
      cases hh4 : isHex h4 <;>
      simp [hexRun, actions, drive, feed, observe, hasAction, step, stateInComplexStringEscU,
        stateInComplexStringEscU1, stateInComplexStringEscU12, stateInComplexStringEscU123,
        error, hh1, hh2, hh3, hh4, List.takeWhile, List.replicate]
  · rw [show bytes "\\u12" ++ [0] = [92, 117, 49, 50, 0] from by decide]
    simp [drive, feed, observe, hasAction, step, stateInComplexStringLiteral,
      stateInComplexStringEsc, stateInComplexStringEscU, stateInComplexStringEscU1,
      stateInComplexStringEscU12, error, isHex]

/-! ## C13: the end of a non-string literal -/

/-- C13: in the non-string-literal state a space and the sentinel each return
the end-of-literal action, `)` returns the insert-space action with the
scanner unchanged, and every other byte returns `Continue` with the scanner
unchanged; no other property of the byte is looked at. -/
theorem C13_non_string_literal (P : Package) (d : Int) (e : Option (Nat × String)) :
    step P ⟨.stateInComplexNonStringLiteral, d, e⟩ 32 =
        (.scanFilterEndLiteral, ⟨.stateEndComplexLiteral, d, e⟩) ∧
      step P ⟨.stateInComplexNonStringLiteral, d, e⟩ 0 =
        (.scanFilterEndLiteral, ⟨.stateEOF, d, e⟩) ∧
      step P ⟨.stateInComplexNonStringLiteral, d, e⟩ 41 =
        (.scanFilterInsertSpace, ⟨.stateInComplexNonStringLiteral, d, e⟩) ∧
      (∀ c, c ≠ 32 → c ≠ 41 → c ≠ 0 →
        step P ⟨.stateInComplexNonStringLiteral, d, e⟩ c =
          (.scanFilterContinue, ⟨.stateInComplexNonStringLiteral, d, e⟩)) := by
  refine ⟨?_, ?_, ?_, ?_⟩
  · simp [step, stateInComplexNonStringLiteral]
  · simp [step, stateInComplexNonStringLiteral]
  · simp [step, stateInComplexNonStringLiteral]
  · intro c h32 h41 h0
    simp [step, stateInComplexNonStringLiteral, h32, h41, h0]

/-! ## C14: a filter that ends in a literal -/

/-- C14 (as stated, refuted): the driven scans of `active eq true` and of
`userName sw "J"` followed by the sentinel return no error, but their last
action, returned for the sentinel, is the end-of-literal action; the
end-of-filter action is never returned. -/
theorem C14_counterexample :
    drive letters fresh (bytes "active eq true" ++ [0]) =
      ([⟨97, .stateBeginComplexPredicate, .scanFilterContinue, 0⟩,
       ⟨99, .stateInComplexPath, .scanFilterContinue, 0⟩,
       ⟨116, .stateInComplexPath, .scanFilterContinue, 0⟩,
       ⟨105, .stateInComplexPath, .scanFilterContinue, 0⟩,
       ⟨118, .stateInComplexPath, .scanFilterContinue, 0⟩,
       ⟨101, .stateInComplexPath, .scanFilterContinue, 0⟩,
       ⟨32, .stateInComplexPath, .scanFilterContinue, 0⟩,
       ⟨101, .stateBeginComplexOp, .scanFilterContinue, 0⟩,
       ⟨113, .stateComplexOpE, .scanFilterContinue, 0⟩,
       ⟨32, .stateComplexOpEq, .scanFilterContinue, 0⟩,
       ⟨116, .stateBeginComplexLiteral, .scanFilterContinue, 0⟩,
       ⟨114, .stateInComplexNonStringLiteral, .scanFilterContinue, 0⟩,
       ⟨117, .stateInComplexNonStringLiteral, .scanFilterContinue, 0⟩,
       ⟨101, .stateInComplexNonStringLiteral, .scanFilterContinue, 0⟩,
       ⟨0, .stateInComplexNonStringLiteral, .scanFilterEndLiteral, 0⟩],
       ⟨.stateEOF, 0, none⟩) ∧
      drive letters fresh (bytes "userName sw \"J\"" ++ [0]) =
        ([⟨117, .stateBeginComplexPredicate, .scanFilterContinue, 0⟩,
         ⟨115, .stateInComplexPath, .scanFilterContinue, 0⟩,
         ⟨101, .stateInComplexPath, .scanFilterContinue, 0⟩,
         ⟨114, .stateInComplexPath, .scanFilterContinue, 0⟩,
         ⟨78, .stateInComplexPath, .scanFilterContinue, 0⟩,
         ⟨97, .stateInComplexPath, .scanFilterContinue, 0⟩,
         ⟨109, .stateInComplexPath, .scanFilterContinue, 0⟩,
         ⟨101, .stateInComplexPath, .scanFilterContinue, 0⟩,
         ⟨32, .stateInComplexPath, .scanFilterContinue, 0⟩,
         ⟨115, .stateBeginComplexOp, .scanFilterContinue, 0⟩,
         ⟨119, .stateComplexOpS, .scanFilterContinue, 0⟩,
         ⟨32, .stateComplexOpSw, .scanFilterContinue, 0⟩,
         ⟨34, .stateBeginComplexLiteral, .scanFilterContinue, 0⟩,
         ⟨74, .stateInComplexStringLiteral, .scanFilterContinue, 0⟩,
         ⟨34, .stateInComplexStringLiteral, .scanFilterContinue, 0⟩,
         ⟨0, .stateEndComplexStringLiteral, .scanFilterEndLiteral, 0⟩],
         ⟨.stateEOF, 0, none⟩) := by
  constructor <;> rfl

/-- C14 (amended): with letters as path characters, the driven scans of
`active eq true` and of `userName sw "J"`, each followed by the sentinel and
started from a fresh scanner, return no error; the last action of each scan,
returned for the sentinel at depth 0, is the end-of-literal action, after
which the scanner is in `stateEOF`; the end-of-filter action is not
returned. -/
theorem C14_literal_at_end (P : Package) (hP : P.lettersArePath) :
    drive P fresh (bytes "active eq true" ++ [0]) =
      ([⟨97, .stateBeginComplexPredicate, .scanFilterContinue, 0⟩,
       ⟨99, .stateInComplexPath, .scanFilterContinue, 0⟩,
       ⟨116, .stateInComplexPath, .scanFilterContinue, 0⟩,
       ⟨105, .stateInComplexPath, .scanFilterContinue, 0⟩,
       ⟨118, .stateInComplexPath, .scanFilterContinue, 0⟩,
       ⟨101, .stateInComplexPath, .scanFilterContinue, 0⟩,
       ⟨32, .stateInComplexPath, .scanFilterContinue, 0⟩,
       ⟨101, .stateBeginComplexOp, .scanFilterContinue, 0⟩,
       ⟨113, .stateComplexOpE, .scanFilterContinue, 0⟩,
       ⟨32, .stateComplexOpEq, .scanFilterContinue, 0⟩,
       ⟨116, .stateBeginComplexLiteral, .scanFilterContinue, 0⟩,
       ⟨114, .stateInComplexNonStringLiteral, .scanFilterContinue, 0⟩,
       ⟨117, .stateInComplexNonStringLiteral, .scanFilterContinue, 0⟩,
       ⟨101, .stateInComplexNonStringLiteral, .scanFilterContinue, 0⟩,
       ⟨0, .stateInComplexNonStringLiteral, .scanFilterEndLiteral, 0⟩],
       ⟨.stateEOF, 0, none⟩) ∧
      drive P fresh (bytes "userName sw \"J\"" ++ [0]) =
        ([⟨117, .stateBeginComplexPredicate, .scanFilterContinue, 0⟩,
         ⟨115, .stateInComplexPath, .scanFilterContinue, 0⟩,
         ⟨101, .stateInComplexPath, .scanFilterContinue, 0⟩,
         ⟨114, .stateInComplexPath, .scanFilterContinue, 0⟩,
         ⟨78, .stateInComplexPath, .scanFilterContinue, 0⟩,
         ⟨97, .stateInComplexPath, .scanFilterContinue, 0⟩,
         ⟨109, .stateInComplexPath, .scanFilterContinue, 0⟩,
         ⟨101, .stateInComplexPath, .scanFilterContinue, 0⟩,
         ⟨32, .stateInComplexPath, .scanFilterContinue, 0⟩,
         ⟨115, .stateBeginComplexOp, .scanFilterContinue, 0⟩,
         ⟨119, .stateComplexOpS, .scanFilterContinue, 0⟩,
         ⟨32, .stateComplexOpSw, .scanFilterContinue, 0⟩,
         ⟨34, .stateBeginComplexLiteral, .scanFilterContinue, 0⟩,
         ⟨74, .stateInComplexStringLiteral, .scanFilterContinue, 0⟩,
         ⟨34, .stateInComplexStringLiteral, .scanFilterContinue, 0⟩,
         ⟨0, .stateEndComplexStringLiteral, .scanFilterEndLiteral, 0⟩],
         ⟨.stateEOF, 0, none⟩) := by
  have hF := lettersArePath_first P hP
  have hN := lettersArePath_nonFirst P hP
  rw [show bytes "active eq true" ++ [0] = [97, 99, 116, 105, 118, 101, 32, 101, 113, 32, 116, 114, 117, 101, 0] from by decide,
    show bytes "userName sw \"J\"" ++ [0] = [117, 115, 101, 114, 78, 97, 109, 101, 32, 115, 119, 32, 34, 74, 34, 0] from by decide]
  constructor <;>
    simp [drive, feed, observe, hasAction, step, fresh, stateBeginComplexPredicate,
      stateInComplexPath, stateBeginComplexOp, stateComplexOpA, stateComplexOpAn,
      stateComplexOpAnd, stateComplexOpO, stateComplexOpOr, stateComplexOpE, stateComplexOpEq,
      stateComplexOpS, stateComplexOpSw, stateComplexOpP, stateComplexOpPr,
      stateBeginComplexLiteral, stateInComplexNonStringLiteral, stateInComplexStringLiteral,
      stateEndComplexStringLiteral, stateEndComplexLiteral, stateEndComplexPredicate,
      stateEndComplexPath, error, hF, hN, isLetter]

theorem C14_literal_at_end_witness :
    (drive letters fresh (bytes "active eq true" ++ [0])).2 = ⟨.stateEOF, 0, none⟩ :=
  congrArg Prod.snd (C14_literal_at_end letters letters_lettersArePath).1

/-! ## C16: grouped logical filters over bare paths -/

/-- C16 (as stated, refuted): the driven scans of `a and (b or c)` and of
`(a and b) or c` followed by the sentinel reach depth 1 and then return an
error for the `)` that directly follows a bare path. -/
theorem C16_counterexample :
    (drive letters fresh (bytes "a and (b or c)" ++ [0])).1 =
      [⟨97, .stateBeginComplexPredicate, .scanFilterContinue, 0⟩,
       ⟨32, .stateInComplexPath, .scanFilterContinue, 0⟩,
       ⟨97, .stateBeginComplexOp, .scanFilterContinue, 0⟩,
       ⟨110, .stateComplexOpA, .scanFilterContinue, 0⟩,
       ⟨100, .stateComplexOpAn, .scanFilterContinue, 0⟩,
       ⟨32, .stateComplexOpAnd, .scanFilterContinue, 0⟩,
       ⟨40, .stateBeginComplexPredicate, .scanFilterParenthesis, 1⟩,
       ⟨98, .stateBeginComplexPredicate, .scanFilterContinue, 1⟩,
       ⟨32, .stateInComplexPath, .scanFilterContinue, 1⟩,
       ⟨111, .stateBeginComplexOp, .scanFilterContinue, 1⟩,
       ⟨114, .stateComplexOpO, .scanFilterContinue, 1⟩,
       ⟨32, .stateComplexOpOr, .scanFilterContinue, 1⟩,
       ⟨99, .stateBeginComplexPredicate, .scanFilterContinue, 1⟩,
       ⟨41, .stateInComplexPath, .scanFilterError, 1⟩] ∧
      (drive letters fresh (bytes "(a and b) or c" ++ [0])).1 =
        [⟨40, .stateBeginComplexPredicate, .scanFilterParenthesis, 1⟩,
         ⟨97, .stateBeginComplexPredicate, .scanFilterContinue, 1⟩,
         ⟨32, .stateInComplexPath, .scanFilterContinue, 1⟩,
         ⟨97, .stateBeginComplexOp, .scanFilterContinue, 1⟩,
         ⟨110, .stateComplexOpA, .scanFilterContinue, 1⟩,
         ⟨100, .stateComplexOpAn, .scanFilterContinue, 1⟩,
         ⟨32, .stateComplexOpAnd, .scanFilterContinue, 1⟩,
         ⟨98, .stateBeginComplexPredicate, .scanFilterContinue, 1⟩,
         ⟨41, .stateInComplexPath, .scanFilterError, 1⟩] := by
  constructor <;> rfl

/-- C16 (amended): with letters as path characters and `)` not being one, the
driven scans of `a and (b or c)` and of `(a and b) or c`, each followed by the
sentinel and started from a fresh scanner, reach depth 1 inside the group and
then return an error, at depth 1, for the `)` that directly follows the bare
path (the path state has no transition for `)`); no end-of-filter action is
returned.  With a presence test in the place of each bare path, as in
`a pr and (b pr or c pr)`, the scan returns no error, reaches depth 1 inside
the group and ends with the end-of-filter action at depth 0. -/
theorem C16_grouped_bare_paths (P : Package) (hP : P.lettersArePath)
    (h41 : P.isNonFirstAlphabet 41 = false) :
    drive P fresh (bytes "a and (b or c)" ++ [0]) =
      ([⟨97, .stateBeginComplexPredicate, .scanFilterContinue, 0⟩,
       ⟨32, .stateInComplexPath, .scanFilterContinue, 0⟩,
       ⟨97, .stateBeginComplexOp, .scanFilterContinue, 0⟩,
       ⟨110, .stateComplexOpA, .scanFilterContinue, 0⟩,
       ⟨100, .stateComplexOpAn, .scanFilterContinue, 0⟩,
       ⟨32, .stateComplexOpAnd, .scanFilterContinue, 0⟩,
       ⟨40, .stateBeginComplexPredicate, .scanFilterParenthesis, 1⟩,
       ⟨98, .stateBeginComplexPredicate, .scanFilterContinue, 1⟩,
       ⟨32, .stateInComplexPath, .scanFilterContinue, 1⟩,
       ⟨111, .stateBeginComplexOp, .scanFilterContinue, 1⟩,
       ⟨114, .stateComplexOpO, .scanFilterContinue, 1⟩,
       ⟨32, .stateComplexOpOr, .scanFilterContinue, 1⟩,
       ⟨99, .stateBeginComplexPredicate, .scanFilterContinue, 1⟩,
       ⟨41, .stateInComplexPath, .scanFilterError, 1⟩],
       ⟨.stateError, 1, some (41, "invalid character in complex path")⟩) ∧
      drive P fresh (bytes "(a and b) or c" ++ [0]) =
        ([⟨40, .stateBeginComplexPredicate, .scanFilterParenthesis, 1⟩,
         ⟨97, .stateBeginComplexPredicate, .scanFilterContinue, 1⟩,
         ⟨32, .stateInComplexPath, .scanFilterContinue, 1⟩,
         ⟨97, .stateBeginComplexOp, .scanFilterContinue, 1⟩,
         ⟨110, .stateComplexOpA, .scanFilterContinue, 1⟩,
         ⟨100, .stateComplexOpAn, .scanFilterContinue, 1⟩,
         ⟨32, .stateComplexOpAnd, .scanFilterContinue, 1⟩,
         ⟨98, .stateBeginComplexPredicate, .scanFilterContinue, 1⟩,
         ⟨41, .stateInComplexPath, .scanFilterError, 1⟩],
         ⟨.stateError, 1, some (41, "invalid character in complex path")⟩) ∧
      hasAction .scanFilterError
        (drive P fresh (bytes "a pr and (b pr or c pr)" ++ [0])).1 = false ∧
      (1 : Int) ∈ depths (drive P fresh (bytes "a pr and (b pr or c pr)" ++ [0])).1 ∧
      (drive P fresh (bytes "a pr and (b pr or c pr)" ++ [0])).1.getLast? =
        some ⟨0, .stateEndComplexPredicate, .scanFilterEnd, 0⟩ ∧
      (drive P fresh (bytes "a pr and (b pr or c pr)" ++ [0])).2 = ⟨.stateEOF, 0, none⟩ := by
  have hF := lettersArePath_first P hP
  have hN := lettersArePath_nonFirst P hP
  rw [show bytes "a and (b or c)" ++ [0] = [97, 32, 97, 110, 100, 32, 40, 98, 32, 111, 114, 32, 99, 41, 0] from by decide,
    show bytes "(a and b) or c" ++ [0] = [40, 97, 32, 97, 110, 100, 32, 98, 41, 32, 111, 114, 32, 99, 0] from by decide,
    show bytes "a pr and (b pr or c pr)" ++ [0] = [97, 32, 112, 114, 32, 97, 110, 100, 32, 40, 98, 32, 112, 114, 32, 111, 114, 32, 99, 32, 112, 114, 41, 0] from by decide]
  refine ⟨?_, ?_, ?_, ?_, ?_, ?_⟩ <;>
    simp [depths, drive, feed, observe, hasAction, step, fresh, stateBeginComplexPredicate,
      stateInComplexPath, stateBeginComplexOp, stateComplexOpA, stateComplexOpAn,
      stateComplexOpAnd, stateComplexOpO, stateComplexOpOr, stateComplexOpP, stateComplexOpPr,
      stateEndComplexPredicate, error, hF, hN, isLetter, h41]

theorem C16_grouped_bare_paths_witness :
    (drive letters fresh (bytes "a pr and (b pr or c pr)" ++ [0])).2 = ⟨.stateEOF, 0, none⟩ :=
  (C16_grouped_bare_paths letters letters_lettersArePath (by decide)).2.2.2.2.2

/-! ## C17: malformed input -/

/-- No byte of a well-formed path is `)`, when `)` is not a continuation
character. -/
theorem path_no_close (P : Package) (hP : P.pathsDelimited)
    (h41 : P.isNonFirstAlphabet 41 = false) (p : Path) (hwf : p.wf P = true) :
    (41 : Nat) ∉ p.render := by
  have hP2 := hP
  obtain ⟨hsub, _, _⟩ := hP
  simp only [Path.wf, Bool.and_eq_true] at hwf
  obtain ⟨hhead, htail⟩ := hwf
  simp only [Segment.wf, Bool.and_eq_true, List.all_eq_true] at hhead
  obtain ⟨hfirst, hrest⟩ := hhead
  intro hmem
  simp only [Path.render, Segment.render, List.cons_append, List.mem_cons,
    List.mem_append] at hmem
  rcases hmem with h | h | h
  · have hn := hsub _ hfirst
    rw [← h, h41] at hn
    exact absurd hn (by decide)
  · have hn := hrest _ h
    rw [h41] at hn
    exact absurd hn (by decide)
  · have hb := (renderTail_pathBytes P hP2 p.tail htail 41 h).2
    rcases hb with hb | hb | hb
    · exact absurd hb (by decide)
    · exact absurd hb (by decide)
    · rw [h41] at hb
      exact absurd hb (by decide)

/-- The bytes of a filter are never empty. -/
theorem render_ne_nil (f : Filter) : f.render ≠ [] := by
  cases f <;> simp [Filter.render, Path.render, Segment.render]

/-- The last byte of a well-formed literal is not `)`. -/
theorem literal_last_not_close (l : Literal) (hwf : l.wf = true) :
    l.render ≠ [] ∧ l.render.getLast? ≠ some 41 := by
  cases l with
  | str items =>
    refine ⟨by simp [Literal.render], ?_⟩
    have h : (34 :: (renderItems items ++ [34])).getLast? = some 34 := by
      rw [← List.cons_append, List.getLast?_concat]
    simp only [Literal.render, h]
    decide
  | raw first rest =>
    refine ⟨by simp [Literal.render], ?_⟩
    simp only [Literal.wf, Bool.and_eq_true, isLiteralStart, Bool.or_eq_true,
      decide_eq_true_eq, List.all_eq_true] at hwf
    obtain ⟨hf, hr⟩ := hwf
    intro hlast
    have hmem := List.mem_of_getLast?_eq_some hlast
    simp only [Literal.render, List.mem_cons] at hmem
    rcases hmem with h | h
    · omega
    · have h2 := hr 41 h
      simp at h2

/-- A well-formed filter that ends with `)` contains a `(`. -/
theorem close_needs_open (P : Package) (hP : P.pathsDelimited)
    (h41 : P.isNonFirstAlphabet 41 = false) (f : Filter) :
    f.wf P = true → f.render.getLast? = some 41 → (40 : Nat) ∈ f.render := by
  induction f with
  | compare p o1 o2 l =>
    intro hwf hlast
    simp only [Filter.wf, Bool.and_eq_true, decide_eq_true_eq] at hwf
    obtain ⟨hne, hl⟩ := literal_last_not_close l hwf.2
    have hr : (Filter.compare p o1 o2 l).render = (p.render ++ [32, o1, o2, 32]) ++ l.render := by
      simp [Filter.render]
    rw [hr, List.getLast?_append_of_ne_nil _ hne] at hlast
    exact absurd hlast hl
  | present p k1 k2 =>
    intro hwf hlast
    simp only [Filter.wf, Bool.and_eq_true, decide_eq_true_eq] at hwf
    have hr : (Filter.present p k1 k2).render = (p.render ++ [32, k1]) ++ [k2] := by
      simp [Filter.render]
    rw [hr, List.getLast?_concat] at hlast
    have hk : k2 = 41 := Option.some.inj hlast
    have h114 := hwf.2
    rw [hk] at h114
    exact absurd h114 (by decide)
  | bare p =>
    intro hwf hlast
    simp only [Filter.wf] at hwf
    exact absurd (List.mem_of_getLast?_eq_some hlast) (path_no_close P hP h41 p hwf)
  | group f _ =>
    intro _ _
    simp [Filter.render]
  | negated k1 k2 k3 space f _ =>
    intro _ _
    simp [Filter.render]
  | conj f kw g _ ihg =>
    intro hwf hlast
    simp only [Filter.wf, Bool.and_eq_true] at hwf
    have hr : (Filter.conj f kw g).render = (f.render ++ (32 :: (kw ++ [32]))) ++ g.render := by
      simp [Filter.render]
    rw [hr, List.getLast?_append_of_ne_nil _ (render_ne_nil g)] at hlast
    rw [hr]
    exact List.mem_append_right _ (ihg hwf.1.2 hlast)

/-- C17 (as stated, refuted): `a eq 1)` is not the bytes of any well-formed
filter, yet its driven scan returns no error and returns the end-of-filter
action (at depth -1); the scans of `a..b eq 1` and of `a eq "x"]` return no
error either, the second one ending with the end-of-filter action. -/
theorem C17_counterexample :
    (¬ ∃ f : Filter, f.wf letters = true ∧ f.render = bytes "a eq 1)") ∧
      drive letters fresh (bytes "a eq 1)" ++ [0]) =
        ([⟨97, .stateBeginComplexPredicate, .scanFilterContinue, 0⟩,
         ⟨32, .stateInComplexPath, .scanFilterContinue, 0⟩,
         ⟨101, .stateBeginComplexOp, .scanFilterContinue, 0⟩,
         ⟨113, .stateComplexOpE, .scanFilterContinue, 0⟩,
         ⟨32, .stateComplexOpEq, .scanFilterContinue, 0⟩,
         ⟨49, .stateBeginComplexLiteral, .scanFilterContinue, 0⟩,
         ⟨41, .stateInComplexNonStringLiteral, .scanFilterInsertSpace, 0⟩,
         ⟨32, .stateInComplexNonStringLiteral, .scanFilterEndLiteral, 0⟩,
         ⟨41, .stateEndComplexLiteral, .scanFilterContinue, -1⟩,
         ⟨0, .stateEndComplexPredicate, .scanFilterEnd, -1⟩],
         ⟨.stateEOF, -1, none⟩) ∧
      drive letters fresh (bytes "a..b eq 1" ++ [0]) =
        ([⟨97, .stateBeginComplexPredicate, .scanFilterContinue, 0⟩,
         ⟨46, .stateInComplexPath, .scanFilterContinue, 0⟩,
         ⟨46, .stateInComplexPath, .scanFilterContinue, 0⟩,
         ⟨98, .stateInComplexPath, .scanFilterContinue, 0⟩,
         ⟨32, .stateInComplexPath, .scanFilterContinue, 0⟩,
         ⟨101, .stateBeginComplexOp, .scanFilterContinue, 0⟩,
         ⟨113, .stateComplexOpE, .scanFilterContinue, 0⟩,
         ⟨32, .stateComplexOpEq, .scanFilterContinue, 0⟩,
         ⟨49, .stateBeginComplexLiteral, .scanFilterContinue, 0⟩,
         ⟨0, .stateInComplexNonStringLiteral, .scanFilterEndLiteral, 0⟩],
         ⟨.stateEOF, 0, none⟩) ∧
      drive letters fresh (bytes "a eq \"x\"]" ++ [0]) =
        ([⟨97, .stateBeginComplexPredicate, .scanFilterContinue, 0⟩,
         ⟨32, .stateInComplexPath, .scanFilterContinue, 0⟩,
         ⟨101, .stateBeginComplexOp, .scanFilterContinue, 0⟩,
         ⟨113, .stateComplexOpE, .scanFilterContinue, 0⟩,
         ⟨32, .stateComplexOpEq, .scanFilterContinue, 0⟩,
         ⟨34, .stateBeginComplexLiteral, .scanFilterContinue, 0⟩,
         ⟨120, .stateInComplexStringLiteral, .scanFilterContinue, 0⟩,
         ⟨34, .stateInComplexStringLiteral, .scanFilterContinue, 0⟩,
         ⟨93, .stateEndComplexStringLiteral, .scanFilterContinue, 0⟩,
         ⟨0, .stateEndComplexPath, .scanFilterEnd, 0⟩],
         ⟨.stateEndComplexPredicate, 0, none⟩) := by
  refine ⟨?_, rfl, rfl, rfl⟩
  rintro ⟨f, hwf, hr⟩
  have hlast : f.render.getLast? = some 41 := by
    rw [hr]
    decide
  have hmem := close_needs_open letters letters_pathsDelimited (by decide) f hwf hlast
  rw [hr] at hmem
  exact absurd hmem (by decide)

/-- C17 (amended): the scanner rejects a byte only where the active state has
no transition for it; it does not check that path segments are non-empty,
that brackets match or that parentheses are balanced.  With `a` a first and
`b` a continuation character, the driven scans of `a..b eq 1`, `a eq "x"]` and
`a eq 1)`, each followed by the sentinel and started from a fresh scanner,
return no error: the first ends with the end-of-literal action, the second
with the end-of-filter action returned by `stateEndComplexPath`, the third
with the end-of-filter action at depth -1.  In the path state `.` and `:`
always return `Continue` and keep the state, and right after a string literal
`]` returns `Continue` and moves to `stateEndComplexPath`. -/
theorem C17_malformed_accepted (P : Package) (ha : P.isFirstAlphabet 97 = true)
    (hb : P.isNonFirstAlphabet 98 = true) (d : Int) (e : Option (Nat × String)) :
    drive P fresh (bytes "a..b eq 1" ++ [0]) =
      ([⟨97, .stateBeginComplexPredicate, .scanFilterContinue, 0⟩,
       ⟨46, .stateInComplexPath, .scanFilterContinue, 0⟩,
       ⟨46, .stateInComplexPath, .scanFilterContinue, 0⟩,
       ⟨98, .stateInComplexPath, .scanFilterContinue, 0⟩,
       ⟨32, .stateInComplexPath, .scanFilterContinue, 0⟩,
       ⟨101, .stateBeginComplexOp, .scanFilterContinue, 0⟩,
       ⟨113, .stateComplexOpE, .scanFilterContinue, 0⟩,
       ⟨32, .stateComplexOpEq, .scanFilterContinue, 0⟩,
       ⟨49, .stateBeginComplexLiteral, .scanFilterContinue, 0⟩,
       ⟨0, .stateInComplexNonStringLiteral, .scanFilterEndLiteral, 0⟩],
       ⟨.stateEOF, 0, none⟩) ∧
      drive P fresh (bytes "a eq \"x\"]" ++ [0]) =
        ([⟨97, .stateBeginComplexPredicate, .scanFilterContinue, 0⟩,
         ⟨32, .stateInComplexPath, .scanFilterContinue, 0⟩,
         ⟨101, .stateBeginComplexOp, .scanFilterContinue, 0⟩,
         ⟨113, .stateComplexOpE, .scanFilterContinue, 0⟩,
         ⟨32, .stateComplexOpEq, .scanFilterContinue, 0⟩,
         ⟨34, .stateBeginComplexLiteral, .scanFilterContinue, 0⟩,
         ⟨120, .stateInComplexStringLiteral, .scanFilterContinue, 0⟩,
         ⟨34, .stateInComplexStringLiteral, .scanFilterContinue, 0⟩,
         ⟨93, .stateEndComplexStringLiteral, .scanFilterContinue, 0⟩,
         ⟨0, .stateEndComplexPath, .scanFilterEnd, 0⟩],
         ⟨.stateEndComplexPredicate, 0, none⟩) ∧
      drive P fresh (bytes "a eq 1)" ++ [0]) =
        ([⟨97, .stateBeginComplexPredicate, .scanFilterContinue, 0⟩,
         ⟨32, .stateInComplexPath, .scanFilterContinue, 0⟩,
         ⟨101, .stateBeginComplexOp, .scanFilterContinue, 0⟩,
         ⟨113, .stateComplexOpE, .scanFilterContinue, 0⟩,
         ⟨32, .stateComplexOpEq, .scanFilterContinue, 0⟩,
         ⟨49, .stateBeginComplexLiteral, .scanFilterContinue, 0⟩,
         ⟨41, .stateInComplexNonStringLiteral, .scanFilterInsertSpace, 0⟩,
         ⟨32, .stateInComplexNonStringLiteral, .scanFilterEndLiteral, 0⟩,
         ⟨41, .stateEndComplexLiteral, .scanFilterContinue, -1⟩,
         ⟨0, .stateEndComplexPredicate, .scanFilterEnd, -1⟩],
         ⟨.stateEOF, -1, none⟩) ∧
      step P ⟨.stateInComplexPath, d, e⟩ 46 = (.scanFilterContinue, ⟨.stateInComplexPath, d, e⟩) ∧
      step P ⟨.stateInComplexPath, d, e⟩ 58 = (.scanFilterContinue, ⟨.stateInComplexPath, d, e⟩) ∧
      step P ⟨.stateEndComplexStringLiteral, d, e⟩ 93 =
        (.scanFilterContinue, ⟨.stateEndComplexPath, d, e⟩) := by
  rw [show bytes "a..b eq 1" ++ [0] = [97, 46, 46, 98, 32, 101, 113, 32, 49, 0] from by decide,
    show bytes "a eq \"x\"]" ++ [0] = [97, 32, 101, 113, 32, 34, 120, 34, 93, 0] from by decide,
    show bytes "a eq 1)" ++ [0] = [97, 32, 101, 113, 32, 49, 41, 0] from by decide]
  refine ⟨?_, ?_, ?_, ?_, ?_, ?_⟩ <;>
    simp [drive, feed, observe, hasAction, step, fresh, stateBeginComplexPredicate,
      stateInComplexPath, stateBeginComplexOp, stateComplexOpE, stateComplexOpEq,
      stateBeginComplexLiteral, stateInComplexNonStringLiteral, stateInComplexStringLiteral,
      stateEndComplexStringLiteral, stateEndComplexLiteral, stateEndComplexPredicate,
      stateEndComplexPath, ha, hb]

theorem C17_malformed_accepted_witness :
    step letters ⟨.stateEndComplexStringLiteral, 0, none⟩ 93 =
      (.scanFilterContinue, ⟨.stateEndComplexPath, 0, none⟩) :=
  (C17_malformed_accepted letters (by decide) (by decide) 0 none).2.2.2.2.2

/-! ## C15: keyword or path -/

/-- C15: in each of the three lookahead states of this file, a byte that is
`.`, `:` or a continuation character and is not the next letter of `not`
returns `Continue` and moves to the path state (for the state after `not`,
where a space and `(` are looked at first, these two are taken not to be
continuation characters).  With the chain `n`, `no`, `not` taken over these
three states and letters as path characters, the driven scan of
`notable eq 1` followed by the sentinel returns no error: `notable` is
consumed as a path. -/
theorem C15_lookahead_to_path (P : Package) (d : Int) (e : Option (Nat × String))
    (h32 : P.isNonFirstAlphabet 32 = false) (h40 : P.isNonFirstAlphabet 40 = false)
    (hP : P.lettersArePath) (hchain : P.chainInFile) :
    (∀ c, (c = 46 ∨ c = 58 ∨ P.isNonFirstAlphabet c = true) → c ≠ 111 → c ≠ 79 →
        step P ⟨.stateComplexN, d, e⟩ c = (.scanFilterContinue, ⟨.stateInComplexPath, d, e⟩)) ∧
      (∀ c, (c = 46 ∨ c = 58 ∨ P.isNonFirstAlphabet c = true) → c ≠ 116 → c ≠ 84 →
        step P ⟨.stateComplexNo, d, e⟩ c = (.scanFilterContinue, ⟨.stateInComplexPath, d, e⟩)) ∧
      (∀ c, (c = 46 ∨ c = 58 ∨ P.isNonFirstAlphabet c = true) →
        step P ⟨.stateComplexNot, d, e⟩ c =
          (.scanFilterContinue, ⟨.stateInComplexPath, d, e⟩)) ∧
      drive P fresh (bytes "notable eq 1" ++ [0]) =
        ([⟨110, .stateBeginComplexPredicate, .scanFilterBeginAny, 0⟩,
         ⟨111, .stateN, .scanFilterContinue, 0⟩,
         ⟨116, .stateNo, .scanFilterContinue, 0⟩,
         ⟨97, .stateNot, .scanFilterContinue, 0⟩,
         ⟨98, .stateInComplexPath, .scanFilterContinue, 0⟩,
         ⟨108, .stateInComplexPath, .scanFilterContinue, 0⟩,
         ⟨101, .stateInComplexPath, .scanFilterContinue, 0⟩,
         ⟨32, .stateInComplexPath, .scanFilterContinue, 0⟩,
         ⟨101, .stateBeginComplexOp, .scanFilterContinue, 0⟩,
         ⟨113, .stateComplexOpE, .scanFilterContinue, 0⟩,
         ⟨32, .stateComplexOpEq, .scanFilterContinue, 0⟩,
         ⟨49, .stateBeginComplexLiteral, .scanFilterContinue, 0⟩,
         ⟨0, .stateInComplexNonStringLiteral, .scanFilterEndLiteral, 0⟩],
         ⟨.stateEOF, 0, none⟩) := by
  have hF := lettersArePath_first P hP
  have hN := lettersArePath_nonFirst P hP
  refine ⟨?_, ?_, ?_, ?_⟩
  · intro c hc h1 h2
    simp [step, stateComplexN, h1, h2, hc]
  · intro c hc h1 h2
    simp [step, stateComplexNo, h1, h2, hc]
  · intro c hc
    have hc32 : c ≠ 32 := by
      rintro rfl
      rcases hc with h | h | h
      · exact absurd h (by decide)
      · exact absurd h (by decide)
      · rw [h32] at h; exact absurd h (by decide)
    have hc40 : c ≠ 40 := by
      rintro rfl
      rcases hc with h | h | h
      · exact absurd h (by decide)
      · exact absurd h (by decide)
      · rw [h40] at h; exact absurd h (by decide)
    simp [step, stateComplexNot, hc32, hc40, hc]
  · have h1 : ∀ fs c, P.outside .stateN fs c = stateComplexN P fs c := fun fs c => (hchain fs c).1
    have h2 : ∀ fs c, P.outside .stateNo fs c = stateComplexNo P fs c :=
      fun fs c => (hchain fs c).2.1
    have h3 : ∀ fs c, P.outside .stateNot fs c = stateComplexNot P fs c :=
      fun fs c => (hchain fs c).2.2
    rw [show bytes "notable eq 1" ++ [0] = [110, 111, 116, 97, 98, 108, 101, 32, 101, 113, 32, 49, 0] from by decide]
    simp [drive, feed, observe, hasAction, step, fresh, stateBeginComplexPredicate,
      stateComplexN, stateComplexNo, stateComplexNot, stateInComplexPath, stateBeginComplexOp,
      stateComplexOpE, stateComplexOpEq, stateBeginComplexLiteral,
      stateInComplexNonStringLiteral, h1, h2, h3, hF, hN, isLetter]

theorem C15_lookahead_to_path_witness :
    hasAction .scanFilterError
      (drive lettersChained fresh (bytes "notable eq 1" ++ [0])).1 = false :=
  congrArg (fun r => hasAction .scanFilterError r.1)
    (C15_lookahead_to_path lettersChained 0 none (by decide) (by decide)
      lettersChained_lettersArePath lettersChained_chainInFile).2.2.2

/-! ## C18: the lookahead states and the path state -/

/-- C18 (as stated, refuted): a space is handled by the path state with
`Continue` and a move to the operator-begin state, while the state after `n`
and the state after `no` answer the same space with an error. -/
theorem C18_counterexample :
    step letters ⟨.stateInComplexPath, 0, none⟩ 32 =
        (.scanFilterContinue, ⟨.stateBeginComplexOp, 0, none⟩) ∧
      step letters ⟨.stateComplexN, 0, none⟩ 32 =
        (.scanFilterError,
          ⟨.stateError, 0, some (32, "invalid character in complex path")⟩) ∧
      step letters ⟨.stateComplexNo, 0, none⟩ 32 =
        (.scanFilterError,
          ⟨.stateError, 0, some (32, "invalid character in complex path")⟩) := by
  refine ⟨?_, ?_, ?_⟩ <;> rfl

/-- C18 (amended): in the state after `n` every byte other than a space and
`o` / `O`, and in the state after `no` every byte other than a space and
`t` / `T`, gives exactly the result the path state gives.  On a space they
differ: the path state returns `Continue` and moves to the operator-begin
state, while the two lookahead states never reach the operator-begin state
and, a space not being a continuation character, return an error. -/
theorem C18_lookahead_vs_path (P : Package) (d : Int) (e : Option (Nat × String)) :
    (∀ c, c ≠ 32 → c ≠ 111 → c ≠ 79 →
        step P ⟨.stateComplexN, d, e⟩ c = step P ⟨.stateInComplexPath, d, e⟩ c) ∧
      (∀ c, c ≠ 32 → c ≠ 116 → c ≠ 84 →
        step P ⟨.stateComplexNo, d, e⟩ c = step P ⟨.stateInComplexPath, d, e⟩ c) ∧
      step P ⟨.stateInComplexPath, d, e⟩ 32 =
        (.scanFilterContinue, ⟨.stateBeginComplexOp, d, e⟩) ∧
      (step P ⟨.stateComplexN, d, e⟩ 32).2.step ≠ .stateBeginComplexOp ∧
      (step P ⟨.stateComplexNo, d, e⟩ 32).2.step ≠ .stateBeginComplexOp ∧
      (P.isNonFirstAlphabet 32 = false →
        step P ⟨.stateComplexN, d, e⟩ 32 =
            (.scanFilterError,
              ⟨.stateError, d, some (32, "invalid character in complex path")⟩) ∧
          step P ⟨.stateComplexNo, d, e⟩ 32 =
            (.scanFilterError,
              ⟨.stateError, d, some (32, "invalid character in complex path")⟩)) := by
  refine ⟨?_, ?_, ?_, ?_, ?_, ?_⟩
  · intro c h1 h2 h3
    by_cases hc : c = 46 ∨ c = 58 ∨ P.isNonFirstAlphabet c = true
    · simp [step, stateComplexN, stateInComplexPath, h1, h2, h3, hc]
    · simp [step, stateComplexN, stateInComplexPath, h1, h2, h3, hc, error]
  · intro c h1 h2 h3
    by_cases hc : c = 46 ∨ c = 58 ∨ P.isNonFirstAlphabet c = true
    · simp [step, stateComplexNo, stateInComplexPath, h1, h2, h3, hc]
    · simp [step, stateComplexNo, stateInComplexPath, h1, h2, h3, hc, error]
  · simp [step, stateInComplexPath]
  · cases h : P.isNonFirstAlphabet 32 <;> simp [step, stateComplexN, error, h]
  · cases h : P.isNonFirstAlphabet 32 <;> simp [step, stateComplexNo, error, h]
  · intro h
    constructor <;> simp [step, stateComplexN, stateComplexNo, error, h]

/-! ## C19: where the predicate-start state sends `n` -/

/-- No step taken in a state of this file enters one of the three lookahead
states of this file; only `(` read in the state after `not` stays there. -/
theorem lookahead_never_entered (P : Package) (st : State) (d : Int)
    (e : Option (Nat × String)) (c : Nat) (h : st.inFile = true)
    (hs : (step P ⟨st, d, e⟩ c).2.step = .stateComplexN ∨
      (step P ⟨st, d, e⟩ c).2.step = .stateComplexNo ∨
      (step P ⟨st, d, e⟩ c).2.step = .stateComplexNot) :
    st = .stateComplexNot ∧ c = 40 := by
  revert hs
  cases st <;> first | (exact absurd h (by decide)) | skip
  all_goals
    simp only [step, stateBeginComplexPredicate, stateEndComplexPredicate, stateComplexN,
      stateComplexNo, stateComplexNot, stateInComplexPath, stateEndComplexPath,
      stateBeginComplexOp, stateComplexOpA, stateComplexOpAn, stateComplexOpAnd, stateComplexOpC,
      stateComplexOpCo, stateComplexOpE, stateComplexOpEq, stateComplexOpEw, stateComplexOpG,
      stateComplexOpGt, stateComplexOpGe, stateComplexOpL, stateComplexOpLt, stateComplexOpLe,
      stateComplexOpN, stateComplexOpNe, stateComplexOpNo, stateComplexOpNot, stateComplexOpO,
      stateComplexOpOr, stateComplexOpP, stateComplexOpPr, stateComplexOpS, stateComplexOpSw,
      stateBeginComplexLiteral, stateEndComplexLiteral, stateInComplexStringLiteral,
      stateEndComplexStringLiteral, stateInComplexNonStringLiteral, stateInComplexStringEsc,
      stateInComplexStringEscU, stateInComplexStringEscU1, stateInComplexStringEscU12,
      stateInComplexStringEscU123, error, errInvalidOperator, apply_ite Prod.snd,
      apply_ite filterScanner.step, ite_eq_iff]
  all_goals simp

/-- C19 (the code at the failing input): on `n` / `N` the predicate-start state
returns `scanFilterBeginAny` and sets the next state to `stateN`, a function
that is not in this file, whereas every other first path character returns
`Continue` and moves to the path state of this file; `stateComplexN` on
`o` / `O` moves to `stateNo` and `stateComplexNo` on `t` / `T` to `stateNot`,
again outside this file.  No state of this file ever enters `stateComplexN`,
`stateComplexNo` or `stateComplexNot`. -/
theorem C19_predicate_start_n (P : Package) (d : Int) (e : Option (Nat × String)) :
    step P ⟨.stateBeginComplexPredicate, d, e⟩ 110 = (.scanFilterBeginAny, ⟨.stateN, d, e⟩) ∧
      step P ⟨.stateBeginComplexPredicate, d, e⟩ 78 = (.scanFilterBeginAny, ⟨.stateN, d, e⟩) ∧
      (∀ c, c ≠ 32 → c ≠ 110 → c ≠ 78 → c ≠ 40 → P.isFirstAlphabet c = true →
        step P ⟨.stateBeginComplexPredicate, d, e⟩ c =
          (.scanFilterContinue, ⟨.stateInComplexPath, d, e⟩)) ∧
      step P ⟨.stateComplexN, d, e⟩ 111 = (.scanFilterContinue, ⟨.stateNo, d, e⟩) ∧
      step P ⟨.stateComplexN, d, e⟩ 79 = (.scanFilterContinue, ⟨.stateNo, d, e⟩) ∧
      step P ⟨.stateComplexNo, d, e⟩ 116 = (.scanFilterContinue, ⟨.stateNot, d, e⟩) ∧
      step P ⟨.stateComplexNo, d, e⟩ 84 = (.scanFilterContinue, ⟨.stateNot, d, e⟩) ∧
      State.stateN.inFile = false ∧ State.stateNo.inFile = false ∧
      State.stateNot.inFile = false ∧
      (∀ (st : State) (c : Nat), st.inFile = true →
        ((step P ⟨st, d, e⟩ c).2.step = .stateComplexN ∨
          (step P ⟨st, d, e⟩ c).2.step = .stateComplexNo ∨
          (step P ⟨st, d, e⟩ c).2.step = .stateComplexNot) →
        st = .stateComplexNot ∧ c = 40) := by
  refine ⟨?_, ?_, ?_, ?_, ?_, ?_, ?_, rfl, rfl, rfl, ?_⟩
  · simp [step, stateBeginComplexPredicate]
  · simp [step, stateBeginComplexPredicate]
  · intro c h1 h2 h3 h4 h5
    simp [step, stateBeginComplexPredicate, h1, h2, h3, h4, h5]
  · simp [step, stateComplexN]
  · simp [step, stateComplexN]
  · simp [step, stateComplexNo]
  · simp [step, stateComplexNo]
  · intro st c h hs
    exact lookahead_never_entered P st d e c h hs

/-! ## C20: depth changes and the parenthesis action -/

/-- The steps of this file that return the parenthesis action. -/
theorem step_parenthesis_iff (P : Package) (st : State) (d : Int)
    (e : Option (Nat × String)) (c : Nat) (h : st.inFile = true) :
    (step P ⟨st, d, e⟩ c).1 = .scanFilterParenthesis ↔
      (st = .stateBeginComplexPredicate ∧ c = 40) ∨
        (st = .stateEndComplexPredicate ∧ c = 41) := by
  cases st <;> first | (exact absurd h (by decide)) | skip
  all_goals
    simp only [step, stateBeginComplexPredicate, stateEndComplexPredicate, stateComplexN,
      stateComplexNo, stateComplexNot, stateInComplexPath, stateEndComplexPath,
      stateBeginComplexOp, stateComplexOpA, stateComplexOpAn, stateComplexOpAnd, stateComplexOpC,
      stateComplexOpCo, stateComplexOpE, stateComplexOpEq, stateComplexOpEw, stateComplexOpG,
      stateComplexOpGt, stateComplexOpGe, stateComplexOpL, stateComplexOpLt, stateComplexOpLe,
      stateComplexOpN, stateComplexOpNe, stateComplexOpNo, stateComplexOpNot, stateComplexOpO,
      stateComplexOpOr, stateComplexOpP, stateComplexOpPr, stateComplexOpS, stateComplexOpSw,
      stateBeginComplexLiteral, stateEndComplexLiteral, stateInComplexStringLiteral,
      stateEndComplexStringLiteral, stateInComplexNonStringLiteral, stateInComplexStringEsc,
      stateInComplexStringEscU, stateInComplexStringEscU1, stateInComplexStringEscU12,
      stateInComplexStringEscU123, error, errInvalidOperator, apply_ite Prod.fst,
      ite_eq_iff]
  all_goals simp
  all_goals omega

/-- C20 (the code at the failing input): a `)` read in the literal-end state
lowers the depth by one and returns `Continue`, not the parenthesis action.
For every other state of this file and every byte, the depth changes exactly
when the parenthesis action is returned.  In the driven scan of `(a eq 1)` the
`(` is reported with the parenthesis action and the `)` that closes the group
is answered with `Continue`. -/
theorem C20_depth_and_parenthesis (P : Package) (d : Int) (e : Option (Nat × String)) :
    step P ⟨.stateEndComplexLiteral, d, e⟩ 41 =
        (.scanFilterContinue, ⟨.stateEndComplexPredicate, d - 1, e⟩) ∧
      (∀ (st : State) (c : Nat), st.inFile = true →
        ((step P ⟨st, d, e⟩ c).2.parenLevel ≠ d ↔
          ((step P ⟨st, d, e⟩ c).1 = .scanFilterParenthesis ∨
            (st = .stateEndComplexLiteral ∧ c = 41)))) ∧
      (P.isFirstAlphabet 97 = true →
        drive P fresh (bytes "(a eq 1)" ++ [0]) =
          ([⟨40, .stateBeginComplexPredicate, .scanFilterParenthesis, 1⟩,
           ⟨97, .stateBeginComplexPredicate, .scanFilterContinue, 1⟩,
           ⟨32, .stateInComplexPath, .scanFilterContinue, 1⟩,
           ⟨101, .stateBeginComplexOp, .scanFilterContinue, 1⟩,
           ⟨113, .stateComplexOpE, .scanFilterContinue, 1⟩,
           ⟨32, .stateComplexOpEq, .scanFilterContinue, 1⟩,
           ⟨49, .stateBeginComplexLiteral, .scanFilterContinue, 1⟩,
           ⟨41, .stateInComplexNonStringLiteral, .scanFilterInsertSpace, 1⟩,
           ⟨32, .stateInComplexNonStringLiteral, .scanFilterEndLiteral, 1⟩,
           ⟨41, .stateEndComplexLiteral, .scanFilterContinue, 0⟩,
           ⟨0, .stateEndComplexPredicate, .scanFilterEnd, 0⟩],
           ⟨.stateEOF, 0, none⟩)) := by
  refine ⟨?_, ?_, ?_⟩
  · simp [step, stateEndComplexLiteral]
  · intro st c h
    rw [step_depth P st d e c h, step_parenthesis_iff P st d e c h]
    by_cases h1 : st = .stateBeginComplexPredicate ∧ c = 40
    · simp [h1]
    · by_cases h2 : (st = .stateEndComplexPredicate ∨ st = .stateEndComplexLiteral) ∧ c = 41
      · rw [if_neg h1, if_pos h2]
        have hd : d - 1 ≠ d := by omega
        simp only [ne_eq, hd, not_false_eq_true, true_iff]
        rcases h2 with ⟨h2 | h2, h3⟩
        · exact Or.inl (Or.inr ⟨h2, h3⟩)
        · exact Or.inr ⟨h2, h3⟩
      · rw [if_neg h1, if_neg h2]
        simp only [ne_eq, not_true_eq_false, false_iff]
        rintro ((h3 | h3) | h3)
        · exact h1 h3
        · exact h2 ⟨Or.inl h3.1, h3.2⟩
        · exact h2 ⟨Or.inr h3.1, h3.2⟩
  · intro ha
    rw [show bytes "(a eq 1)" ++ [0] = [40, 97, 32, 101, 113, 32, 49, 41, 0] from by decide]
    simp [drive, feed, observe, hasAction, step, fresh, stateBeginComplexPredicate,
      stateInComplexPath, stateBeginComplexOp, stateComplexOpE, stateComplexOpEq,
      stateBeginComplexLiteral, stateInComplexNonStringLiteral, stateEndComplexLiteral,
      stateEndComplexPredicate, ha]

/-! ## C21: parentheses inside a string literal -/

/-- A run of bytes without backslash and double quote, read inside a string
literal: every byte returns `Continue` at the same depth and the scanner does
not move. -/
theorem drive_in_string (P : Package) (d : Int) (e : Option (Nat × String)) (cs : List Nat)
    (h : ∀ c ∈ cs, c ≠ 92 ∧ c ≠ 34) :
    drive P ⟨.stateInComplexStringLiteral, d, e⟩ cs =
      (cs.map (fun c => ⟨c, .stateInComplexStringLiteral, .scanFilterContinue, d⟩),
        ⟨.stateInComplexStringLiteral, d, e⟩) := by
  induction cs with
  | nil => rfl
  | cons c cs ih =>
    have hc := h c (List.mem_cons_self c cs)
    have hfeed : feed P ⟨.stateInComplexStringLiteral, d, e⟩ c =
        ([⟨c, .stateInComplexStringLiteral, .scanFilterContinue, d⟩],
          ⟨.stateInComplexStringLiteral, d, e⟩) := by
      simp [feed, observe, step, stateInComplexStringLiteral, hc.1, hc.2]
    rw [drive_cons, hfeed, ih (fun x hx => h x (List.mem_cons_of_mem c hx))]
    simp [hasAction]

/-- C21: a step taken in the in-string state or in one of its five escape
states leaves the depth unchanged, for every depth and every byte; in the
in-string state every byte other than a backslash and a double quote, `(`,
`)` and a space included, returns `Continue` and leaves the scanner
unchanged; so a whole run of such bytes is consumed at the same depth, as
`(x) y` inside a string literal. -/
theorem C21_string_parentheses (P : Package) (d : Int) (e : Option (Nat × String)) :
    (∀ (st : State) (c : Nat),
        (st = .stateInComplexStringLiteral ∨ st = .stateInComplexStringEsc ∨
          st = .stateInComplexStringEscU ∨ st = .stateInComplexStringEscU1 ∨
          st = .stateInComplexStringEscU12 ∨ st = .stateInComplexStringEscU123) →
        (step P ⟨st, d, e⟩ c).2.parenLevel = d) ∧
      (∀ c, c ≠ 92 → c ≠ 34 →
        step P ⟨.stateInComplexStringLiteral, d, e⟩ c =
          (.scanFilterContinue, ⟨.stateInComplexStringLiteral, d, e⟩)) ∧
      step P ⟨.stateInComplexStringLiteral, d, e⟩ 40 =
        (.scanFilterContinue, ⟨.stateInComplexStringLiteral, d, e⟩) ∧
      step P ⟨.stateInComplexStringLiteral, d, e⟩ 41 =
        (.scanFilterContinue, ⟨.stateInComplexStringLiteral, d, e⟩) ∧
      step P ⟨.stateInComplexStringLiteral, d, e⟩ 32 =
        (.scanFilterContinue, ⟨.stateInComplexStringLiteral, d, e⟩) ∧
      (∀ cs : List Nat, (∀ c ∈ cs, c ≠ 92 ∧ c ≠ 34) →
        drive P ⟨.stateInComplexStringLiteral, d, e⟩ cs =
          (cs.map (fun c => ⟨c, .stateInComplexStringLiteral, .scanFilterContinue, d⟩),
            ⟨.stateInComplexStringLiteral, d, e⟩)) ∧
      drive P ⟨.stateInComplexStringLiteral, d, e⟩ (bytes "(x) y") =
        ([⟨40, .stateInComplexStringLiteral, .scanFilterContinue, d⟩,
          ⟨120, .stateInComplexStringLiteral, .scanFilterContinue, d⟩,
          ⟨41, .stateInComplexStringLiteral, .scanFilterContinue, d⟩,
          ⟨32, .stateInComplexStringLiteral, .scanFilterContinue, d⟩,
          ⟨121, .stateInComplexStringLiteral, .scanFilterContinue, d⟩],
         ⟨.stateInComplexStringLiteral, d, e⟩) := by
  have hplain : ∀ c, c ≠ 92 → c ≠ 34 →
      step P ⟨.stateInComplexStringLiteral, d, e⟩ c =
        (.scanFilterContinue, ⟨.stateInComplexStringLiteral, d, e⟩) := by
    intro c h1 h2
    simp [step, stateInComplexStringLiteral, h1, h2]
  refine ⟨?_, hplain, hplain 40 (by decide) (by decide), hplain 41 (by decide) (by decide),
    hplain 32 (by decide) (by decide), fun cs h => drive_in_string P d e cs h, ?_⟩
  · intro st c hst
    have hin : st.inFile = true := by
      rcases hst with h | h | h | h | h | h <;> subst h <;> rfl
    rw [step_depth P st d e c hin]
    rcases hst with h | h | h | h | h | h <;> subst h <;> simp
  · rw [show bytes "(x) y" = [40, 120, 41, 32, 121] from by decide]
    rw [drive_in_string P d e _ (by decide)]
    rfl

end FilterComplex
